import Mathlib

/-!
ASU-STAR-RECORDER: buffered record files, storage volume, session controller and GPS
time conversion.

A shallow embedding of `src/drivers/sdcard/sdcard.{h,cpp}`, `src/session_manager.h`,
`src/drivers/gps/gps_utils.h` and the RMC parser of `src/drivers/gps/gps_driver.cpp`.

* C++ objects become structures, member functions become functions that take the
  object and the global environment and return the result with the new object and
  environment.
* The FatFS library (`ff.h`: `f_open`, `f_write`, `f_sync`, ...) is not part of the
  repository.  It is modelled by `FatFs`: the root directory of the medium, a list of
  outcomes for the future calls of each primitive (an exhausted list means the call
  succeeds) and the log of the calls made so far.
* `int` is a 32-bit two's complement integer (`wrap32`), `uint32_t`/`size_t` are
  naturals modulo `2^32`, `long` is 32 bits wide as on the RP2040 target.
-/

namespace Recorder

/-- A C string or byte buffer: the characters before the terminating NUL. -/
abbrev Bytes := List Char

/-! ## FatFS primitives (external library, modelled) -/

/-- Result codes of `ff.h` that the drivers distinguish. -/
inductive FRESULT
  | FR_OK
  | FR_DISK_ERR
  | FR_EXIST
  deriving DecidableEq, Repr

/-- Directory attribute bit of `FILINFO.fattrib` (`ff.h`). -/
def AM_DIR : Nat := 0x10
/-- Open mode flags of `ff.h`. -/
def FA_WRITE : Nat := 0x02
def FA_CREATE_ALWAYS : Nat := 0x08
def FA_OPEN_APPEND : Nat := 0x30

/-- One directory entry as `f_readdir` reports it. -/
structure FILINFO where
  fname : Bytes
  fattrib : Nat
  deriving DecidableEq, Repr

/-- Outcome of one `f_write` call: complete, `FR_OK` with fewer bytes transferred
(full medium), or an error after some bytes were transferred. -/
inductive WOut
  | ok
  | short (n : Nat)
  | err (n : Nat)
  deriving DecidableEq, Repr

/-- Calls made to the FatFS library, in order. -/
inductive Event
  | mount (ok : Bool)
  | unmount
  | mkdir (path : Bytes) (res : FRESULT)
  | opendir (path : Bytes) (ok : Bool)
  | fopen (path : Bytes) (mode : Nat) (ok : Bool)
  | fwrite (path : Bytes) (bytes : Bytes) (ok : Bool)
  | fsync (path : Bytes) (ok : Bool)
  | fclose (path : Bytes) (ok : Bool)
  deriving DecidableEq, Repr

/-- The medium behind FatFS: the entries of the root directory, the entries of the
other directories by path, the outcomes of the future calls and the log.  In the outcome
lists `true` marks a call that fails. -/
structure FatFs where
  root : List FILINFO := []
  subdirs : List (Bytes × List FILINFO) := []
  wrOut : List WOut := []
  syFail : List Bool := []
  clFail : List Bool := []
  opFail : List Bool := []
  mkFail : List Bool := []
  odFail : List Bool := []
  rdFail : List Bool := []
  mtFail : List Bool := []
  log : List Event := []
  deriving DecidableEq, Repr

/-- An open file object of FatFS: where it was opened, how, and the bytes `f_write`
has transferred to it since; `synced` is the number of those bytes covered by the
last successful `f_sync`. -/
structure FIL where
  path : Bytes := []
  mode : Nat := 0
  data : Bytes := []
  synced : Nat := 0
  deriving DecidableEq, Repr

def f_mount (fs : FatFs) : FRESULT × FatFs :=
  if fs.mtFail.head? = some true then
    (FRESULT.FR_DISK_ERR, { fs with mtFail := fs.mtFail.tail, log := fs.log ++ [Event.mount false] })
  else
    (FRESULT.FR_OK, { fs with mtFail := fs.mtFail.tail, log := fs.log ++ [Event.mount true] })

def f_unmount (fs : FatFs) : FatFs :=
  { fs with log := fs.log ++ [Event.unmount] }

/-- Directories of the root whose name is `path`. -/
def dirExists (fs : FatFs) (path : Bytes) : Bool :=
  fs.root.any (fun e => e.fname = path ∧ e.fattrib &&& AM_DIR ≠ 0)

def f_mkdir (fs : FatFs) (path : Bytes) : FRESULT × FatFs :=
  if fs.mkFail.head? = some true then
    (FRESULT.FR_DISK_ERR,
      { fs with mkFail := fs.mkFail.tail, log := fs.log ++ [Event.mkdir path FRESULT.FR_DISK_ERR] })
  else if fs.root.any (fun e => e.fname = path) then
    (FRESULT.FR_EXIST,
      { fs with mkFail := fs.mkFail.tail, log := fs.log ++ [Event.mkdir path FRESULT.FR_EXIST] })
  else
    (FRESULT.FR_OK,
      { fs with mkFail := fs.mkFail.tail, root := fs.root ++ [{ fname := path, fattrib := AM_DIR }],
                subdirs := fs.subdirs ++ [(path, [])],
                log := fs.log ++ [Event.mkdir path FRESULT.FR_OK] })

/-- Model of `f_opendir`: on success the entries that `f_readdir` will go through. -/
def f_opendir (fs : FatFs) (path : Bytes) : FRESULT × List FILINFO × FatFs :=
  let listing : Option (List FILINFO) :=
    if path = [] then some fs.root else (fs.subdirs.find? (fun d => d.1 = path)).map (fun d => d.2)
  match listing, fs.odFail.head? with
  | some entries, none | some entries, some false =>
    (FRESULT.FR_OK, entries,
      { fs with odFail := fs.odFail.tail, log := fs.log ++ [Event.opendir path true] })
  | _, _ =>
    (FRESULT.FR_DISK_ERR, [],
      { fs with odFail := fs.odFail.tail, log := fs.log ++ [Event.opendir path false] })

def f_open (fs : FatFs) (fil : FIL) (path : Bytes) (mode : Nat) : FRESULT × FIL × FatFs :=
  if fs.opFail.head? = some true then
    (FRESULT.FR_DISK_ERR, fil,
      { fs with opFail := fs.opFail.tail, log := fs.log ++ [Event.fopen path mode false] })
  else
    (FRESULT.FR_OK, { path := path, mode := mode, data := [], synced := 0 },
      { fs with opFail := fs.opFail.tail, log := fs.log ++ [Event.fopen path mode true] })

/-- Number of bytes one `f_write` call of `btw` bytes transfers under an outcome. -/
def WOut.written (o : WOut) (btw : Nat) : Nat :=
  match o with
  | WOut.ok => btw
  | WOut.short n => min n btw
  | WOut.err n => min n btw

def WOut.result (o : WOut) : FRESULT :=
  match o with
  | WOut.err _ => FRESULT.FR_DISK_ERR
  | _ => FRESULT.FR_OK

/-- Model of `f_write(&fil, buf, btw, &written)`: returns the result code and `written`. -/
def f_write (fs : FatFs) (fil : FIL) (buf : Bytes) (btw : Nat) :
    FRESULT × Nat × FIL × FatFs :=
  let o := fs.wrOut.head?.getD WOut.ok
  let written := o.written btw
  let bytes := (buf.take btw).take written
  (o.result, written, { fil with data := fil.data ++ bytes },
    { fs with wrOut := fs.wrOut.tail,
              log := fs.log ++ [Event.fwrite fil.path bytes
                (decide (o.result = FRESULT.FR_OK ∧ written = btw))] })

def f_sync (fs : FatFs) (fil : FIL) : FRESULT × FIL × FatFs :=
  if fs.syFail.head? = some true then
    (FRESULT.FR_DISK_ERR, fil,
      { fs with syFail := fs.syFail.tail, log := fs.log ++ [Event.fsync fil.path false] })
  else
    (FRESULT.FR_OK, { fil with synced := fil.data.length },
      { fs with syFail := fs.syFail.tail, log := fs.log ++ [Event.fsync fil.path true] })

def f_close (fs : FatFs) (fil : FIL) : FRESULT × FatFs :=
  if fs.clFail.head? = some true then
    (FRESULT.FR_DISK_ERR, { fs with clFail := fs.clFail.tail, log := fs.log ++ [Event.fclose fil.path false] })
  else
    (FRESULT.FR_OK, { fs with clFail := fs.clFail.tail, log := fs.log ++ [Event.fclose fil.path true] })

/-! ## `SDCard` (sdcard.h / sdcard.cpp) -/

/-- `SDCard::MAX_FILES`. -/
def MAX_FILES : Nat := 8

/-- The singleton's fields that the driver reads and writes (`open_files` is `uint8_t`). -/
structure SDCard where
  initialized : Bool := false
  mounted : Bool := false
  open_files : Nat := 0
  deriving DecidableEq, Repr

/-- The program's globals: the `SDCard` singleton and the medium. -/
structure Env where
  sd : SDCard := {}
  fs : FatFs := {}
  deriving DecidableEq, Repr

def SDCard.init (sd : SDCard) : Bool × SDCard :=
  if sd.initialized then (true, sd) else (true, { sd with initialized := true })

def SDCard.mount (env : Env) : Bool × Env :=
  let (okInit, sd) :=
    if env.sd.initialized then (true, env.sd) else env.sd.init
  if !okInit then (false, { env with sd := sd })
  else if sd.mounted then (true, { env with sd := sd })
  else
    let (res, fs) := f_mount env.fs
    let m := decide (res = FRESULT.FR_OK)
    (m, { sd := { sd with mounted := m }, fs := fs })

def SDCard.shutdown (env : Env) : Env :=
  let sd := if env.sd.open_files > 0 then { env.sd with open_files := 0 } else env.sd
  let (sd, fs) :=
    if sd.mounted then ({ sd with mounted := false }, f_unmount env.fs) else (sd, env.fs)
  { sd := { sd with initialized := false }, fs := fs }

def SDCard.isMounted (sd : SDCard) : Bool := sd.mounted

def SDCard.createFolder (env : Env) (path : Bytes) : Bool × Env :=
  if !env.sd.mounted then (false, env)
  else
    let (res, fs) := f_mkdir env.fs path
    (decide (res = FRESULT.FR_OK ∨ res = FRESULT.FR_EXIST), { env with fs := fs })

def SDCard.registerFile (sd : SDCard) : Bool × SDCard :=
  if sd.open_files ≥ MAX_FILES then (false, sd)
  else (true, { sd with open_files := (sd.open_files + 1) % 256 })

def SDCard.unregisterFile (sd : SDCard) : SDCard :=
  if sd.open_files > 0 then { sd with open_files := sd.open_files - 1 } else sd

/-! ## `SDFile` (sdcard.h / sdcard.cpp) -/

/-- `SDFile::BUFFER_SIZE`. -/
def BUFFER_SIZE : Nat := 512

/-- Size of the formatting scratch array `char temp[256]` in `SDFile::write`. -/
def TEMP_SIZE : Nat := 256

/-- Subtraction of `size_t`/`uint32_t` values (32 bits on the target). -/
def subU32 (a b : Nat) : Nat := (a + 2 ^ 32 - b % 2 ^ 32) % 2 ^ 32

structure SDFile where
  fil : FIL := {}
  is_open : Bool := false
  buffer : Bytes := List.replicate BUFFER_SIZE (Char.ofNat 0)
  buffer_pos : Nat := 0
  deriving DecidableEq, Repr

/-- `SDFile::SDFile()`. -/
def SDFile.new : SDFile := {}

def SDFile.isOpen (f : SDFile) : Bool := f.is_open

/-- The bytes written since the last flush: the first `buffer_pos` bytes of `buffer`. -/
def SDFile.pending (f : SDFile) : Bytes := f.buffer.take f.buffer_pos

/-- `memcpy(buffer + pos, src, n)` on the array `buffer`. -/
def memcpy (buffer : Bytes) (pos : Nat) (src : Bytes) (n : Nat) : Bytes :=
  buffer.take pos ++ src.take n ++ buffer.drop (pos + n)

def SDFile.flushBuffer (f : SDFile) (fs : FatFs) : Bool × SDFile × FatFs :=
  if f.buffer_pos = 0 then (true, f, fs)
  else
    match f_write fs f.fil f.buffer f.buffer_pos with
    | (fr, written, fil, fs1) =>
      if fr ≠ FRESULT.FR_OK ∨ written ≠ f.buffer_pos then
        (false, { f with fil := fil }, fs1)
      else
        (true, { f with fil := fil, buffer_pos := 0 }, fs1)

def SDFile.close (f : SDFile) (env : Env) : Bool × SDFile × Env :=
  if !f.is_open then (true, f, env)
  else
    match f.flushBuffer env.fs with
    | (flushed, f1, fs1) =>
      if !flushed then (false, f1, { env with fs := fs1 })
      else
        match f_close fs1 f1.fil with
        | (result, fs2) =>
          (decide (result = FRESULT.FR_OK), { f1 with is_open := false },
            { sd := env.sd.unregisterFile, fs := fs2 })

def SDFile.open (f : SDFile) (env : Env) (path : Bytes) (append : Bool) :
    Bool × SDFile × Env :=
  match (if f.is_open then f.close env else (true, f, env)) with
  | (_, f1, env1) =>
    if !env1.sd.isMounted then (false, f1, env1)
    else
      match env1.sd.registerFile with
      | (registered, sd2) =>
        if !registered then (false, f1, { env1 with sd := sd2 })
        else
          let mode := if append then FA_WRITE ||| FA_OPEN_APPEND else FA_WRITE ||| FA_CREATE_ALWAYS
          match f_open env1.fs f1.fil path mode with
          | (fr, fil, fs3) =>
            let opened := decide (fr = FRESULT.FR_OK)
            let sd3 := if !opened then sd2.unregisterFile else sd2
            (opened, { f1 with fil := fil, is_open := opened, buffer_pos := 0 },
              { sd := sd3, fs := fs3 })

/-- The `while (bytes_to_write > 0)` loop of `SDFile::write`; `src` is what is left to
copy.  `none` when `fuel` iterations do not finish the loop. -/
def SDFile.writeLoop (fuel : Nat) (f : SDFile) (fs : FatFs) (src : Bytes) :
    Option (Bool × SDFile × FatFs) :=
  if src.length = 0 then some (true, f, fs)
  else
    match fuel with
    | 0 => none
    | fuel + 1 =>
      let space := subU32 BUFFER_SIZE f.buffer_pos
      let to_copy := if src.length < space then src.length else space
      let f1 := { f with buffer := memcpy f.buffer f.buffer_pos src to_copy,
                         buffer_pos := f.buffer_pos + to_copy }
      let src1 := src.drop to_copy
      if f1.buffer_pos ≥ BUFFER_SIZE then
        match f1.flushBuffer fs with
        | (flushed, f2, fs2) =>
          if !flushed then some (false, f2, fs2)
          else SDFile.writeLoop fuel f2 fs2 src1
      else SDFile.writeLoop fuel f1 fs src1

/-- `SDFile::write(format, ...)`.  `formatted` is what `vsnprintf` produces for the
arguments: `none` when it reports an error (`len < 0`), otherwise the whole formatted
text, of which `temp` receives the first `TEMP_SIZE - 1` bytes.  The console echo
(`printf`) is not part of the model. -/
def SDFile.write (f : SDFile) (env : Env) (formatted : Option Bytes) : Bool × SDFile × Env :=
  if !f.is_open then (false, f, env)
  else
    match formatted with
    | none => (false, f, env)
    | some text =>
      let len := if text.length ≥ TEMP_SIZE then TEMP_SIZE - 1 else text.length
      let src := text.take len
      match SDFile.writeLoop (2 * len + 1) f env.fs src with
      | some (r, f1, fs1) => (r, f1, { env with fs := fs1 })
      | none => (false, f, env)

def SDFile.sync (f : SDFile) (env : Env) : Bool × SDFile × Env :=
  if !f.is_open then (false, f, env)
  else
    match f.flushBuffer env.fs with
    | (flushed, f1, fs1) =>
      if !flushed then (false, f1, { env with fs := fs1 })
      else
        match f_sync fs1 f1.fil with
        | (res, fil, fs2) =>
          (decide (res = FRESULT.FR_OK), { f1 with fil := fil }, { env with fs := fs2 })

/-! ## `SDCard::findHighestNumberedFolder` -/

/-- `INT_MAX` = `LONG_MAX` on the target. -/
def INT_MAX : Int := 2 ^ 31 - 1
/-- `INT_MIN` = `LONG_MIN` on the target. -/
def INT_MIN : Int := -(2 ^ 31)

/-- Two's complement wrap of a result to `int`. -/
def wrap32 (x : Int) : Int := (x + 2 ^ 31) % 2 ^ 32 - 2 ^ 31

/-- `isspace` in the C locale. -/
def isspace (c : Char) : Bool :=
  c = ' ' || c = '\t' || c = '\n' || c = Char.ofNat 11 || c = Char.ofNat 12 || c = '\r'

/-- `isdigit`. -/
def isdigit (c : Char) : Bool := decide ('0' ≤ c ∧ c ≤ '9')

/-- Value of a run of decimal digits. -/
def digitsValue (ds : Bytes) : Nat :=
  ds.foldl (fun acc c => acc * 10 + (c.toNat - 48)) 0

/-- `strtol(nptr, &endptr, 10)` of the C library (not part of the repository): white
space is skipped, one sign is accepted, then the longest run of digits is converted
and clamped to `[LONG_MIN, LONG_MAX]`.  Returns the value and what `endptr` points to;
without any digit the value is 0 and `endptr` is `nptr`. -/
def strtol (nptr : Bytes) : Int × Bytes :=
  let s1 := nptr.dropWhile isspace
  let neg : Bool := s1.head? = some '-'
  let s2 := if s1.head? = some '-' ∨ s1.head? = some '+' then s1.tail else s1
  let ds := s2.takeWhile isdigit
  let rest := s2.dropWhile isdigit
  if ds = [] then (0, nptr)
  else
    let v : Int := digitsValue ds
    if neg then (if v > -INT_MIN then INT_MIN else -v, rest)
    else (if v > INT_MAX then INT_MAX else v, rest)

/-- One pass of the body of the `f_readdir` loop for an entry that was read. -/
def scanEntry (highest : Int) (fno : FILINFO) : Int :=
  if fno.fattrib &&& AM_DIR ≠ 0 then
    match strtol fno.fname with
    | (num, endptr) =>
      if endptr = [] ∧ num ≥ 0 then
        if num > highest then num else highest
      else highest
  else highest

/-- The `while (true)` loop over `f_readdir`: `entries` are the entries not yet read,
`rdFail` the outcomes of the coming `f_readdir` calls.  Returns `highest` and the
outcomes left. -/
def readdirLoop : List FILINFO → List Bool → Int → Int × List Bool
  | [], rdFail, highest => (highest, rdFail.tail)
  | fno :: entries, rdFail, highest =>
    if rdFail.head? = some true ∨ fno.fname = [] then (highest, rdFail.tail)
    else readdirLoop entries rdFail.tail (scanEntry highest fno)

def SDCard.findHighestNumberedFolder (env : Env) (pfx : Bytes) : Int × Env :=
  if !env.sd.mounted then (-1, env)
  else
    match f_opendir env.fs pfx with
    | (res, entries, fs1) =>
      if res ≠ FRESULT.FR_OK then (-1, { env with fs := fs1 })
      else
        match readdirLoop entries fs1.rdFail (-1) with
        | (highest, rdFail) => (highest, { env with fs := { fs1 with rdFail := rdFail } })

/-! ## `snprintf` with `%d` -/

/-- Decimal digits of `n`, most significant first, in front of `acc`. -/
def fmtNatAux : Nat → Nat → Bytes → Bytes
  | 0, _, acc => acc
  | fuel + 1, n, acc =>
    if n / 10 = 0 then Char.ofNat (48 + n % 10) :: acc
    else fmtNatAux fuel (n / 10) (Char.ofNat (48 + n % 10) :: acc)

def fmtNat (n : Nat) : Bytes := fmtNatAux (n + 1) n []

/-- What `%d` prints for an `int` (the C library is not part of the repository). -/
def fmtInt (x : Int) : Bytes :=
  if x < 0 then '-' :: fmtNat x.natAbs else fmtNat x.toNat

/-! ## `SessionManager` (session_manager.h) -/

structure FileConfig where
  filename : Bytes
  header : Bytes
  enabled : Bool
  deriving DecidableEq, Repr

/-- `SessionManager::FILE_COUNT`. -/
def FILE_COUNT : Nat := 3

/-- `SessionManager::file_configs`, in the order `FLIGHT`, `GPS`, `PITOT`. -/
def file_configs : List FileConfig :=
  [ { filename := "flight.txt".toList,
      header := "time_ms,accel_x,accel_y,accel_z,gyro_x,gyro_y,gyro_z,altitude,pressure,temperature\n".toList,
      enabled := true },
    { filename := "gps.txt".toList,
      header := "time_ms,unix_time,latitude,longitude,altitude_mm,vel_north_mm_s,vel_east_mm_s,vel_down_mm_s,heading,h_accuracy,v_accuracy,speed_accuracy,heading_accuracy,valid\n".toList,
      enabled := true },
    { filename := "pitot.txt".toList,
      header := "time_ms,airspeed_ms,airspeed_mph,pressure_psi\n".toList,
      enabled := true } ]

/-- `SessionManager::DOUBLE_PRESS_TIMEOUT_MS`. -/
def DOUBLE_PRESS_TIMEOUT_MS : Nat := 500

/-- The members of `SessionManager`.  `session_files` is the array of `FILE_COUNT`
files; `debug_file` is the object behind the pointer (`none` for `nullptr`); `led` is
the level last put on the LED pin. -/
structure SessionManager where
  toggle_state : Bool := false
  last_toggle_state : Bool := false
  button_state : Bool := true
  last_button_state : Bool := true
  logging_active : Bool := false
  current_folder_num : Int := -1
  last_button_press_time : Nat := 0
  button_press_count : Int := 0
  shutdown_requested : Bool := false
  session_files : List SDFile := List.replicate FILE_COUNT SDFile.new
  debug_file : Option SDFile := none
  led : Bool := false
  deriving DecidableEq, Repr

/-! Texts of the debug log, as the format strings and their arguments produce them. -/

def MSG_STARTUP_ON : Bytes := "[STARTUP] Toggle is ON - starting logging\n".toList
def MSG_STARTUP_OFF : Bytes := "[STARTUP] Toggle is OFF - waiting to start\n".toList
def MSG_BUTTON : Bytes := "[BUTTON] Creating new session\n".toList
def MSG_SHUTDOWN : Bytes := "[SHUTDOWN] Double-press detected - requesting shutdown\n".toList
def MSG_TOGGLE_ON : Bytes := "[TOGGLE] ON - starting logging\n".toList
def MSG_TOGGLE_OFF : Bytes := "[TOGGLE] OFF - stopping logging\n".toList
def MSG_STOPPED : Bytes := "[SESSION][--] Stopped logging\n".toList

/-- `"[SESSION][XX] Failed to create folder %s\n"`. -/
def msgFolderFailed (folder_path : Bytes) : Bytes :=
  "[SESSION][XX] Failed to create folder ".toList ++ folder_path ++ "\n".toList

/-- `"[SESSION][XX] Failed to create %s in folder %d\n"`. -/
def msgCreateFailed (filename : Bytes) (folder : Int) : Bytes :=
  "[SESSION][XX] Failed to create ".toList ++ filename ++ " in folder ".toList ++
    fmtInt folder ++ "\n".toList

/-- `"[SESSION][OK] Started session %d\n"`. -/
def msgStarted (folder : Int) : Bytes :=
  "[SESSION][OK] Started session ".toList ++ fmtInt folder ++ "\n".toList

/-- `"%d/%s"`. -/
def sessionFilePath (folder : Int) (filename : Bytes) : Bytes :=
  fmtInt folder ++ "/".toList ++ filename

/-- The recurring `if (debug_file) { debug_file->write(...); }` with the text that the
format and its arguments produce. -/
def debugWrite (dbg : Option SDFile) (env : Env) (text : Bytes) : Option SDFile × Env :=
  match dbg with
  | none => (none, env)
  | some d =>
    match d.write env (some text) with
    | (_, d1, env1) => (some d1, env1)

/-- The loop of `SessionManager::closeAllFiles` over `session_files`. -/
def closeAllFiles : List SDFile → Env → List SDFile × Env
  | [], env => ([], env)
  | f :: rest, env =>
    if f.isOpen then
      match f.sync env with
      | (_, f1, env1) =>
        match f1.close env1 with
        | (_, f2, env2) =>
          match closeAllFiles rest env2 with
          | (rest2, env3) => (f2 :: rest2, env3)
    else
      match closeAllFiles rest env with
      | (rest1, env1) => (f :: rest1, env1)

/-- The loop of `SessionManager::syncAllFiles` over `session_files`. -/
def syncAllFiles : List SDFile → Env → List SDFile × Env
  | [], env => ([], env)
  | f :: rest, env =>
    if f.isOpen then
      match f.sync env with
      | (_, f1, env1) =>
        match syncAllFiles rest env1 with
        | (rest2, env2) => (f1 :: rest2, env2)
    else
      match syncAllFiles rest env with
      | (rest1, env1) => (f :: rest1, env1)

/-- Result of the file loop of `createNewSession`. -/
structure OpenResult where
  files : List SDFile
  dbg : Option SDFile
  env : Env
  all_success : Bool

/-- The loop `for (i = 0; i < FILE_COUNT; i++)` of `createNewSession` over the
configurations and the files at the same index. -/
def openFiles (folder : Int) :
    List FileConfig → List SDFile → Option SDFile → Env → Bool → OpenResult
  | [], files, dbg, env, all_success =>
    { files := files, dbg := dbg, env := env, all_success := all_success }
  | _ :: _, [], dbg, env, all_success =>
    { files := [], dbg := dbg, env := env, all_success := all_success }
  | cfg :: cfgs, f :: rest, dbg, env, all_success =>
    if !cfg.enabled then
      let r := openFiles folder cfgs rest dbg env all_success
      { r with files := f :: r.files }
    else
      match f.open env (sessionFilePath folder cfg.filename) false with
      | (opened, f1, env1) =>
        if !opened then
          match debugWrite dbg env1 (msgCreateFailed cfg.filename folder) with
          | (dbg1, env2) =>
            let r := openFiles folder cfgs rest dbg1 env2 false
            { r with files := f1 :: r.files }
        else
          match (if cfg.header.length > 0 then f1.write env1 (some cfg.header)
                 else (true, f1, env1)) with
          | (_, f2, env2) =>
            let r := openFiles folder cfgs rest dbg env2 all_success
            { r with files := f2 :: r.files }

def SessionManager.createNewSession (sm : SessionManager) (env : Env) :
    Bool × SessionManager × Env :=
  match closeAllFiles sm.session_files env with
  | (files1, env1) =>
    match SDCard.findHighestNumberedFolder env1 [] with
    | (highest, env2) =>
      let current_folder_num := wrap32 (highest + 1)
      let folder_path := fmtInt current_folder_num
      let sm1 := { sm with session_files := files1, current_folder_num := current_folder_num }
      match SDCard.createFolder env2 folder_path with
      | (created, env3) =>
        if !created then
          match debugWrite sm1.debug_file env3 (msgFolderFailed folder_path) with
          | (dbg, env4) => (false, { sm1 with debug_file := dbg }, env4)
        else
          let r := openFiles current_folder_num file_configs files1 sm1.debug_file env3 true
          if !r.all_success then
            match closeAllFiles r.files r.env with
            | (files2, env5) =>
              (false, { sm1 with session_files := files2, debug_file := r.dbg }, env5)
          else
            match debugWrite r.dbg r.env (msgStarted current_folder_num) with
            | (dbg, env6) =>
              (true, { sm1 with session_files := r.files, debug_file := dbg }, env6)

def SessionManager.stopLogging (sm : SessionManager) (env : Env) : SessionManager × Env :=
  match closeAllFiles sm.session_files env with
  | (files1, env1) =>
    match debugWrite sm.debug_file env1 MSG_STOPPED with
    | (dbg, env2) =>
      ({ sm with session_files := files1, logging_active := false, led := false,
                 debug_file := dbg }, env2)

/-- The constructor.  `toggle_gpio` is what `gpio_get(toggle_pin)` reads, `debug` the
object behind the `debug` pointer. -/
def SessionManager.new (toggle_gpio : Bool) (debug : Option SDFile) (env : Env) :
    SessionManager × Env :=
  let sm : SessionManager :=
    { debug_file := debug, toggle_state := !toggle_gpio, last_toggle_state := !toggle_gpio }
  if sm.toggle_state then
    match debugWrite sm.debug_file env MSG_STARTUP_ON with
    | (dbg, env1) =>
      match SessionManager.createNewSession { sm with debug_file := dbg, led := true } env1 with
      | (ok, sm2, env2) =>
        if ok then ({ sm2 with logging_active := true }, env2) else (sm2, env2)
  else
    match debugWrite sm.debug_file env MSG_STARTUP_OFF with
    | (dbg, env1) => ({ sm with debug_file := dbg, led := false }, env1)

/-- What one call of `update()` reads: the two pin levels and the millisecond clock. -/
structure Inputs where
  toggle_gpio : Bool
  button_gpio : Bool
  now : Nat
  deriving DecidableEq, Repr

/-- The `if (!button_state && last_button_state)` block of `update()`. -/
def SessionManager.buttonPart (sm : SessionManager) (env : Env) (current_time : Nat) :
    SessionManager × Env :=
  if !sm.button_state && sm.last_button_state then
    if sm.logging_active then
      match debugWrite sm.debug_file env MSG_BUTTON with
      | (dbg, env1) =>
        match syncAllFiles sm.session_files env1 with
        | (files1, env2) =>
          match SessionManager.createNewSession
              { sm with debug_file := dbg, session_files := files1 } env2 with
          | (_, sm3, env3) => (sm3, env3)
    else
      if subU32 current_time sm.last_button_press_time < DOUBLE_PRESS_TIMEOUT_MS then
        let count := wrap32 (sm.button_press_count + 1)
        if count ≥ 2 then
          match sm.debug_file with
          | some d =>
            match d.write env (some MSG_SHUTDOWN) with
            | (_, d1, env1) =>
              match d1.sync env1 with
              | (_, d2, env2) =>
                ({ sm with button_press_count := count, debug_file := some d2,
                           shutdown_requested := true,
                           last_button_press_time := current_time }, env2)
          | none =>
            ({ sm with button_press_count := count, shutdown_requested := true,
                       last_button_press_time := current_time }, env)
        else
          ({ sm with button_press_count := count, last_button_press_time := current_time }, env)
      else
        ({ sm with button_press_count := 1, last_button_press_time := current_time }, env)
  else (sm, env)

/-- The `if (toggle_state != last_toggle_state)` block of `update()`. -/
def SessionManager.togglePart (sm : SessionManager) (env : Env) : SessionManager × Env :=
  if sm.toggle_state ≠ sm.last_toggle_state then
    if sm.toggle_state then
      match debugWrite sm.debug_file env MSG_TOGGLE_ON with
      | (dbg, env1) =>
        match SessionManager.createNewSession { sm with debug_file := dbg, led := true } env1 with
        | (ok, sm2, env2) =>
          (if ok then { sm2 with logging_active := true, last_toggle_state := sm2.toggle_state }
           else { sm2 with last_toggle_state := sm2.toggle_state }, env2)
    else
      match debugWrite sm.debug_file env MSG_TOGGLE_OFF with
      | (dbg, env1) =>
        match SessionManager.stopLogging { sm with debug_file := dbg } env1 with
        | (sm2, env2) => ({ sm2 with last_toggle_state := sm2.toggle_state }, env2)
  else (sm, env)

def SessionManager.update (sm : SessionManager) (env : Env) (inp : Inputs) :
    SessionManager × Env :=
  let current_time := inp.now % 2 ^ 32
  let sm0 := { sm with toggle_state := !inp.toggle_gpio, button_state := inp.button_gpio }
  match sm0.buttonPart env current_time with
  | (sm1, env1) =>
    let sm2 := { sm1 with last_button_state := sm1.button_state }
    let sm3 :=
      if subU32 current_time sm2.last_button_press_time > DOUBLE_PRESS_TIMEOUT_MS then
        { sm2 with button_press_count := 0 }
      else sm2
    sm3.togglePart env1

def SessionManager.isLogging (sm : SessionManager) : Bool := sm.logging_active

def SessionManager.isShutdownRequested (sm : SessionManager) : Bool := sm.shutdown_requested

def SessionManager.getCurrentSession (sm : SessionManager) : Int := sm.current_folder_num

/-- `getFile(type)`: the file of that index when it is open. -/
def SessionManager.getFile (sm : SessionManager) (type : Nat) : Option SDFile :=
  if type ≥ FILE_COUNT then none
  else
    match sm.session_files.get? type with
    | some f => if f.isOpen then some f else none
    | none => none

/-! ## GPS utilities (drivers/gps/gps_utils.h) -/

/-- Conversion of an `int` result to `uint32_t` (`unsigned long` has 32 bits on the
target as well). -/
def toU32 (x : Int) : Nat := (x % 2 ^ 32).toNat

/-- The table `static const uint16_t days[12]` of `gps_to_unix_time`. -/
def days : List Nat := [0, 31, 59, 90, 120, 151, 181, 212, 243, 273, 304, 334]

/-- `gps_to_unix_time(year, month, day, hour, min, sec)`; the arguments are the values
of the `uint16_t`/`uint8_t` parameters.  The differences and quotients on `year` are
`int` arithmetic (`/` truncates), each assignment to `total_days` converts to
`uint32_t`.  `none` when `days[month - 1]` reads outside the table. -/
def gps_to_unix_time (year month day hour min sec : Nat) : Option Nat :=
  let total_days := toU32 (((year : Int) - 1970) * 365)
  let total_days := toU32 (total_days + Int.tdiv ((year : Int) - 1969) 4)
  let total_days := toU32 (total_days - Int.tdiv ((year : Int) - 1901) 100)
  let total_days := toU32 (total_days + Int.tdiv ((year : Int) - 1601) 400)
  if month < 1 ∨ month > 12 then none
  else
    let total_days := toU32 (total_days + (days.getD (month - 1) 0 : Nat))
    let total_days := toU32 (total_days + ((day : Int) - 1))
    let total_days :=
      if month > 2 ∧ ((year % 4 = 0 ∧ year % 100 ≠ 0) ∨ year % 400 = 0) then
        toU32 (total_days + 1)
      else total_days
    some ((total_days * 86400 + hour * 3600 + min * 60 + sec) % 2 ^ 32)

/-! ## NMEA sentences (drivers/gps/gps_utils.h, drivers/gps/gps_driver.cpp)

A C string is the list of its characters before the terminating NUL. -/

/-- The terminating NUL. -/
def NUL : Char := Char.ofNat 0

/-- `strchr(s, c)` of the C library for a character `c` other than NUL: what `s` holds
from the first `c` on, `none` for a null pointer. -/
def strchr (s : Bytes) (c : Char) : Option Bytes :=
  match s.dropWhile (fun x => x != c) with
  | [] => none
  | r => some r

/-- The lambda `hex_to_val` of `verify_nmea_checksum`. -/
def hex_to_val (c : Char) : Nat :=
  if '0' ≤ c ∧ c ≤ '9' then c.toNat - 48
  else if 'A' ≤ c ∧ c ≤ 'F' then c.toNat - 65 + 10
  else if 'a' ≤ c ∧ c ≤ 'f' then c.toNat - 97 + 10
  else 0

def verify_nmea_checksum (sentence : Bytes) : Bool :=
  if sentence.head? ≠ some '$' then false
  else
    match strchr sentence '*' with
    | none => false
    | some asterisk =>
      if asterisk.length < 3 then false
      else
        let calculated :=
          ((sentence.take (sentence.length - asterisk.length)).drop 1).foldl
            (fun acc p => acc ^^^ (p.toNat % 256)) 0
        let provided :=
          ((hex_to_val (asterisk.getD 1 NUL) <<< 4) ||| hex_to_val (asterisk.getD 2 NUL)) % 256
        calculated == provided

/-- The loop `while (current_field < field_num)` of `extract_nmea_field`: `start` after
`n` more commas, `none` when a comma is missing. -/
def skipFields : Nat → Bytes → Option Bytes
  | 0, start => some start
  | n + 1, start =>
    match strchr start ',' with
    | none => none
    | some r => skipFields n r.tail

/-- `extract_nmea_field(sentence, field_num, buffer, buffer_size)`: the result and the
content of the array `buffer` afterwards (its bytes behind the terminator are left as
they were). -/
def extract_nmea_field (sentence : Bytes) (field_num : Nat) (buffer : Bytes)
    (buffer_size : Nat) : Bool × Bytes :=
  if buffer_size = 0 then (false, buffer)
  else
    match skipFields field_num sentence with
    | none => (false, buffer)
    | some start =>
      match (match strchr start ',' with
             | some e => some e
             | none => strchr start '*') with
      | none => (false, buffer)
      | some e =>
        let len0 := start.length - e.length
        let len := if len0 ≥ buffer_size then buffer_size - 1 else len0
        (true, start.take len ++ [NUL] ++ buffer.drop (len + 1))

/-- Conversion of an `int` result to `uint8_t`. -/
def toU8 (x : Int) : Nat := (x % 256).toNat

/-- Conversion of an `int` result to `uint16_t`. -/
def toU16 (x : Int) : Nat := (x % 65536).toNat

/-- The `int` expression `(field[i] - '0') * 10 + (field[i + 1] - '0')` of `parse_rmc`
(plain `char` is unsigned on the target). -/
def twoDigits (field : Bytes) (i : Nat) : Int :=
  (((field.getD i NUL).toNat : Int) - 48) * 10 + (((field.getD (i + 1) NUL).toNat : Int) - 48)

/-- Arguments of a call of `gps_to_unix_time`. -/
structure UnixTimeCall where
  year : Nat
  month : Nat
  day : Nat
  hour : Nat
  min : Nat
  sec : Nat
  deriving DecidableEq, Repr

/-- The blocks "Field 1: Time" and "Field 9: Date" of `GpsDriver::parse_rmc`, up to the
call of `gps_to_unix_time`: the arguments of that call, `none` when the call is not
made.  `field` is what the local array `char field[32]` holds on entry. -/
def rmcCall (sentence : Bytes) (field : Bytes) : Option UnixTimeCall :=
  let r1 := extract_nmea_field sentence 1 field 32
  let time : Nat × Nat × Nat :=
    if r1.1 = true ∧ r1.2.getD 0 NUL ≠ NUL then
      (toU8 (twoDigits r1.2 0), toU8 (twoDigits r1.2 2), toU8 (twoDigits r1.2 4))
    else (0, 0, 0)
  let r9 := extract_nmea_field sentence 9 r1.2 32
  if r9.1 = true ∧ r9.2.getD 0 NUL ≠ NUL then
    some { day := toU8 (twoDigits r9.2 0), month := toU8 (twoDigits r9.2 2),
           year := toU16 (2000 + twoDigits r9.2 4),
           hour := time.1, min := time.2.1, sec := time.2.2 }
  else none

/-- `GpsDriver::parse_rmc` as far as `data.unix_time` goes: its new value, `none` when
`gps_to_unix_time` reads outside its table. -/
def parse_rmc (sentence : Bytes) (field : Bytes) (unix_time : Nat) : Option Nat :=
  match rmcCall sentence field with
  | none => some unix_time
  | some c => gps_to_unix_time c.year c.month c.day c.hour c.min c.sec

/-- `GpsDriver::parse_nmea_sentence` as far as `data.unix_time` goes (`parse_gga` and
`parse_vtg` do not write it). -/
def parse_nmea_sentence (sentence : Bytes) (field : Bytes) (unix_time : Nat) : Option Nat :=
  if sentence.head? ≠ some '$' then some unix_time
  else if !verify_nmea_checksum sentence then some unix_time
  else if sentence.take 6 = "$GPGGA".toList ∨ sentence.take 6 = "$GNGGA".toList then
    some unix_time
  else if sentence.take 6 = "$GPRMC".toList ∨ sentence.take 6 = "$GNRMC".toList then
    parse_rmc sentence field unix_time
  else some unix_time

/-! ## Notions used to state the properties -/

/-- Class invariant of `SDFile`: `buffer` is the array of `BUFFER_SIZE` bytes and the
cursor is inside it. -/
def SDFile.WF (f : SDFile) : Prop :=
  f.buffer.length = BUFFER_SIZE ∧ f.buffer_pos ≤ BUFFER_SIZE

instance (f : SDFile) : Decidable f.WF := by
  unfold SDFile.WF; exact inferInstance

/-- Every coming `f_write` call transfers all its bytes without error. -/
def writesSucceed (fs : FatFs) : Prop := ∀ o ∈ fs.wrOut, o = WOut.ok

instance (fs : FatFs) : Decidable (writesSucceed fs) := by
  unfold writesSucceed; exact inferInstance

/-- A logged `f_write` call that reported an error or transferred too few bytes. -/
def Event.isFailedWrite : Event → Bool
  | Event.fwrite _ _ ok => !ok
  | _ => false

/-- What one `write` call keeps of the formatted text: its first `TEMP_SIZE - 1` bytes. -/
def cut (text : Bytes) : Bytes := text.take (TEMP_SIZE - 1)

/-- A sequence of `write` calls on one file, with the formatted text of each call. -/
def writeAll : SDFile → Env → List Bytes → List Bool × SDFile × Env
  | f, env, [] => ([], f, env)
  | f, env, text :: texts =>
    match f.write env (some text) with
    | (r, f1, env1) =>
      match writeAll f1 env1 texts with
      | (rs, f2, env2) => (r :: rs, f2, env2)

/-- The medium `fs1` differs from `fs` by `f_write` calls only: the directories and the
outcomes of the other primitives are the same. -/
def FatFs.writesOnly (fs fs1 : FatFs) : Prop :=
  fs1.root = fs.root ∧ fs1.subdirs = fs.subdirs ∧ fs1.syFail = fs.syFail ∧
  fs1.clFail = fs.clFail ∧ fs1.opFail = fs.opFail ∧ fs1.mkFail = fs.mkFail ∧
  fs1.odFail = fs.odFail ∧ fs1.rdFail = fs.rdFail ∧ fs1.mtFail = fs.mtFail

/-- The events that a step appended to the log are `evs`. -/
def FatFs.logged (fs fs1 : FatFs) (evs : List Event) : Prop := fs1.log = fs.log ++ evs

/-- What the `write` loop guarantees when it is given enough iterations: it returns,
keeps the class invariant and the open flag, touches the medium by `f_write` only,
reports failure exactly when a flush failed, loses nothing of `src` when it reports
success, and reports success when the coming writes succeed. -/
def WriteLoopPost (f : SDFile) (fs : FatFs) (src : Bytes) (r : Bool) (f1 : SDFile)
    (fs1 : FatFs) : Prop :=
  f1.WF ∧ f1.is_open = f.is_open ∧ f1.fil.path = f.fil.path ∧ f1.fil.mode = f.fil.mode ∧
  fs.writesOnly fs1 ∧
  (∃ evs, fs.logged fs1 evs ∧ (r = true → ∀ e ∈ evs, e.isFailedWrite = false) ∧
    (r = false → ∃ pre e, evs = pre ++ [e] ∧ e.isFailedWrite = true ∧
      ∀ x ∈ pre, x.isFailedWrite = false)) ∧
  (r = true → f1.fil.data ++ f1.pending = f.fil.data ++ f.pending ++ src) ∧
  (writesSucceed fs → r = true ∧ writesSucceed fs1)

instance (fs fs1 : FatFs) (evs : List Event) : Decidable (fs.logged fs1 evs) := by
  unfold FatFs.logged; exact inferInstance

/-- One call on an `SDFile`. -/
inductive FileOp
  | open (path : Bytes) (append : Bool)
  | write (formatted : Option Bytes)
  | sync
  | close
  deriving DecidableEq, Repr

def FileOp.apply (op : FileOp) (f : SDFile) (env : Env) : SDFile × Env :=
  match op with
  | FileOp.open path append => (f.open env path append).2
  | FileOp.write formatted => (f.write env formatted).2
  | FileOp.sync => (f.sync env).2
  | FileOp.close => (f.close env).2

/-- A sequence of calls on one `SDFile`, first call first. -/
def runFileOps : List FileOp → SDFile → Env → SDFile × Env
  | [], f, env => (f, env)
  | op :: ops, f, env => runFileOps ops (op.apply f env).1 (op.apply f env).2

/-- The value with which the scan counts a directory entry: the entry is a directory and
`strtol` consumes its whole name and yields a non-negative number. -/
def countedValue (fno : FILINFO) : Option Int :=
  if fno.fattrib &&& AM_DIR ≠ 0 ∧ (strtol fno.fname).2 = [] ∧ (strtol fno.fname).1 ≥ 0 then
    some (strtol fno.fname).1
  else none

/-- The entries that the `f_readdir` loop gets to see: those before the first failing
call and before the end mark (an empty name). -/
def readEntries : List FILINFO → List Bool → List FILINFO
  | [], _ => []
  | fno :: entries, rdFail =>
    if rdFail.head? = some true ∨ fno.fname = [] then []
    else fno :: readEntries entries rdFail.tail

/-- A name made of decimal digits only. -/
def isNumericName (name : Bytes) : Bool := !name.isEmpty && name.all isdigit

/-- The members of the controller that the session operations (`createNewSession`,
`stopLogging` apart from `logging_active`) leave alone: switch levels and the
double-press detection. -/
def SessionManager.sameControl (a b : SessionManager) : Prop :=
  b.toggle_state = a.toggle_state ∧ b.last_toggle_state = a.last_toggle_state ∧
  b.button_state = a.button_state ∧ b.last_button_state = a.last_button_state ∧
  b.last_button_press_time = a.last_button_press_time ∧
  b.button_press_count = a.button_press_count ∧
  b.shutdown_requested = a.shutdown_requested

/-- `update()` detects a button falling edge: the pin reads low and read high at the
previous call. -/
def SessionManager.fallingEdge (sm : SessionManager) (inp : Inputs) : Bool :=
  !inp.button_gpio && sm.last_button_state

/-- A button falling edge detected while not logging: the press that the double-press
detection looks at. -/
def SessionManager.idlePress (sm : SessionManager) (inp : Inputs) : Bool :=
  sm.fallingEdge inp && !sm.logging_active

/-- A sequence of `update()` calls, first call first. -/
def runUpdates : SessionManager → Env → List Inputs → SessionManager × Env
  | sm, env, [] => (sm, env)
  | sm, env, inp :: rest => runUpdates (sm.update env inp).1 (sm.update env inp).2 rest

/-- The value of `isShutdownRequested()` after each call of a sequence of `update()`. -/
def shutdownAfterEach : SessionManager → Env → List Inputs → List Bool
  | _, _, [] => []
  | sm, env, inp :: rest =>
    (sm.update env inp).1.isShutdownRequested ::
      shutdownAfterEach (sm.update env inp).1 (sm.update env inp).2 rest

/-- The clock values of the calls of a sequence of `update()` that detect a button
falling edge while not logging. -/
def idlePressTimes : SessionManager → Env → List Inputs → List Nat
  | _, _, [] => []
  | sm, env, inp :: rest =>
    (if sm.idlePress inp then [inp.now] else []) ++
      idlePressTimes (sm.update env inp).1 (sm.update env inp).2 rest

/-- The press counter of a controller that has not requested shutdown is 0 or 1. -/
def PressInv (sm : SessionManager) : Prop :=
  sm.shutdown_requested = true ∨ sm.button_press_count = 0 ∨ sm.button_press_count = 1

/-- The controller and the environment reached from the constructor by a sequence of
`update()` calls. -/
def reached (toggle_gpio : Bool) (debug : Option SDFile) (env0 : Env) (inps : List Inputs) :
    SessionManager × Env :=
  runUpdates (SessionManager.new toggle_gpio debug env0).1
    (SessionManager.new toggle_gpio debug env0).2 inps

/-- Between a first press at `t1` and the second one: shutdown is requested already, or
the counter is 1 and the recorded press time is `t1`. -/
def AwaitingSecondPress (t1 : Nat) (sm : SessionManager) : Prop :=
  sm.shutdown_requested = true ∨
    (sm.button_press_count = 1 ∧ sm.last_button_press_time = t1)

/-- While no two presses were close: shutdown is not requested, the counter is 0 or 1,
and it is 0 as long as no press was seen. -/
def SinglePresses (pressed : Bool) (sm : SessionManager) : Prop :=
  sm.shutdown_requested = false ∧
  (sm.button_press_count = 0 ∨ sm.button_press_count = 1) ∧
  (pressed = false → sm.button_press_count = 0)

/-- A logged call that creates something on the medium: `f_mkdir` or `f_open`. -/
def Event.isCreate : Event → Bool
  | Event.mkdir _ _ => true
  | Event.fopen _ _ _ => true
  | _ => false

/-- What file I/O (`f_write`, `f_sync`, `f_close`) can change on the medium: outcomes of
these three primitives are used up and calls are logged, none of which creates a
directory or opens a file; the directories and the outcomes of the other primitives
stay. -/
def FatFs.fileRW (fs fs1 : FatFs) : Prop :=
  fs1.root = fs.root ∧ fs1.subdirs = fs.subdirs ∧ fs1.odFail = fs.odFail ∧
  fs1.rdFail = fs.rdFail ∧ fs1.mkFail = fs.mkFail ∧ fs1.opFail = fs.opFail ∧
  fs1.mtFail = fs.mtFail ∧
  (∃ k, fs1.wrOut = fs.wrOut.drop k) ∧ (∃ k, fs1.syFail = fs.syFail.drop k) ∧
  (∃ k, fs1.clFail = fs.clFail.drop k) ∧
  (∃ evs, fs1.log = fs.log ++ evs ∧ ∀ e ∈ evs, e.isCreate = false)

/-- File I/O seen from the whole environment: the volume stays mounted or not as it
was. -/
def Env.fileRW (env env1 : Env) : Prop :=
  env1.sd.mounted = env.sd.mounted ∧ env1.sd.initialized = env.sd.initialized ∧
  env.fs.fileRW env1.fs

/-- A logged `f_mkdir` call. -/
def Event.isMkdir : Event → Bool
  | Event.mkdir _ _ => true
  | _ => false

/-- What operations on files (`f_open`, `f_write`, `f_sync`, `f_close`) can change on the
medium: the directories and the outcomes of the directory primitives stay, and no
`f_mkdir` is logged. -/
def FatFs.fileOps (fs fs1 : FatFs) : Prop :=
  fs1.root = fs.root ∧ fs1.subdirs = fs.subdirs ∧ fs1.odFail = fs.odFail ∧
  fs1.rdFail = fs.rdFail ∧ fs1.mkFail = fs.mkFail ∧ fs1.mtFail = fs.mtFail ∧
  (∃ k, fs1.wrOut = fs.wrOut.drop k) ∧
  (∃ evs, fs1.log = fs.log ++ evs ∧ ∀ e ∈ evs, e.isMkdir = false)

/-- Number of files of a list that are open. -/
def openCount (files : List SDFile) : Nat := (files.filter (fun f => f.is_open)).length

/-- The state of a stream file right after a successful session creation in `folder`:
open, on a handle opened with create/truncate at the stream's path with nothing
written to it yet, and with the stream's header as the pending buffer content. -/
def FreshlyOpened (folder : Int) (cfg : FileConfig) (f : SDFile) : Prop :=
  f.is_open = true ∧
  f.fil.path = sessionFilePath folder cfg.filename ∧
  f.fil.mode = FA_WRITE ||| FA_CREATE_ALWAYS ∧
  f.fil.data = [] ∧
  f.pending = cfg.header

/-- What `closeAllFiles` does to one file when the flushes succeed: the file ends not
open; if it was open its pending bytes went to the handle, otherwise it is untouched. -/
def ClosedFrom (f f1 : SDFile) : Prop :=
  f1.is_open = false ∧
  (f.is_open = true → f1.fil.data = f.fil.data ++ f.pending ∧ f1.fil.path = f.fil.path ∧
    f1.buffer_pos = 0) ∧
  (f.is_open = false → f1 = f)

/-- Every coming `f_sync` call succeeds. -/
def syncsSucceed (fs : FatFs) : Prop := ∀ b ∈ fs.syFail, b = false

instance (fs : FatFs) : Decidable (syncsSucceed fs) := by
  unfold syncsSucceed; exact inferInstance

/-- What `syncAllFiles` does to one file when the writes and the syncs succeed: an open
file stays open, its pending bytes are with the handle, the buffer is empty and the
handle is synced up to its last byte; a file that is not open is untouched. -/
def SyncedFrom (f f1 : SDFile) : Prop :=
  (f.is_open = true →
    f1.is_open = true ∧ f1.fil.data = f.fil.data ++ f.pending ∧ f1.buffer_pos = 0 ∧
    f1.fil.synced = f1.fil.data.length ∧ f1.fil.path = f.fil.path) ∧
  (f.is_open = false → f1 = f)

/-- One call on the volume, or on one of the `SDFile` objects that share it (`file i op`
is `op` on the object of index `i`). -/
inductive CardOp
  | registerFile
  | unregisterFile
  | shutdown
  | mount
  | file (i : Nat) (op : FileOp)
  deriving DecidableEq, Repr

/-- The call `op` on the object of index `i` of `files`; no such object, no call. -/
def applyAt (op : FileOp) : Nat → List SDFile → Env → List SDFile × Env
  | _, [], env => ([], env)
  | 0, f :: rest, env => ((op.apply f env).1 :: rest, (op.apply f env).2)
  | i + 1, f :: rest, env => (f :: (applyAt op i rest env).1, (applyAt op i rest env).2)

def CardOp.apply (op : CardOp) (files : List SDFile) (env : Env) : List SDFile × Env :=
  match op with
  | CardOp.registerFile => (files, { env with sd := env.sd.registerFile.2 })
  | CardOp.unregisterFile => (files, { env with sd := env.sd.unregisterFile })
  | CardOp.shutdown => (files, SDCard.shutdown env)
  | CardOp.mount => (files, (SDCard.mount env).2)
  | CardOp.file i op => applyAt op i files env

/-- A sequence of calls on the volume and its files, first call first. -/
def runCardOps : List CardOp → List SDFile → Env → List SDFile × Env
  | [], files, env => (files, env)
  | op :: ops, files, env => runCardOps ops (op.apply files env).1 (op.apply files env).2

/-- A call on an `SDFile` object, not on the volume itself. -/
def CardOp.isFileOp : CardOp → Bool
  | CardOp.file _ _ => true
  | _ => false

/-- Calls on one `SDFile`: open "a", write one byte, open "b". -/
def reopenDirty : List CardOp :=
  [CardOp.file 0 (FileOp.open "a".toList false), CardOp.file 0 (FileOp.write (some "x".toList)),
   CardOp.file 0 (FileOp.open "b".toList false)]

/-- A mounted volume without open file whose first `f_write` fails. -/
def firstWriteFails : Env :=
  { sd := { initialized := true, mounted := true }, fs := { wrOut := [WOut.err 0] } }

/-- A mounted volume without open file whose first `f_write` and second `f_open` fail. -/
def writeAndReopenFail : Env :=
  { sd := { initialized := true, mounted := true },
    fs := { wrOut := [WOut.err 0], opFail := [false, true] } }

/-- What `strtol` converts: the name after the leading white space and one sign. -/
def afterSign (name : Bytes) : Bytes :=
  if (name.dropWhile isspace).head? = some '-' ∨ (name.dropWhile isspace).head? = some '+' then
    (name.dropWhile isspace).tail
  else name.dropWhile isspace

/-- The sign that `strtol` reads is a minus. -/
def hasMinus (name : Bytes) : Bool := decide ((name.dropWhile isspace).head? = some '-')

/-- The medium of `env` with another root directory. -/
def withRoot (env : Env) (root : List FILINFO) : Env :=
  { env with fs := { env.fs with root := root } }

/-- The variant of `update()` in which the elapsed-time reset of the press counter comes
first; the button edge is processed after it, then the toggle, as in `update()`. -/
def SessionManager.updateResetFirst (sm : SessionManager) (env : Env) (inp : Inputs) :
    SessionManager × Env :=
  let current_time := inp.now % 2 ^ 32
  let sm0 := { sm with toggle_state := !inp.toggle_gpio, button_state := inp.button_gpio }
  let smR :=
    if subU32 current_time sm0.last_button_press_time > DOUBLE_PRESS_TIMEOUT_MS then
      { sm0 with button_press_count := 0 }
    else sm0
  match smR.buttonPart env current_time with
  | (sm1, env1) =>
    let sm2 := { sm1 with last_button_state := sm1.button_state }
    sm2.togglePart env1

/-- Reference for the calendar: the number of days from 1970-01-01 to the civil date
`y`-`m`-`d` of the proleptic Gregorian calendar (negative before 1970), by the
era/year-of-era/day-of-year decomposition with years beginning in March. -/
def days_from_civil (y m d : Int) : Int :=
  let y1 := if m ≤ 2 then y - 1 else y
  let era := y1 / 400
  let yoe := y1 - era * 400
  let doy := (153 * (if m > 2 then m - 3 else m + 9) + 2) / 5 + d - 1
  let doe := yoe * 365 + yoe / 4 - yoe / 100 + doy
  era * 146097 + doe - 719468

/-- Every coming `f_mkdir` call answers `FR_OK` or `FR_EXIST`. -/
def mkdirsSucceed (fs : FatFs) : Prop := ∀ b ∈ fs.mkFail, b = false

instance (fs : FatFs) : Decidable (mkdirsSucceed fs) := by
  unfold mkdirsSucceed; exact inferInstance

/-- Every coming `f_open` call succeeds. -/
def opensSucceed (fs : FatFs) : Prop := ∀ b ∈ fs.opFail, b = false

instance (fs : FatFs) : Decidable (opensSucceed fs) := by
  unfold opensSucceed; exact inferInstance

/-! ## Concrete inputs -/

/-- The toggle is off and the button is pressed, at time `now`. -/
def pressAt (now : Nat) : Inputs := { toggle_gpio := true, button_gpio := false, now := now }

/-- The toggle is off and the button is released, at time `now`. -/
def releaseAt (now : Nat) : Inputs := { toggle_gpio := true, button_gpio := true, now := now }


/-- An open file whose buffer holds 511 bytes. -/
def almostFullFile : SDFile := { is_open := true, buffer_pos := 511 }

/-- A mounted volume with the given root entries and nothing else. -/
def mountedEnv (root : List FILINFO) : Env :=
  { sd := { initialized := true, mounted := true }, fs := { root := root } }

/-- A directory entry of that name. -/
def dirEntry (name : String) : FILINFO := { fname := name.toList, fattrib := AM_DIR }

/-- An open file with one byte in its buffer. -/
def dirtyFile : SDFile := { is_open := true, buffer_pos := 1 }

/-- A mounted volume with one registered file whose next `f_write` fails. -/
def failingWriteEnv : Env :=
  { sd := { initialized := true, mounted := true, open_files := 1 },
    fs := { wrOut := [WOut.err 0] } }

/-- A mounted volume whose second `f_mkdir` fails. -/
def secondMkdirFails : Env :=
  { sd := { initialized := true, mounted := true }, fs := { mkFail := [false, true] } }

/-- A mounted volume whose third `f_open` fails and whose first two `f_write` fail. -/
def thirdOpenFails : Env :=
  { sd := { initialized := true, mounted := true },
    fs := { opFail := [false, false, true], wrOut := [WOut.err 0, WOut.err 0] } }

/-- The toggle is on and the button is pressed, at time `now`. -/
def pressWhileOn (now : Nat) : Inputs := { toggle_gpio := false, button_gpio := false, now := now }

/-- The toggle is on and the button is released, at time `now`. -/
def releaseWhileOn (now : Nat) : Inputs := { toggle_gpio := false, button_gpio := true, now := now }

/-- A mounted, empty volume whose third `f_open` fails, with working writes. -/
def onlyThirdOpenFails : Env :=
  { sd := { initialized := true, mounted := true }, fs := { opFail := [false, false, true] } }

/-- Idle with the toggle off: a press, a release, then a second press in the tick in
which the toggle is read as on. -/
def pressPressWithToggle : List Inputs := [pressAt 1000, releaseAt 1100, pressWhileOn 1200]

/-- An RMC sentence without fix whose time and date fields are all zeros, with its
checksum and line end. -/
def rmcZeroDate : Bytes := "$GPRMC,000000,V,,,,,,,000000,,,N*53\r\n".toList

/-- An RMC sentence whose date field is the single character "1". -/
def rmcShortDate : Bytes :=
  "$GPRMC,123519,A,4807.038,N,01131.000,E,022.4,084.4,1,003.1,W*54\r\n".toList

/-- An RMC sentence whose date field names month 13. -/
def rmcMonth13 : Bytes :=
  "$GPRMC,123519,A,4807.038,N,01131.000,E,022.4,084.4,311399,003.1,W*65\r\n".toList

/-- An RMC sentence with the date 23 March (20)94. -/
def rmcGoodDate : Bytes :=
  "$GPRMC,123519,A,4807.038,N,01131.000,E,022.4,084.4,230394,003.1,W*6A\r\n".toList

/-- The array `field` filled with NUL. -/
def emptyField : Bytes := List.replicate 32 NUL

/-! ## Properties -/

/-! ### Buffered file -/

theorem subU32_of_le {a b : Nat} (hb : b ≤ a) (ha : a < 2 ^ 32) : subU32 a b = a - b := by
  unfold subU32
  have hb' : b % 2 ^ 32 = b := Nat.mod_eq_of_lt (by omega)
  rw [hb']
  have : a + 2 ^ 32 - b = (a - b) + 2 ^ 32 := by omega
  rw [this, Nat.add_mod_right]
  exact Nat.mod_eq_of_lt (by omega)

theorem flushBuffer_zero (f : SDFile) (fs : FatFs) (h : f.buffer_pos = 0) :
    f.flushBuffer fs = (true, f, fs) := by
  simp [SDFile.flushBuffer, h]

/-- A flush that reports success has handed exactly the pending bytes to the handle
and reset the cursor. -/
theorem flushBuffer_true (f : SDFile) (fs : FatFs) (f1 : SDFile) (fs1 : FatFs)
    (h : f.flushBuffer fs = (true, f1, fs1)) :
    f1.fil.data = f.fil.data ++ f.pending ∧ f1.buffer_pos = 0 ∧ f1.buffer = f.buffer ∧
      f1.is_open = f.is_open ∧ f1.fil.path = f.fil.path ∧ f1.fil.mode = f.fil.mode := by
  unfold SDFile.flushBuffer at h
  by_cases h0 : f.buffer_pos = 0
  · simp [h0] at h
    obtain ⟨rfl, rfl⟩ := h
    simp [SDFile.pending, h0]
  · simp only [h0, if_false, f_write] at h
    split at h
    · simp at h
    · rename_i hc
      simp only [Prod.mk.injEq, true_and] at h
      obtain ⟨rfl, rfl⟩ := h
      have hw : (fs.wrOut.head?.getD WOut.ok).written f.buffer_pos = f.buffer_pos := by
        by_contra hne
        exact hc (Or.inr hne)
      simp [SDFile.pending, hw]

theorem writesSucceed_tail {fs fs1 : FatFs} (h : writesSucceed fs)
    (ht : fs1.wrOut = fs.wrOut.tail) : writesSucceed fs1 := by
  intro o hmem
  rw [ht] at hmem
  exact h o (List.mem_of_mem_tail hmem)

theorem writesSucceed_head {fs : FatFs} (h : writesSucceed fs) :
    fs.wrOut.head?.getD WOut.ok = WOut.ok := by
  cases hw : fs.wrOut with
  | nil => simp
  | cons o os => simp [h o (by simp [hw])]

/-- When the coming writes succeed, a flush reports success. -/
theorem flushBuffer_of_writesSucceed (f : SDFile) (fs : FatFs) (h : writesSucceed fs) :
    ∃ f1 fs1, f.flushBuffer fs = (true, f1, fs1) ∧ writesSucceed fs1 := by
  unfold SDFile.flushBuffer
  by_cases h0 : f.buffer_pos = 0
  · exact ⟨f, fs, by simp [h0], h⟩
  · simp only [h0, if_false, f_write, writesSucceed_head h, WOut.written, WOut.result]
    simp only [ne_eq, not_true_eq_false, or_self, if_false, and_self, decide_True]
    exact ⟨_, _, rfl, writesSucceed_tail h rfl⟩

theorem writesOnly_refl (fs : FatFs) : fs.writesOnly fs := by
  simp [FatFs.writesOnly]

theorem writesOnly_trans {a b c : FatFs} (h1 : a.writesOnly b) (h2 : b.writesOnly c) :
    a.writesOnly c := by
  unfold FatFs.writesOnly at *
  obtain ⟨a1, a2, a3, a4, a5, a6, a7, a8, a9⟩ := h1
  obtain ⟨b1, b2, b3, b4, b5, b6, b7, b8, b9⟩ := h2
  exact ⟨b1.trans a1, b2.trans a2, b3.trans a3, b4.trans a4, b5.trans a5, b6.trans a6,
    b7.trans a7, b8.trans a8, b9.trans a9⟩

/-- What a flush leaves alone, and how its result shows in the cursor and the log. -/
theorem flushBuffer_frame (f : SDFile) (fs : FatFs) :
    (f.flushBuffer fs).2.1.buffer = f.buffer ∧
    (f.flushBuffer fs).2.1.is_open = f.is_open ∧
    (f.flushBuffer fs).2.1.fil.path = f.fil.path ∧
    (f.flushBuffer fs).2.1.fil.mode = f.fil.mode ∧
    ((f.flushBuffer fs).1 = true → (f.flushBuffer fs).2.1.buffer_pos = 0) ∧
    ((f.flushBuffer fs).1 = false → (f.flushBuffer fs).2.1.buffer_pos = f.buffer_pos) ∧
    fs.writesOnly (f.flushBuffer fs).2.2 ∧
    ∃ evs, fs.logged (f.flushBuffer fs).2.2 evs ∧
      ((f.flushBuffer fs).1 = true → ∀ e ∈ evs, e.isFailedWrite = false) ∧
      ((f.flushBuffer fs).1 = false → ∃ e, evs = [e] ∧ e.isFailedWrite = true) := by
  unfold SDFile.flushBuffer
  by_cases h0 : f.buffer_pos = 0
  · simp [h0, writesOnly_refl, FatFs.logged]
  · simp only [h0, if_false, f_write]
    split
    · rename_i hc
      refine ⟨rfl, rfl, rfl, rfl, by simp, by simp, by simp [FatFs.writesOnly], ?_⟩
      refine ⟨_, rfl, by simp, ?_⟩
      intro _
      refine ⟨_, rfl, ?_⟩
      simp only [Event.isFailedWrite, Bool.not_eq_true', decide_eq_false_iff_not, not_and]
      intro hr hw
      rcases hc with hc | hc
      · exact hc hr
      · exact hc hw
    · rename_i hc
      refine ⟨rfl, rfl, rfl, rfl, by simp, by simp, by simp [FatFs.writesOnly], ?_⟩
      refine ⟨_, rfl, ?_, by simp⟩
      intro _ e he
      rw [List.mem_singleton] at he
      subst he
      simp only [not_or, not_not] at hc
      simp [Event.isFailedWrite, hc.1, hc.2]

theorem memcpy_length (buffer src : Bytes) (pos n : Nat) (hn : n ≤ src.length)
    (hp : pos + n ≤ buffer.length) : (memcpy buffer pos src n).length = buffer.length := by
  simp only [memcpy, List.length_append, List.length_take, List.length_drop]
  omega

theorem memcpy_take (buffer src : Bytes) (pos n : Nat) (hn : n ≤ src.length)
    (hp : pos + n ≤ buffer.length) :
    (memcpy buffer pos src n).take (pos + n) = buffer.take pos ++ src.take n := by
  have h1 : (buffer.take pos ++ src.take n).length = pos + n := by
    simp only [List.length_append, List.length_take]
    omega
  unfold memcpy
  rw [← h1, List.take_left]

/-- One pass of the copy step of the `write` loop keeps the invariant and appends the
copied bytes to the pending ones. -/
theorem copy_step (f : SDFile) (src : Bytes) (n : Nat) (hf : f.WF) (hn : n ≤ src.length)
    (hp : f.buffer_pos + n ≤ BUFFER_SIZE) :
    SDFile.WF { f with buffer := memcpy f.buffer f.buffer_pos src n,
                       buffer_pos := f.buffer_pos + n } ∧
    SDFile.pending { f with buffer := memcpy f.buffer f.buffer_pos src n,
                            buffer_pos := f.buffer_pos + n } = f.pending ++ src.take n := by
  obtain ⟨hl, _⟩ := hf
  refine ⟨⟨?_, hp⟩, ?_⟩
  · simp only
    rw [memcpy_length _ _ _ _ hn (by omega), hl]
  · simp only [SDFile.pending]
    exact memcpy_take _ _ _ _ hn (by omega)

theorem writeLoop_spec (fuel : Nat) : ∀ (f : SDFile) (fs : FatFs) (src : Bytes),
    f.WF → 2 * src.length + (if f.buffer_pos = BUFFER_SIZE then 1 else 0) ≤ fuel →
    ∃ r f1 fs1, SDFile.writeLoop fuel f fs src = some (r, f1, fs1) ∧
      WriteLoopPost f fs src r f1 fs1 := by
  have base : ∀ (fuel : Nat) (f : SDFile) (fs : FatFs) (src : Bytes), f.WF → src.length = 0 →
      ∃ r f1 fs1, SDFile.writeLoop fuel f fs src = some (r, f1, fs1) ∧
        WriteLoopPost f fs src r f1 fs1 := by
    intro fuel f fs src hf h0
    refine ⟨true, f, fs, ?_, hf, rfl, rfl, rfl, writesOnly_refl fs, ⟨[], ?_, ?_, ?_⟩, ?_, ?_⟩
    · cases fuel <;> simp [SDFile.writeLoop, h0]
    · simp [FatFs.logged]
    · simp
    · simp
    · intro _
      have : src = [] := List.length_eq_zero.mp h0
      simp [this]
    · intro hs
      exact ⟨rfl, hs⟩
  induction fuel with
  | zero =>
    intro f fs src hf hb
    exact base 0 f fs src hf (by omega)
  | succ fuel ih =>
    intro f fs src hf hb
    by_cases h0 : src.length = 0
    · exact base _ f fs src hf h0
    · have hpos : f.buffer_pos ≤ BUFFER_SIZE := hf.2
      have hspace : subU32 BUFFER_SIZE f.buffer_pos = BUFFER_SIZE - f.buffer_pos :=
        subU32_of_le hpos (by norm_num [BUFFER_SIZE])
      -- the number of bytes copied in this pass
      obtain ⟨n, hn⟩ : ∃ n, n = (if src.length < BUFFER_SIZE - f.buffer_pos then src.length
          else BUFFER_SIZE - f.buffer_pos) := ⟨_, rfl⟩
      have hnle : n ≤ src.length := by rw [hn]; split <;> omega
      have hnp : f.buffer_pos + n ≤ BUFFER_SIZE := by rw [hn]; split <;> omega
      obtain ⟨hwf1, hpend1⟩ := copy_step f src n hf hnle hnp
      rw [SDFile.writeLoop]
      simp only [h0, if_false, hspace, ← hn]
      obtain ⟨F, hF⟩ : ∃ F : SDFile, F =
          { f with buffer := memcpy f.buffer f.buffer_pos src n,
                   buffer_pos := f.buffer_pos + n } := ⟨_, rfl⟩
      rw [← hF] at hwf1 hpend1 ⊢
      have hFo : F.is_open = f.is_open := by rw [hF]
      have hFp : F.fil = f.fil := by rw [hF]
      have hFpos : F.buffer_pos = f.buffer_pos + n := by rw [hF]
      by_cases hfull : f.buffer_pos + n ≥ BUFFER_SIZE
      · simp only [hfull, if_true]
        obtain ⟨g1, g2, g3, g4, g5, g6, g7, evs, g8, g9, g10⟩ := flushBuffer_frame F fs
        rcases hfl : F.flushBuffer fs with ⟨r0, f2, fs2⟩
        rw [hfl] at g1 g2 g3 g4 g5 g6 g7 g8 g9 g10
        simp only at g1 g2 g3 g4 g5 g6 g7 g8 g9 g10
        rw [hFo] at g2
        rw [hFp] at g3 g4
        cases r0 with
        | false =>
          simp only [Bool.not_false, if_true]
          refine ⟨false, f2, fs2, rfl, ⟨?_, ?_⟩, g2, g3, g4, g7,
            ⟨evs, g8, by simp, fun _ => ?_⟩, by simp, ?_⟩
          · rw [g1]; exact hwf1.1
          · rw [g6 rfl]; exact hwf1.2
          · obtain ⟨e, he, hfe⟩ := g10 rfl
            exact ⟨[], e, by simp [he], hfe, by simp⟩
          · intro hs
            obtain ⟨_, _, hres, _⟩ := flushBuffer_of_writesSucceed F fs hs
            rw [hfl] at hres
            simp at hres
        | true =>
          simp only [Bool.not_true, if_false]
          have hwf2 : f2.WF := ⟨by rw [g1]; exact hwf1.1, by rw [g5 rfl]; exact Nat.zero_le _⟩
          have hb2 : 2 * (src.drop n).length + (if f2.buffer_pos = BUFFER_SIZE then 1 else 0)
              ≤ fuel := by
            have hp0 : f2.buffer_pos = 0 := g5 rfl
            have : f2.buffer_pos ≠ BUFFER_SIZE := by rw [hp0]; norm_num [BUFFER_SIZE]
            simp only [this, if_false, List.length_drop]
            by_cases hn0 : n = 0
            · have hfp : f.buffer_pos = BUFFER_SIZE := by omega
              simp only [hfp, if_true] at hb
              omega
            · omega
          obtain ⟨r, f3, fs3, hrun, k1, k2, k3, k4, k5, ⟨evs2, k6, k7, k8⟩, k9, k10⟩ :=
            ih f2 fs2 (src.drop n) hwf2 hb2
          refine ⟨r, f3, fs3, hrun, k1, k2.trans g2, k3.trans g3, k4.trans g4,
            writesOnly_trans g7 k5, ⟨evs ++ evs2, ?_, ?_, ?_⟩, ?_, ?_⟩
          · unfold FatFs.logged at *
            rw [k6, g8, List.append_assoc]
          · intro hr e he
            rcases List.mem_append.mp he with he | he
            · exact g9 rfl e he
            · exact k7 hr e he
          · intro hr
            obtain ⟨pre, e, he, hfe, hpre⟩ := k8 hr
            refine ⟨evs ++ pre, e, by rw [he, List.append_assoc], hfe, ?_⟩
            intro x hx
            rcases List.mem_append.mp hx with hx | hx
            · exact g9 rfl x hx
            · exact hpre x hx
          · intro hr
            obtain ⟨d1, d2, _⟩ := flushBuffer_true _ _ _ _ hfl
            have hp2 : f2.pending = [] := by simp [SDFile.pending, d2]
            rw [k9 hr, d1, hp2, hpend1, hFp]
            simp only [List.append_nil, List.append_assoc, List.take_append_drop]
          · intro hs
            obtain ⟨_, _, hres, hs2⟩ := flushBuffer_of_writesSucceed F fs hs
            rw [hfl] at hres
            simp only [Prod.mk.injEq, true_and] at hres
            obtain ⟨rfl, rfl⟩ := hres
            exact k10 hs2
      · simp only [hfull, if_false]
        have hnall : n = src.length := by
          by_cases hlt : src.length < BUFFER_SIZE - f.buffer_pos
          · rw [hn, if_pos hlt]
          · rw [if_neg hlt] at hn
            omega
        have hdrop : src.drop n = [] := by
          rw [hnall]; exact List.drop_length src
        have hb1 : 2 * (src.drop n).length +
            (if F.buffer_pos = BUFFER_SIZE then 1 else 0) ≤ fuel := by
          have : F.buffer_pos ≠ BUFFER_SIZE := by
            rw [hFpos]
            exact fun h => hfull (le_of_eq h.symm)
          simp [hdrop, this]
        obtain ⟨r, f3, fs3, hrun, k1, k2, k3, k4, k5, k6, k9, k10⟩ :=
          ih F fs (src.drop n) hwf1 hb1
        rw [hFo] at k2
        rw [hFp] at k3 k4
        refine ⟨r, f3, fs3, hrun, k1, k2, k3, k4, k5, k6, ?_, k10⟩
        intro hr
        rw [k9 hr, hpend1, hFp]
        simp only [List.append_assoc, List.take_append_drop]

theorem cut_eq (text : Bytes) :
    text.take (if text.length ≥ TEMP_SIZE then TEMP_SIZE - 1 else text.length) = cut text := by
  unfold cut
  split
  · rfl
  · rename_i h
    rw [List.take_length]
    exact (List.take_of_length_le (by simp only [TEMP_SIZE] at h ⊢; omega)).symm

theorem cut_length_le (text : Bytes) : (cut text).length ≤ TEMP_SIZE - 1 := by
  unfold cut
  simp only [List.length_take]
  omega

/-- `write` on an open file returns; its result, the file and the medium afterwards
satisfy the guarantee of the loop for the text cut to the scratch size, and the
`SDCard` singleton is not touched. -/
theorem write_spec (f : SDFile) (env : Env) (text : Bytes) (ho : f.is_open = true)
    (hf : f.WF) :
    ∃ r f1 fs1, f.write env (some text) = (r, f1, { env with fs := fs1 }) ∧
      WriteLoopPost f env.fs (cut text) r f1 fs1 := by
  have hlen : (if text.length ≥ TEMP_SIZE then TEMP_SIZE - 1 else text.length)
      = (cut text).length ∨ (cut text).length ≤
        (if text.length ≥ TEMP_SIZE then TEMP_SIZE - 1 else text.length) := by
    right
    rw [← cut_eq text]
    simp only [List.length_take]
    omega
  have hfuel : 2 * (cut text).length + (if f.buffer_pos = BUFFER_SIZE then 1 else 0) ≤
      2 * (if text.length ≥ TEMP_SIZE then TEMP_SIZE - 1 else text.length) + 1 := by
    rcases hlen with h | h
    · rw [h]; split <;> omega
    · split <;> omega
  obtain ⟨r, f1, fs1, hrun, hpost⟩ := writeLoop_spec _ f env.fs (cut text) hf hfuel
  refine ⟨r, f1, fs1, ?_, hpost⟩
  unfold SDFile.write
  simp only [ho, Bool.not_true, if_false, Bool.false_eq_true]
  rw [cut_eq, hrun]

theorem logged_unique {fs fs1 : FatFs} {a b : List Event} (ha : fs.logged fs1 a)
    (hb : fs.logged fs1 b) : a = b := by
  unfold FatFs.logged at ha hb
  rw [ha] at hb
  exact List.append_cancel_left hb

theorem logged_trans {a b c : FatFs} {e1 e2 : List Event} (h1 : a.logged b e1)
    (h2 : b.logged c e2) : a.logged c (e1 ++ e2) := by
  unfold FatFs.logged at *
  rw [h2, h1, List.append_assoc]

/-- A sequence of `write` calls on an open file: every call returns, and if no flush
failed during the sequence every call reported success and no byte was lost. -/
theorem writeAll_spec : ∀ (texts : List Bytes) (f : SDFile) (env : Env),
    f.is_open = true → f.WF →
    ∃ rs f1 fs1 evs, writeAll f env texts = (rs, f1, { env with fs := fs1 }) ∧
      rs.length = texts.length ∧ f1.WF ∧ f1.is_open = true ∧ f1.fil.path = f.fil.path ∧
      env.fs.writesOnly fs1 ∧ env.fs.logged fs1 evs ∧
      ((∀ e ∈ evs, e.isFailedWrite = false) →
        (∀ r ∈ rs, r = true) ∧
        f1.fil.data ++ f1.pending = f.fil.data ++ f.pending ++ (texts.map cut).flatten) := by
  intro texts
  induction texts with
  | nil =>
    intro f env ho hf
    exact ⟨[], f, env.fs, [], rfl, rfl, hf, ho, rfl, writesOnly_refl _, by simp [FatFs.logged],
      fun _ => ⟨by simp, by simp⟩⟩
  | cons text texts ih =>
    intro f env ho hf
    obtain ⟨r, f1, fs1, hw, p1, p2, p3, _, p5, ⟨evs1, p6, p7, p8⟩, p9, _⟩ :=
      write_spec f env text ho hf
    obtain ⟨rs, f2, fs2, evs2, hrest, q1, q2, q3, q4, q5, q6, q7⟩ :=
      ih f1 { env with fs := fs1 } (p2.trans ho) p1
    refine ⟨r :: rs, f2, fs2, evs1 ++ evs2, ?_, by simp [q1], q2, q3, q4.trans p3,
      writesOnly_trans p5 q5, logged_trans p6 q6, ?_⟩
    · simp only [writeAll, hw, hrest]
    · intro hall
      have hr : r = true := by
        cases r with
        | true => rfl
        | false =>
          obtain ⟨pre, e, he, hfe, _⟩ := p8 rfl
          have := hall e (List.mem_append.mpr (Or.inl (by rw [he]; simp)))
          rw [this] at hfe
          exact absurd hfe (by simp)
      obtain ⟨k1, k2⟩ := q7 (fun e he => hall e (List.mem_append.mpr (Or.inr he)))
      refine ⟨?_, ?_⟩
      · intro x hx
        rcases List.mem_cons.mp hx with hx | hx
        · rw [hx, hr]
        · exact k1 x hx
      · rw [k2, p9 hr]
        simp only [List.map_cons, List.flatten_cons, List.append_assoc]

theorem sync_true (f : SDFile) (env : Env) (f1 : SDFile) (env1 : Env)
    (h : f.sync env = (true, f1, env1)) :
    f.is_open = true ∧ f1.fil.data = f.fil.data ++ f.pending ∧ f1.buffer_pos = 0 ∧
      f1.fil.synced = f1.fil.data.length ∧ f1.is_open = true ∧ env1.sd = env.sd := by
  unfold SDFile.sync at h
  by_cases ho : f.is_open = true
  · simp only [ho, Bool.not_true, Bool.false_eq_true, if_false] at h
    rcases hfl : f.flushBuffer env.fs with ⟨r0, f2, fs2⟩
    rw [hfl] at h
    cases r0 with
    | false => simp at h
    | true =>
      obtain ⟨d1, d2, _, d4, _⟩ := flushBuffer_true _ _ _ _ hfl
      simp only [Bool.not_true, Bool.false_eq_true, if_false, f_sync] at h
      split at h
      · simp at h
      · simp only [Prod.mk.injEq, decide_True, true_and] at h
        obtain ⟨rfl, rfl⟩ := h
        simp [d1, d2, d4, ho]
  · simp [ho] at h

theorem close_true_of_open (f : SDFile) (env : Env) (f1 : SDFile) (env1 : Env)
    (ho : f.is_open = true) (h : f.close env = (true, f1, env1)) :
    f1.fil.data = f.fil.data ++ f.pending ∧ f1.buffer_pos = 0 ∧ f1.is_open = false ∧
      env1.sd = env.sd.unregisterFile := by
  unfold SDFile.close at h
  simp only [ho, Bool.not_true, Bool.false_eq_true, if_false] at h
  rcases hfl : f.flushBuffer env.fs with ⟨r0, f2, fs2⟩
  rw [hfl] at h
  cases r0 with
  | false => simp at h
  | true =>
    obtain ⟨d1, d2, _, d4, _⟩ := flushBuffer_true _ _ _ _ hfl
    simp only [Bool.not_true, Bool.false_eq_true, if_false, Prod.mk.injEq] at h
    obtain ⟨_, rfl, rfl⟩ := h
    simp [d1, d2]

/-- C1: on an open file, a sequence of `write` calls during which no flush fails
returns true at every call, and the bytes handed to the handle followed by the bytes
still in the buffer are the content before the sequence followed by each formatted
text cut to its first 255 bytes; after a following successful `sync` or `close` the
handle has received exactly that concatenation. -/
theorem C1_write_sequence_preserves_bytes (f : SDFile) (env : Env) (texts : List Bytes)
    (evs : List Event) (ho : f.is_open = true) (hf : f.WF)
    (hlog : env.fs.logged (writeAll f env texts).2.2.fs evs)
    (hflush : ∀ e ∈ evs, e.isFailedWrite = false) :
    (writeAll f env texts).1 = List.replicate texts.length true ∧
    (writeAll f env texts).2.1.fil.data ++ (writeAll f env texts).2.1.pending =
      f.fil.data ++ f.pending ++ (texts.map cut).flatten ∧
    (∀ f2 env2, (writeAll f env texts).2.1.sync (writeAll f env texts).2.2 = (true, f2, env2) →
      f2.fil.data = f.fil.data ++ f.pending ++ (texts.map cut).flatten ∧ f2.pending = []) ∧
    (∀ f2 env2, (writeAll f env texts).2.1.close (writeAll f env texts).2.2 = (true, f2, env2) →
      f2.fil.data = f.fil.data ++ f.pending ++ (texts.map cut).flatten ∧ f2.pending = []) := by
  obtain ⟨rs, f1, fs1, evs1, hrun, q1, _, q3, _, _, q6, q7⟩ := writeAll_spec texts f env ho hf
  rw [hrun] at hlog ⊢
  simp only at hlog ⊢
  have hevs : evs = evs1 := logged_unique hlog q6
  subst hevs
  obtain ⟨k1, k2⟩ := q7 hflush
  refine ⟨?_, k2, ?_, ?_⟩
  · rw [← q1]
    exact List.eq_replicate_iff.mpr ⟨rfl, k1⟩
  · intro f2 env2 hs
    obtain ⟨_, d1, d2, _⟩ := sync_true _ _ _ _ hs
    rw [d1, k2]
    simp [SDFile.pending, d2]
  · intro f2 env2 hc
    obtain ⟨d1, d2, _⟩ := close_true_of_open _ _ _ _ q3 hc
    rw [d1, k2]
    simp [SDFile.pending, d2]

set_option maxRecDepth 100000 in
/-- C1 at a file with 511 buffered bytes and the text "abc": one flush of 512 bytes
happens, the call returns true and "bc" stays in the buffer. -/
theorem C1_write_sequence_witness :
    (writeAll almostFullFile {} ["abc".toList]).1 = [true] ∧
    (writeAll almostFullFile {} ["abc".toList]).2.1.fil.data ++
        (writeAll almostFullFile {} ["abc".toList]).2.1.pending =
      almostFullFile.fil.data ++ almostFullFile.pending ++ "abc".toList :=
  have h := C1_write_sequence_preserves_bytes almostFullFile {} ["abc".toList]
    [Event.fwrite [] (List.replicate 511 (Char.ofNat 0) ++ ['a']) true]
    (by decide) (by decide) (by rfl) (by decide)
  ⟨h.1, by simpa [cut, TEMP_SIZE] using h.2.1⟩

theorem close_not_open (f : SDFile) (env : Env) (h : f.is_open = false) :
    f.close env = (true, f, env) := by
  simp [SDFile.close, h]

theorem registerFile_spec (sd : SDCard) :
    (sd.registerFile.1 = true ↔ sd.open_files < MAX_FILES) ∧
    (sd.registerFile.1 = true → sd.registerFile.2.open_files = sd.open_files + 1) ∧
    (sd.registerFile.1 = false → sd.registerFile.2 = sd) ∧
    sd.registerFile.2.mounted = sd.mounted ∧ sd.registerFile.2.initialized = sd.initialized := by
  unfold SDCard.registerFile
  by_cases h : sd.open_files ≥ MAX_FILES
  · have h2 : ¬ sd.open_files < MAX_FILES := by omega
    simp [h, h2]
  · have h2 : sd.open_files < MAX_FILES := by omega
    have h3 : (sd.open_files + 1) % 256 = sd.open_files + 1 := by
      simp only [MAX_FILES] at h2
      omega
    simp [h, h2, h3]

/-- C15: for a file that is not open, `open` returns true exactly when the volume is
mounted, the open-file count is below `MAX_FILES` and `f_open` succeeds; then the file
is open, the cursor is 0 and the count has grown by one; otherwise the file is not
open and the count is unchanged. -/
theorem C15_open_result (f : SDFile) (env : Env) (path : Bytes) (append : Bool)
    (hclosed : f.is_open = false) :
    ((f.open env path append).1 = true ↔
      (env.sd.mounted = true ∧ env.sd.open_files < MAX_FILES ∧
        (f_open env.fs f.fil path
          (if append then FA_WRITE ||| FA_OPEN_APPEND else FA_WRITE ||| FA_CREATE_ALWAYS)).1
          = FRESULT.FR_OK)) ∧
    ((f.open env path append).1 = true →
      (f.open env path append).2.1.is_open = true ∧
      (f.open env path append).2.1.buffer_pos = 0 ∧
      (f.open env path append).2.2.sd.open_files = env.sd.open_files + 1) ∧
    ((f.open env path append).1 = false →
      (f.open env path append).2.1.is_open = false ∧
      (f.open env path append).2.2.sd.open_files = env.sd.open_files) := by
  obtain ⟨r1, r2, r3, _, _⟩ := registerFile_spec env.sd
  unfold SDFile.open
  simp only [hclosed, Bool.false_eq_true, if_false, SDCard.isMounted]
  by_cases hm : env.sd.mounted = true
  · simp only [hm, Bool.not_true, Bool.false_eq_true, if_false, true_and]
    by_cases hr : env.sd.registerFile.1 = true
    · have hlt := r1.mp hr
      have hcnt := r2 hr
      simp only [hr, Bool.not_true, Bool.false_eq_true, if_false, hlt, true_and]
      by_cases hop : (f_open env.fs f.fil path
          (if append then FA_WRITE ||| FA_OPEN_APPEND else FA_WRITE ||| FA_CREATE_ALWAYS)).1
          = FRESULT.FR_OK
      · simp [hop, hcnt]
      · simp only [hop, decide_False, Bool.not_false, if_true, Bool.false_eq_true,
          false_implies, true_implies, true_and, and_true, iff_self, SDCard.unregisterFile,
          hcnt]
        simp
    · have hr' : env.sd.registerFile.1 = false := by simpa using hr
      have hnl : ¬ env.sd.open_files < MAX_FILES := fun h => hr (r1.mpr h)
      simp [hr', hnl, hclosed, r3 hr']
  · have hm' : env.sd.mounted = false := by simpa using hm
    simp [hm', hclosed]

/-- C15 on a mounted volume with 3 open files and a working medium. -/
theorem C15_open_result_witness :
    (SDFile.new.open { sd := { mounted := true, open_files := 3 } } "a.txt".toList false).1
      = true ∧
    (SDFile.new.open { sd := { mounted := true, open_files := 3 } }
      "a.txt".toList false).2.2.sd.open_files = 3 + 1 :=
  have h := C15_open_result SDFile.new { sd := { mounted := true, open_files := 3 } }
    "a.txt".toList false rfl
  ⟨h.1.mpr (by decide), (h.2.1 (h.1.mpr (by decide))).2.2⟩

set_option maxRecDepth 100000 in
/-- C16 fails as stated: with one byte buffered and a failing `f_write`, `close` returns
false, the file is still open and the open-file count is still 1. -/
theorem C16_close_counterexample :
    dirtyFile.is_open = true ∧
    (dirtyFile.close failingWriteEnv).1 = false ∧
    (dirtyFile.close failingWriteEnv).2.1.isOpen = true ∧
    failingWriteEnv.sd.open_files = 1 ∧
    (dirtyFile.close failingWriteEnv).2.2.sd.open_files = 1 := by
  decide!

/-- C16 as amended: on an open file, when the flush of the buffered bytes succeeds,
`close` hands them to the handle, calls `f_close`, leaves the file not open and takes
one off the open-file count (which stays 0 when it was 0); when the flush fails,
`close` returns false and the file stays open with the count unchanged. -/
theorem C16_close_amended (f : SDFile) (env : Env) (ho : f.is_open = true) :
    ((f.flushBuffer env.fs).1 = true →
      (f.close env).2.1.isOpen = false ∧
      (f.close env).2.1.fil.data = f.fil.data ++ f.pending ∧
      (f.close env).2.1.buffer_pos = 0 ∧
      (f.close env).2.2.sd.open_files = env.sd.open_files - 1 ∧
      ∃ ok, (f.close env).2.2.fs.log =
        (f.flushBuffer env.fs).2.2.log ++ [Event.fclose f.fil.path ok]) ∧
    ((f.flushBuffer env.fs).1 = false →
      (f.close env).1 = false ∧ (f.close env).2.1.isOpen = true ∧
      (f.close env).2.2.sd.open_files = env.sd.open_files) := by
  obtain ⟨g1, g2, g3, g4, g5, g6, g7, _⟩ := flushBuffer_frame f env.fs
  rcases hfl : f.flushBuffer env.fs with ⟨r0, f2, fs2⟩
  rw [hfl] at g1 g2 g3 g4 g5 g6 g7
  simp only at g1 g2 g3 g4 g5 g6 g7
  unfold SDFile.close
  simp only [ho, Bool.not_true, Bool.false_eq_true, if_false, hfl]
  cases r0 with
  | false =>
    simp [SDFile.isOpen, g2, ho]
  | true =>
    obtain ⟨d1, d2, _⟩ := flushBuffer_true _ _ _ _ hfl
    have hcnt : env.sd.unregisterFile.open_files = env.sd.open_files - 1 := by
      unfold SDCard.unregisterFile
      split
      · rfl
      · omega
    have hlog : ∃ ok, (f_close fs2 f2.fil).2.log = fs2.log ++ [Event.fclose f.fil.path ok] := by
      unfold f_close
      split
      · exact ⟨false, by simp [g3]⟩
      · exact ⟨true, by simp [g3]⟩
    simp only [Bool.not_true, Bool.false_eq_true, if_false, true_implies, false_implies,
      and_true, SDFile.isOpen, d1, d2, true_and]
    exact ⟨⟨hcnt, hlog⟩, fun h => absurd h (by decide)⟩

set_option maxRecDepth 100000 in
/-- C16 as amended, at an open file with 511 buffered bytes on a working medium. -/
theorem C16_close_amended_witness :
    (almostFullFile.close { sd := { mounted := true, open_files := 1 } }).2.1.isOpen = false ∧
    (almostFullFile.close { sd := { mounted := true, open_files := 1 } }).2.2.sd.open_files
      = 1 - 1 :=
  have h := (C16_close_amended almostFullFile { sd := { mounted := true, open_files := 1 } }
    (by decide)).1 (by decide)
  ⟨h.1, h.2.2.2.1⟩

/-- C17: `close` on a file that is not open returns true and changes neither the file
nor the environment; hence a second `close` after one that closed the file changes
nothing. -/
theorem C17_close_idempotent (f : SDFile) (env : Env) :
    (f.is_open = false → f.close env = (true, f, env)) ∧
    ((f.close env).2.1.is_open = false →
      (f.close env).2.1.close (f.close env).2.2 = (true, (f.close env).2.1, (f.close env).2.2)) :=
  ⟨close_not_open f env, close_not_open _ _⟩

/-- C18: `sync` on a file that is not open returns false and changes nothing; on an open
file it returns true exactly when the flush and `f_sync` both succeed; after a true
return the cursor is 0 and the bytes that were pending are with the handle; `sync` never
changes the open flag or the `SDCard` singleton. -/
theorem C18_sync_result (f : SDFile) (env : Env) :
    (f.is_open = false → f.sync env = (false, f, env)) ∧
    (f.is_open = true →
      ((f.sync env).1 = true ↔
        ((f.flushBuffer env.fs).1 = true ∧
          (f_sync (f.flushBuffer env.fs).2.2 (f.flushBuffer env.fs).2.1.fil).1 = FRESULT.FR_OK))) ∧
    ((f.sync env).1 = true →
      (f.sync env).2.1.buffer_pos = 0 ∧
      (f.sync env).2.1.fil.data = f.fil.data ++ f.pending ∧
      (f.sync env).2.1.fil.synced = (f.sync env).2.1.fil.data.length) ∧
    (f.sync env).2.1.isOpen = f.isOpen ∧
    (f.sync env).2.2.sd = env.sd := by
  refine ⟨?_, ?_, ?_, ?_, ?_⟩
  · intro h
    simp [SDFile.sync, h]
  · intro ho
    unfold SDFile.sync
    simp only [ho, Bool.not_true, Bool.false_eq_true, if_false]
    cases (f.flushBuffer env.fs).1 <;> simp
  · intro h
    rcases hs : f.sync env with ⟨r, f1, env1⟩
    rw [hs] at h
    simp only at h
    subst h
    obtain ⟨_, d1, d2, d3, _⟩ := sync_true _ _ _ _ hs
    exact ⟨d2, d1, d3⟩
  · obtain ⟨_, g2, _⟩ := flushBuffer_frame f env.fs
    unfold SDFile.sync SDFile.isOpen
    by_cases ho : f.is_open = true
    · simp only [ho, Bool.not_true, Bool.false_eq_true, if_false]
      rw [ho] at g2
      cases (f.flushBuffer env.fs).1 <;> simp [g2, f_sync]
    · simp [ho]
  · unfold SDFile.sync
    by_cases ho : f.is_open = true
    · simp only [ho, Bool.not_true, Bool.false_eq_true, if_false]
      cases (f.flushBuffer env.fs).1 <;> simp
    · simp [ho]

/-- C19: when a flush fails during a `write` call on an open file, the call returns
false, the file is still open, the `SDCard` singleton (with its open-file count) is
unchanged, and the failed `f_write` is the last one of the call: nothing is retried. -/
theorem C19_write_failed_flush (f : SDFile) (env : Env) (text : Bytes) (evs : List Event)
    (ho : f.is_open = true) (hf : f.WF)
    (hlog : env.fs.logged (f.write env (some text)).2.2.fs evs)
    (hfail : ∃ e ∈ evs, e.isFailedWrite = true) :
    (f.write env (some text)).1 = false ∧
    (f.write env (some text)).2.1.isOpen = true ∧
    (f.write env (some text)).2.2.sd = env.sd ∧
    ∃ pre e, evs = pre ++ [e] ∧ e.isFailedWrite = true ∧ ∀ x ∈ pre, x.isFailedWrite = false := by
  obtain ⟨r, f1, fs1, hw, _, p2, _, _, _, ⟨evs1, p6, p7, p8⟩, _, _⟩ := write_spec f env text ho hf
  rw [hw] at hlog ⊢
  simp only at hlog ⊢
  have hevs : evs = evs1 := logged_unique hlog p6
  subst hevs
  have hr : r = false := by
    cases r with
    | false => rfl
    | true =>
      obtain ⟨e, he, hfe⟩ := hfail
      rw [p7 rfl e he] at hfe
      exact absurd hfe (by simp)
  exact ⟨hr, by rw [SDFile.isOpen, p2, ho], trivial, p8 hr⟩

set_option maxRecDepth 100000 in
/-- C19 at a file with 511 buffered bytes, the text "abc" and a failing `f_write`. -/
theorem C19_write_failed_flush_witness :
    (almostFullFile.write failingWriteEnv (some "abc".toList)).1 = false ∧
    (almostFullFile.write failingWriteEnv (some "abc".toList)).2.1.isOpen = true ∧
    (almostFullFile.write failingWriteEnv (some "abc".toList)).2.2.sd.open_files = 1 :=
  have h := C19_write_failed_flush almostFullFile failingWriteEnv "abc".toList
    [Event.fwrite [] [] false] (by decide) (by decide) (by rfl) (by decide)
  ⟨h.1, h.2.1, by rw [h.2.2.1]; rfl⟩

theorem flushBuffer_WF (f : SDFile) (fs : FatFs) (hf : f.WF) : (f.flushBuffer fs).2.1.WF := by
  obtain ⟨g1, _, _, _, g5, g6, _⟩ := flushBuffer_frame f fs
  refine ⟨by rw [g1]; exact hf.1, ?_⟩
  cases h : (f.flushBuffer fs).1 with
  | true => rw [g5 h]; exact Nat.zero_le _
  | false => rw [g6 h]; exact hf.2

theorem close_WF (f : SDFile) (env : Env) (hf : f.WF) : (f.close env).2.1.WF := by
  have h := flushBuffer_WF f env.fs hf
  unfold SDFile.close
  by_cases ho : f.is_open = true
  · simp only [ho, Bool.not_true, Bool.false_eq_true, if_false]
    cases (f.flushBuffer env.fs).1
    · simpa using h
    · simpa [SDFile.WF] using h
  · simpa [ho] using hf

theorem sync_WF (f : SDFile) (env : Env) (hf : f.WF) : (f.sync env).2.1.WF := by
  have h := flushBuffer_WF f env.fs hf
  unfold SDFile.sync
  by_cases ho : f.is_open = true
  · simp only [ho, Bool.not_true, Bool.false_eq_true, if_false]
    cases (f.flushBuffer env.fs).1
    · simpa using h
    · simpa [SDFile.WF] using h
  · simpa [ho] using hf

theorem open_WF (f : SDFile) (env : Env) (path : Bytes) (append : Bool) (hf : f.WF) :
    (f.open env path append).2.1.WF := by
  have h : (if f.is_open then f.close env else (true, f, env)).2.1.WF := by
    split
    · exact close_WF f env hf
    · exact hf
  unfold SDFile.open
  generalize (if f.is_open then f.close env else (true, f, env)) = res at h
  obtain ⟨r, f1, env1⟩ := res
  simp only at h ⊢
  split
  · exact h
  · split
    · exact h
    · exact ⟨h.1, Nat.zero_le _⟩

theorem write_WF (f : SDFile) (env : Env) (formatted : Option Bytes) (hf : f.WF) :
    (f.write env formatted).2.1.WF := by
  by_cases ho : f.is_open = true
  · cases formatted with
    | none => simpa [SDFile.write, ho] using hf
    | some text =>
      obtain ⟨r, f1, fs1, hw, p1, _⟩ := write_spec f env text ho hf
      rw [hw]
      exact p1
  · simpa [SDFile.write, ho] using hf

theorem new_WF : SDFile.new.WF := by
  refine ⟨?_, Nat.zero_le _⟩
  show (List.replicate BUFFER_SIZE (Char.ofNat 0)).length = BUFFER_SIZE
  exact List.length_replicate _ _

theorem apply_WF (op : FileOp) (f : SDFile) (env : Env) (hf : f.WF) : (op.apply f env).1.WF := by
  cases op with
  | «open» path append => exact open_WF f env path append hf
  | write formatted => exact write_WF f env formatted hf
  | sync => exact sync_WF f env hf
  | close => exact close_WF f env hf

theorem runFileOps_WF : ∀ (ops : List FileOp) (f : SDFile) (env : Env), f.WF →
    (runFileOps ops f env).1.WF := by
  intro ops
  induction ops with
  | nil => intro f env hf; exact hf
  | cons op ops ih =>
    intro f env hf
    exact ih _ _ (apply_WF op f env hf)

/-- C20: starting from a freshly constructed `SDFile`, after every sequence of `open`,
`write`, `sync` and `close` calls, on every medium (whatever its writes do), the
cursor is at most `BUFFER_SIZE` = 512 and the buffer is the 512-byte array; so the
copy of the next `write` pass ends inside the array. -/
theorem C20_cursor_within_buffer (ops : List FileOp) (env : Env) :
    (runFileOps ops SDFile.new env).1.buffer_pos ≤ 512 ∧
    (runFileOps ops SDFile.new env).1.buffer.length = 512 ∧
    ∀ bytes_to_write : Nat,
      (runFileOps ops SDFile.new env).1.buffer_pos +
        (if bytes_to_write < subU32 BUFFER_SIZE (runFileOps ops SDFile.new env).1.buffer_pos
          then bytes_to_write
          else subU32 BUFFER_SIZE (runFileOps ops SDFile.new env).1.buffer_pos) ≤ 512 := by
  obtain ⟨h1, h2⟩ := runFileOps_WF ops SDFile.new env new_WF
  simp only [BUFFER_SIZE] at h1 h2
  refine ⟨h2, h1, ?_⟩
  intro n
  have hs := subU32_of_le (a := BUFFER_SIZE) h2 (by norm_num [BUFFER_SIZE])
  simp only [BUFFER_SIZE] at hs ⊢
  rw [hs]
  split <;> omega

/-! ### Directory scan -/

theorem scanEntry_eq (highest : Int) (fno : FILINFO) :
    scanEntry highest fno =
      match countedValue fno with
      | some v => if v > highest then v else highest
      | none => highest := by
  unfold scanEntry countedValue
  by_cases hd : fno.fattrib &&& AM_DIR ≠ 0
  · by_cases hp : (strtol fno.fname).2 = [] ∧ (strtol fno.fname).1 ≥ 0
    · simp [hd, hp]
    · simp only [hd, hp, and_false, if_false, if_true, ne_eq, not_false_eq_true]
  · simp [hd]

theorem readdirLoop_eq_foldl : ∀ (entries : List FILINFO) (rdFail : List Bool) (highest : Int),
    (readdirLoop entries rdFail highest).1 = (readEntries entries rdFail).foldl scanEntry highest := by
  intro entries
  induction entries with
  | nil => intro rdFail highest; rfl
  | cons fno entries ih =>
    intro rdFail highest
    unfold readdirLoop readEntries
    split
    · rfl
    · simp only [List.foldl_cons]
      exact ih _ _

/-- The running maximum of the scan: it starts from `highest`, dominates every counted
value, and is either `highest` or one of the counted values. -/
theorem foldl_scanEntry_max : ∀ (l : List FILINFO) (highest : Int),
    highest ≤ l.foldl scanEntry highest ∧
    (∀ e ∈ l, ∀ v, countedValue e = some v → v ≤ l.foldl scanEntry highest) ∧
    (l.foldl scanEntry highest = highest ∨
      ∃ e ∈ l, countedValue e = some (l.foldl scanEntry highest)) := by
  intro l
  induction l with
  | nil => intro highest; simp
  | cons a l ih =>
    intro highest
    obtain ⟨h1, h2, h3⟩ := ih (scanEntry highest a)
    have hstep : highest ≤ scanEntry highest a ∧
        (∀ v, countedValue a = some v → v ≤ scanEntry highest a) ∧
        (scanEntry highest a = highest ∨ countedValue a = some (scanEntry highest a)) := by
      rw [scanEntry_eq]
      cases hc : countedValue a with
      | none => simp
      | some v =>
        simp only [Option.some.injEq, forall_eq']
        by_cases hv : v > highest
        · simp only [hv, if_true]
          exact ⟨le_of_lt hv, le_refl _, Or.inr trivial⟩
        · simp only [hv, if_false]
          exact ⟨le_refl _, le_of_not_lt hv, Or.inl trivial⟩
    obtain ⟨s1, s2, s3⟩ := hstep
    simp only [List.foldl_cons, List.mem_cons]
    refine ⟨le_trans s1 h1, ?_, ?_⟩
    · intro e he v hv
      rcases he with he | he
      · subst he
        exact le_trans (s2 v hv) h1
      · exact h2 e he v hv
    · rcases h3 with h3 | ⟨e, he, hv⟩
      · rcases s3 with s3 | s3
        · left; rw [h3, s3]
        · right
          exact ⟨a, Or.inl rfl, by rw [h3]; exact s3⟩
      · right
        exact ⟨e, Or.inr he, hv⟩

theorem isdigit_not_space_sign (c : Char) (h : isdigit c = true) :
    isspace c = false ∧ c ≠ '-' ∧ c ≠ '+' := by
  refine ⟨?_, ?_, ?_⟩
  · unfold isspace
    simp only [Bool.or_eq_false_iff, decide_eq_false_iff_not]
    refine ⟨⟨⟨⟨⟨?_, ?_⟩, ?_⟩, ?_⟩, ?_⟩, ?_⟩ <;>
    · intro hc
      subst hc
      exact absurd h (by decide)
  · intro hc
    subst hc
    exact absurd h (by decide)
  · intro hc
    subst hc
    exact absurd h (by decide)

theorem findHighest_unmounted (env : Env) (pfx : Bytes) (h : env.sd.mounted = false) :
    SDCard.findHighestNumberedFolder env pfx = (-1, env) := by
  simp [SDCard.findHighestNumberedFolder, h]

theorem findHighest_mounted (env : Env) (pfx : Bytes) (h : env.sd.mounted = true) :
    (SDCard.findHighestNumberedFolder env pfx).1 =
      if (f_opendir env.fs pfx).1 ≠ FRESULT.FR_OK then -1
      else (readEntries (f_opendir env.fs pfx).2.1 (f_opendir env.fs pfx).2.2.rdFail).foldl
        scanEntry (-1) := by
  unfold SDCard.findHighestNumberedFolder
  simp only [h, Bool.not_true, Bool.false_eq_true, if_false]
  split
  · rfl
  · exact readdirLoop_eq_foldl _ _ _

theorem sameControl_refl (sm : SessionManager) : sm.sameControl sm := by
  simp [SessionManager.sameControl]

theorem sameControl_trans {a b c : SessionManager} (h1 : a.sameControl b)
    (h2 : b.sameControl c) : a.sameControl c := by
  unfold SessionManager.sameControl at *
  obtain ⟨a1, a2, a3, a4, a5, a6, a7⟩ := h1
  obtain ⟨b1, b2, b3, b4, b5, b6, b7⟩ := h2
  exact ⟨b1.trans a1, b2.trans a2, b3.trans a3, b4.trans a4, b5.trans a5, b6.trans a6,
    b7.trans a7⟩

theorem createNewSession_control {sm : SessionManager} {env : Env} {ok : Bool}
    {sm1 : SessionManager} {env1 : Env} (h : sm.createNewSession env = (ok, sm1, env1)) :
    sm.sameControl sm1 ∧ sm1.logging_active = sm.logging_active ∧ sm1.led = sm.led := by
  unfold SessionManager.createNewSession at h
  unfold SessionManager.sameControl
  split at h
  split at h
  dsimp only at h
  split at h
  · simp only [Prod.mk.injEq] at h
    obtain ⟨_, rfl, _⟩ := h
    simp
  · split at h
    · simp only [Prod.mk.injEq] at h
      obtain ⟨_, rfl, _⟩ := h
      simp
    · simp only [Prod.mk.injEq] at h
      obtain ⟨_, rfl, _⟩ := h
      simp

theorem stopLogging_control {sm : SessionManager} {env : Env} {sm1 : SessionManager}
    {env1 : Env} (h : sm.stopLogging env = (sm1, env1)) :
    sm.sameControl sm1 ∧ sm1.logging_active = false := by
  unfold SessionManager.stopLogging at h
  unfold SessionManager.sameControl
  split at h
  split at h
  simp only [Prod.mk.injEq] at h
  obtain ⟨rfl, _⟩ := h
  simp

theorem togglePart_control {sm : SessionManager} {env : Env} {sm1 : SessionManager}
    {env1 : Env} (h : sm.togglePart env = (sm1, env1)) :
    sm1.button_state = sm.button_state ∧
    sm1.last_button_state = sm.last_button_state ∧
    sm1.last_button_press_time = sm.last_button_press_time ∧
    sm1.button_press_count = sm.button_press_count ∧
    sm1.shutdown_requested = sm.shutdown_requested ∧
    sm1.toggle_state = sm.toggle_state ∧
    sm1.last_toggle_state = sm.toggle_state ∧
    (sm.toggle_state = false → sm.last_toggle_state = true → sm1.logging_active = false) ∧
    (sm.toggle_state = sm.last_toggle_state → sm1 = sm ∧ env1 = env) := by
  unfold SessionManager.togglePart at h
  split at h
  · rename_i hc
    split at h
    · rename_i ht
      split at h
      split at h
      rename_i hcr
      obtain ⟨⟨c1, c2, c3, c4, c5, c6, c7⟩, _, _⟩ := createNewSession_control hcr
      simp only at c1 c2 c3 c4 c5 c6 c7
      simp only [Prod.mk.injEq] at h
      obtain ⟨rfl, _⟩ := h
      refine ⟨?_, ?_, ?_, ?_, ?_, ?_, ?_, ?_, ?_⟩ <;>
        first
        | (split <;> simp [c1, c2, c3, c4, c5, c6, c7, ht]; done)
        | (intro h1; simp [ht] at h1; done)
        | (intro h1; exact absurd h1 hc)
    · rename_i ht
      split at h
      split at h
      rename_i hsl
      obtain ⟨⟨c1, c2, c3, c4, c5, c6, c7⟩, c8⟩ := stopLogging_control hsl
      simp only at c1 c2 c3 c4 c5 c6 c7
      simp only [Prod.mk.injEq] at h
      obtain ⟨rfl, _⟩ := h
      refine ⟨c3, c4, c5, c6, c7, c1, ?_, ?_, ?_⟩
      · simp [c1]
      · intro _ _
        exact c8
      · intro h1
        exact absurd h1 hc
  · rename_i hc
    simp only [Prod.mk.injEq] at h
    obtain ⟨e1, e2⟩ := h
    rw [← e1, ← e2]
    have heq : sm.toggle_state = sm.last_toggle_state := by
      by_contra hne
      exact hc hne
    refine ⟨rfl, rfl, rfl, rfl, rfl, rfl, heq.symm, ?_, fun _ => ⟨rfl, rfl⟩⟩
    intro h1 h2
    rw [h1, h2] at heq
    exact absurd heq (by decide)

theorem buttonPart_control {sm : SessionManager} {env : Env} {t : Nat} {sm1 : SessionManager}
    {env1 : Env} (h : sm.buttonPart env t = (sm1, env1)) :
    sm1.toggle_state = sm.toggle_state ∧
    sm1.last_toggle_state = sm.last_toggle_state ∧
    sm1.button_state = sm.button_state ∧
    sm1.last_button_state = sm.last_button_state ∧
    sm1.logging_active = sm.logging_active ∧
    (((!sm.button_state && sm.last_button_state) = true ∧ sm.logging_active = false) →
      sm1.last_button_press_time = t ∧
      sm1.button_press_count =
        (if subU32 t sm.last_button_press_time < DOUBLE_PRESS_TIMEOUT_MS
          then wrap32 (sm.button_press_count + 1) else 1) ∧
      sm1.shutdown_requested =
        (sm.shutdown_requested ||
          decide (subU32 t sm.last_button_press_time < DOUBLE_PRESS_TIMEOUT_MS ∧
            wrap32 (sm.button_press_count + 1) ≥ 2))) ∧
    (¬ ((!sm.button_state && sm.last_button_state) = true ∧ sm.logging_active = false) →
      sm1.last_button_press_time = sm.last_button_press_time ∧
      sm1.button_press_count = sm.button_press_count ∧
      sm1.shutdown_requested = sm.shutdown_requested) := by
  unfold SessionManager.buttonPart at h
  split at h
  · rename_i hedge
    split at h
    · rename_i hlog
      split at h
      split at h
      split at h
      rename_i hcr
      obtain ⟨⟨c1, c2, c3, c4, c5, c6, c7⟩, c8, _⟩ := createNewSession_control hcr
      simp only at c1 c2 c3 c4 c5 c6 c7 c8
      simp only [Prod.mk.injEq] at h
      obtain ⟨rfl, _⟩ := h
      refine ⟨c1, c2, c3, c4, c8, ?_, fun _ => ⟨c5, c6, c7⟩⟩
      intro hidle
      rw [hlog] at hidle
      exact absurd hidle.2 (by decide)
    · rename_i hlog
      have hlog' : sm.logging_active = false := by simpa using hlog
      split at h
      · rename_i hwin
        dsimp only at h
        split at h
        · rename_i hcount
          split at h
          · simp only [Prod.mk.injEq] at h
            obtain ⟨rfl, _⟩ := h
            refine ⟨rfl, rfl, rfl, rfl, rfl, fun _ => ⟨rfl, ?_, ?_⟩, fun hn => absurd ⟨hedge, hlog'⟩ hn⟩
            · simp [hwin]
            · simp [hwin, hcount]
          · simp only [Prod.mk.injEq] at h
            obtain ⟨rfl, _⟩ := h
            refine ⟨rfl, rfl, rfl, rfl, rfl, fun _ => ⟨rfl, ?_, ?_⟩, fun hn => absurd ⟨hedge, hlog'⟩ hn⟩
            · simp [hwin]
            · simp [hwin, hcount]
        · rename_i hcount
          simp only [Prod.mk.injEq] at h
          obtain ⟨rfl, _⟩ := h
          refine ⟨rfl, rfl, rfl, rfl, rfl, fun _ => ⟨rfl, ?_, ?_⟩, fun hn => absurd ⟨hedge, hlog'⟩ hn⟩
          · simp [hwin]
          · simp [hwin, hcount]
      · rename_i hwin
        simp only [Prod.mk.injEq] at h
        obtain ⟨rfl, _⟩ := h
        refine ⟨rfl, rfl, rfl, rfl, rfl, fun _ => ⟨rfl, ?_, ?_⟩, fun hn => absurd ⟨hedge, hlog'⟩ hn⟩
        · simp [hwin]
        · simp [hwin]
  · rename_i hedge
    simp only [Prod.mk.injEq] at h
    obtain ⟨e1, e2⟩ := h
    rw [← e1]
    exact ⟨rfl, rfl, rfl, rfl, rfl, fun hi => absurd hi.1 hedge, fun _ => ⟨rfl, rfl, rfl⟩⟩

theorem subU32_self (t : Nat) : subU32 t t = 0 := by
  unfold subU32
  have h : t % 2 ^ 32 ≤ t := Nat.mod_le _ _
  have h2 : t + 2 ^ 32 - t % 2 ^ 32 = (t - t % 2 ^ 32) + 2 ^ 32 := by omega
  rw [h2, Nat.add_mod_right]
  have h3 : (t - t % 2 ^ 32) = 2 ^ 32 * (t / 2 ^ 32) := by
    have := Nat.div_add_mod t (2 ^ 32)
    omega
  rw [h3, Nat.mul_mod_right]

/-- What one `update()` does to the switch levels and to the double-press detection. -/
theorem update_control (sm : SessionManager) (env : Env) (inp : Inputs) :
    (sm.update env inp).1.button_state = inp.button_gpio ∧
    (sm.update env inp).1.last_button_state = inp.button_gpio ∧
    (sm.update env inp).1.toggle_state = (!inp.toggle_gpio) ∧
    (sm.update env inp).1.last_toggle_state = (!inp.toggle_gpio) ∧
    (sm.idlePress inp = true →
      (sm.update env inp).1.last_button_press_time = inp.now % 2 ^ 32 ∧
      (sm.update env inp).1.button_press_count =
        (if subU32 (inp.now % 2 ^ 32) sm.last_button_press_time < DOUBLE_PRESS_TIMEOUT_MS
          then wrap32 (sm.button_press_count + 1) else 1) ∧
      (sm.update env inp).1.shutdown_requested =
        (sm.shutdown_requested ||
          decide (subU32 (inp.now % 2 ^ 32) sm.last_button_press_time < DOUBLE_PRESS_TIMEOUT_MS ∧
            wrap32 (sm.button_press_count + 1) ≥ 2))) ∧
    (sm.idlePress inp = false →
      (sm.update env inp).1.last_button_press_time = sm.last_button_press_time ∧
      (sm.update env inp).1.button_press_count =
        (if subU32 (inp.now % 2 ^ 32) sm.last_button_press_time > DOUBLE_PRESS_TIMEOUT_MS
          then 0 else sm.button_press_count) ∧
      (sm.update env inp).1.shutdown_requested = sm.shutdown_requested) := by
  unfold SessionManager.update
  dsimp only
  rcases hb : SessionManager.buttonPart
    { sm with toggle_state := !inp.toggle_gpio, button_state := inp.button_gpio } env
    (inp.now % 2 ^ 32) with ⟨sm1, env1⟩
  obtain ⟨b1, b2, b3, b4, b5, b6, b7⟩ := buttonPart_control hb
  simp only at b1 b2 b3 b4 b5 b6 b7
  dsimp only
  generalize hsm3 : (if subU32 (inp.now % 2 ^ 32) sm1.last_button_press_time >
      DOUBLE_PRESS_TIMEOUT_MS then
        { sm1 with last_button_state := sm1.button_state, button_press_count := 0 }
      else { sm1 with last_button_state := sm1.button_state }) = sm3
  have k1 : sm3.button_state = inp.button_gpio := by
    rw [← hsm3]; split <;> exact b3
  have k2 : sm3.last_button_state = inp.button_gpio := by
    rw [← hsm3]; split <;> exact b3
  have k3 : sm3.toggle_state = !inp.toggle_gpio := by
    rw [← hsm3]; split <;> exact b1
  have k4 : sm3.last_button_press_time = sm1.last_button_press_time := by
    rw [← hsm3]; split <;> rfl
  have k5 : sm3.shutdown_requested = sm1.shutdown_requested := by
    rw [← hsm3]; split <;> rfl
  have k6 : sm3.button_press_count =
      if subU32 (inp.now % 2 ^ 32) sm1.last_button_press_time > DOUBLE_PRESS_TIMEOUT_MS
        then 0 else sm1.button_press_count := by
    rw [← hsm3]; split <;> rfl
  rcases ht : sm3.togglePart env1 with ⟨sm4, env4⟩
  obtain ⟨t1, t2, t3, t4, t5, t6, t7, _, _⟩ := togglePart_control ht
  dsimp only
  refine ⟨t1.trans k1, t2.trans k2, t6.trans k3, t7.trans k3, ?_, ?_⟩
  · intro hidle
    have hi : (!inp.button_gpio && sm.last_button_state) = true ∧ sm.logging_active = false := by
      simpa [SessionManager.idlePress, SessionManager.fallingEdge] using hidle
    obtain ⟨p1, p2, p3⟩ := b6 hi
    refine ⟨t3.trans (k4.trans p1), ?_, t5.trans (k5.trans p3)⟩
    rw [t4, k6, p1, subU32_self, p2]
    simp [DOUBLE_PRESS_TIMEOUT_MS]
  · intro hidle
    have hi : ¬ ((!inp.button_gpio && sm.last_button_state) = true ∧
        sm.logging_active = false) := by
      simpa [SessionManager.idlePress, SessionManager.fallingEdge] using hidle
    obtain ⟨p1, p2, p3⟩ := b7 hi
    refine ⟨t3.trans (k4.trans p1), ?_, t5.trans (k5.trans p3)⟩
    rw [t4, k6, p1, p2]

/-! ### Double-press detection -/

theorem new_control (toggle_gpio : Bool) (debug : Option SDFile) (env : Env) :
    (SessionManager.new toggle_gpio debug env).1.last_button_press_time = 0 ∧
    (SessionManager.new toggle_gpio debug env).1.button_press_count = 0 ∧
    (SessionManager.new toggle_gpio debug env).1.shutdown_requested = false ∧
    (SessionManager.new toggle_gpio debug env).1.last_button_state = true ∧
    (SessionManager.new toggle_gpio debug env).1.toggle_state = (!toggle_gpio) ∧
    (SessionManager.new toggle_gpio debug env).1.last_toggle_state = (!toggle_gpio) := by
  unfold SessionManager.new
  dsimp only
  split
  · generalize hcr : SessionManager.createNewSession _ _ = res
    obtain ⟨ok, sm1, env1⟩ := res
    obtain ⟨⟨c1, c2, c3, c4, c5, c6, c7⟩, _, _⟩ := createNewSession_control hcr
    simp only at c1 c2 c3 c4 c5 c6 c7
    dsimp only
    split <;> simp [c1, c2, c4, c5, c6, c7]
  · simp

theorem wrap32_one : wrap32 (0 + 1) = 1 := by decide

theorem wrap32_two : wrap32 (1 + 1) = 2 := by decide

theorem update_PressInv (sm : SessionManager) (env : Env) (inp : Inputs) (h : PressInv sm) :
    PressInv (sm.update env inp).1 := by
  obtain ⟨_, _, _, _, u5, u6⟩ := update_control sm env inp
  unfold PressInv at *
  cases hi : sm.idlePress inp with
  | true =>
    obtain ⟨_, p2, p3⟩ := u5 hi
    rw [p2, p3]
    rcases h with h | h | h
    · left; simp [h]
    · rw [h, wrap32_one]
      right; right
      split <;> rfl
    · rw [h, wrap32_two]
      by_cases hw : subU32 (inp.now % 2 ^ 32) sm.last_button_press_time < DOUBLE_PRESS_TIMEOUT_MS
      · left
        rw [Bool.or_eq_true]
        right
        exact decide_eq_true ⟨hw, by decide⟩
      · right; right
        rw [if_neg hw]
  | false =>
    obtain ⟨_, p2, p3⟩ := u6 hi
    rw [p2, p3]
    rcases h with h | h | h
    · left; exact h
    · right; left; split <;> simp [h]
    · right; split
      · left; rfl
      · right; exact h

theorem runUpdates_PressInv : ∀ (inps : List Inputs) (sm : SessionManager) (env : Env),
    PressInv sm → PressInv (runUpdates sm env inps).1 := by
  intro inps
  induction inps with
  | nil => intro sm env h; exact h
  | cons inp rest ih =>
    intro sm env h
    exact ih _ _ (update_PressInv sm env inp h)

theorem update_shutdown_mono (sm : SessionManager) (env : Env) (inp : Inputs)
    (h : sm.shutdown_requested = true) : (sm.update env inp).1.shutdown_requested = true := by
  obtain ⟨_, _, _, _, u5, u6⟩ := update_control sm env inp
  cases hi : sm.idlePress inp with
  | true => rw [(u5 hi).2.2, h]; rfl
  | false => rw [(u6 hi).2.2, h]

/-- C14: once `isShutdownRequested()` is true, it is still true after `update()`, for
every toggle level, button level, clock value and storage outcome. -/
theorem C14_shutdown_monotonic (sm : SessionManager) (env : Env) (inp : Inputs)
    (h : sm.isShutdownRequested = true) : (sm.update env inp).1.isShutdownRequested = true :=
  update_shutdown_mono sm env inp h

/-- C14 at a controller that has requested shutdown, with the toggle switched on. -/
theorem C14_shutdown_monotonic_witness :
    (SessionManager.update { shutdown_requested := true } (mountedEnv [])
      { toggle_gpio := false, button_gpio := false, now := 70000 }).1.isShutdownRequested = true :=
  C14_shutdown_monotonic { shutdown_requested := true } (mountedEnv [])
    { toggle_gpio := false, button_gpio := false, now := 70000 } rfl

theorem reached_PressInv (toggle_gpio : Bool) (debug : Option SDFile) (env0 : Env)
    (inps : List Inputs) : PressInv (reached toggle_gpio debug env0 inps).1 := by
  unfold reached
  apply runUpdates_PressInv
  obtain ⟨_, h, _⟩ := new_control toggle_gpio debug env0
  exact Or.inr (Or.inl h)

theorem update_awaiting (t1 : Nat) (sm : SessionManager) (env : Env) (inp : Inputs)
    (h : AwaitingSecondPress t1 sm) (h1 : t1 ≤ inp.now) (h2 : inp.now - t1 < 500)
    (h3 : inp.now < 2 ^ 32) :
    AwaitingSecondPress t1 (sm.update env inp).1 ∧
    (sm.idlePress inp = true → (sm.update env inp).1.shutdown_requested = true) := by
  obtain ⟨_, _, _, _, u5, u6⟩ := update_control sm env inp
  have hmod : inp.now % 2 ^ 32 = inp.now := Nat.mod_eq_of_lt h3
  rw [hmod] at u5 u6
  unfold AwaitingSecondPress at *
  rcases h with h | ⟨hc, hl⟩
  · have := update_shutdown_mono sm env inp h
    exact ⟨Or.inl this, fun _ => this⟩
  · have hsub : subU32 inp.now sm.last_button_press_time = inp.now - t1 := by
      rw [hl]
      exact subU32_of_le h1 h3
    cases hi : sm.idlePress inp with
    | true =>
      obtain ⟨_, _, p3⟩ := u5 hi
      have hs : (sm.update env inp).1.shutdown_requested = true := by
        rw [p3, hsub, hc, wrap32_two, Bool.or_eq_true]
        right
        exact decide_eq_true ⟨by simpa [DOUBLE_PRESS_TIMEOUT_MS] using h2, by decide⟩
      exact ⟨Or.inl hs, fun _ => hs⟩
    | false =>
      obtain ⟨p1, p2, _⟩ := u6 hi
      refine ⟨Or.inr ⟨?_, p1.trans hl⟩, fun hf => absurd hf (by simp)⟩
      rw [p2, hsub, hc]
      have : ¬ (inp.now - t1 > DOUBLE_PRESS_TIMEOUT_MS) := by
        simp only [DOUBLE_PRESS_TIMEOUT_MS]
        omega
      rw [if_neg this]

theorem runUpdates_awaiting (t1 t2 : Nat) : ∀ (mid : List Inputs) (sm : SessionManager)
    (env : Env), AwaitingSecondPress t1 sm → t2 - t1 < 500 → t2 < 2 ^ 32 →
    (∀ i ∈ mid, t1 ≤ i.now ∧ i.now ≤ t2) →
    AwaitingSecondPress t1 (runUpdates sm env mid).1 := by
  intro mid
  induction mid with
  | nil => intro sm env h _ _ _; exact h
  | cons inp rest ih =>
    intro sm env h hlt hw hmid
    obtain ⟨m1, m2⟩ := hmid inp (List.mem_cons_self _ _)
    have hstep := (update_awaiting t1 sm env inp h m1 (by omega) (by omega)).1
    exact ih _ _ hstep hlt hw (fun i hi => hmid i (List.mem_cons_of_mem _ hi))

theorem runUpdates_append : ∀ (l1 l2 : List Inputs) (sm : SessionManager) (env : Env),
    runUpdates sm env (l1 ++ l2) =
      runUpdates (runUpdates sm env l1).1 (runUpdates sm env l1).2 l2 := by
  intro l1
  induction l1 with
  | nil => intro l2 sm env; rfl
  | cons a l1 ih =>
    intro l2 sm env
    simp only [List.cons_append, runUpdates]
    exact ih l2 _ _

theorem runUpdates_cons (inp : Inputs) (l : List Inputs) (sm : SessionManager) (env : Env) :
    runUpdates sm env (inp :: l) = runUpdates (sm.update env inp).1 (sm.update env inp).2 l := by
  simp only [runUpdates]

theorem runUpdates_single (inp : Inputs) (sm : SessionManager) (env : Env) :
    runUpdates sm env [inp] = sm.update env inp := by
  simp only [runUpdates]

/-- The double press from a state whose press counter is sound. -/
theorem double_press_core (sm0 : SessionManager) (e0 : Env) (mid : List Inputs)
    (inp1 inp2 : Inputs) (hinv : PressInv sm0)
    (hpress1 : sm0.idlePress inp1 = true)
    (hpress2 : (runUpdates (sm0.update e0 inp1).1 (sm0.update e0 inp1).2 mid).1.idlePress inp2
      = true)
    (hle : inp1.now ≤ inp2.now) (hwin : inp2.now - inp1.now < 500) (hwrap : inp2.now < 2 ^ 32)
    (hmid : ∀ i ∈ mid, inp1.now ≤ i.now ∧ i.now ≤ inp2.now) :
    ((runUpdates (sm0.update e0 inp1).1 (sm0.update e0 inp1).2 mid).1.update
      (runUpdates (sm0.update e0 inp1).1 (sm0.update e0 inp1).2 mid).2 inp2).1.shutdown_requested
      = true := by
  obtain ⟨_, _, _, _, u5, _⟩ := update_control sm0 e0 inp1
  have hmod : inp1.now % 2 ^ 32 = inp1.now := Nat.mod_eq_of_lt (by omega)
  obtain ⟨p1, p2, p3⟩ := u5 hpress1
  rw [hmod] at p1 p2 p3
  have hfirst : AwaitingSecondPress inp1.now (sm0.update e0 inp1).1 := by
    unfold AwaitingSecondPress
    unfold PressInv at hinv
    rcases hinv with h | h | h
    · left; rw [p3, h]; rfl
    · right
      refine ⟨?_, p1⟩
      rw [p2, h, wrap32_one]
      split <;> rfl
    · by_cases hw : subU32 inp1.now sm0.last_button_press_time < DOUBLE_PRESS_TIMEOUT_MS
      · left
        rw [p3, h, wrap32_two, Bool.or_eq_true]
        right
        exact decide_eq_true ⟨hw, by decide⟩
      · right
        refine ⟨?_, p1⟩
        rw [p2, if_neg hw]
  have hmidst := runUpdates_awaiting inp1.now inp2.now mid _ (sm0.update e0 inp1).2 hfirst
    hwin hwrap hmid
  exact (update_awaiting inp1.now _ _ inp2 hmidst hle hwin hwrap).2 hpress2

/-- C4: from every reachable controller state, with a clock that does not wrap: if an
`update()` at time `t1` detects a button falling edge while not logging, and after
further calls at times between `t1` and `t2` an `update()` at time `t2` does so again,
with `t2 - t1 < 500`, then `isShutdownRequested()` is true after the call at `t2`. -/
theorem C4_double_press_requests_shutdown (toggle_gpio : Bool) (debug : Option SDFile)
    (env0 : Env) (pre mid : List Inputs) (inp1 inp2 : Inputs)
    (hpress1 : (reached toggle_gpio debug env0 pre).1.idlePress inp1 = true)
    (hpress2 : (reached toggle_gpio debug env0 (pre ++ inp1 :: mid)).1.idlePress inp2 = true)
    (hle : inp1.now ≤ inp2.now) (hwin : inp2.now - inp1.now < 500) (hwrap : inp2.now < 2 ^ 32)
    (hmid : ∀ i ∈ mid, inp1.now ≤ i.now ∧ i.now ≤ inp2.now) :
    (reached toggle_gpio debug env0 (pre ++ inp1 :: mid ++ [inp2])).1.isShutdownRequested
      = true := by
  have hinv := reached_PressInv toggle_gpio debug env0 pre
  unfold reached at *
  rw [runUpdates_append, runUpdates_cons] at hpress2
  rw [runUpdates_append (pre ++ inp1 :: mid) [inp2], runUpdates_single,
    runUpdates_append pre (inp1 :: mid), runUpdates_cons]
  exact double_press_core _ _ mid inp1 inp2 hinv hpress1 hpress2 hle hwin hwrap hmid

set_option maxRecDepth 100000 in
/-- C4 for a press at 1000 ms, a release at 1100 ms and a press at 1200 ms, with the
toggle off since construction. -/
theorem C4_double_press_requests_shutdown_witness :
    (reached true none (mountedEnv [])
      ([] ++ pressAt 1000 :: [releaseAt 1100] ++ [pressAt 1200])).1.isShutdownRequested = true :=
  C4_double_press_requests_shutdown true none (mountedEnv []) [] [releaseAt 1100]
    (pressAt 1000) (pressAt 1200) (by decide) (by decide) (by decide) (by decide) (by decide)
    (by decide)

theorem single_presses_core : ∀ (inps : List Inputs) (sm : SessionManager) (env : Env)
    (pressed : Bool), SinglePresses pressed sm →
    (∀ i ∈ inps, sm.last_button_press_time ≤ i.now ∧ i.now < 2 ^ 32) →
    (inps.map (fun i => i.now)).Pairwise (fun a b => a ≤ b) →
    (pressed = true → ∀ p ∈ idlePressTimes sm env inps, sm.last_button_press_time + 500 ≤ p) →
    (idlePressTimes sm env inps).Pairwise (fun a b => a + 500 ≤ b) →
    ∀ b ∈ shutdownAfterEach sm env inps, b = false := by
  intro inps
  induction inps with
  | nil => intro sm env pressed _ _ _ _ _ b hb; simp [shutdownAfterEach] at hb
  | cons inp rest ih =>
    intro sm env pressed hinv hbound hsorted hfirst hspaced b hb
    obtain ⟨hsd, hcnt, hzero⟩ := hinv
    obtain ⟨hlast, hlt⟩ := hbound inp (List.mem_cons_self _ _)
    obtain ⟨_, _, _, _, u5, u6⟩ := update_control sm env inp
    have hmod : inp.now % 2 ^ 32 = inp.now := Nat.mod_eq_of_lt hlt
    rw [hmod] at u5 u6
    have hsub : subU32 inp.now sm.last_button_press_time = inp.now - sm.last_button_press_time :=
      subU32_of_le hlast hlt
    simp only [List.map_cons, List.pairwise_cons, List.mem_map, forall_exists_index, and_imp,
      forall_apply_eq_imp_iff₂] at hsorted
    obtain ⟨hnext, hsorted'⟩ := hsorted
    simp only [idlePressTimes] at hfirst hspaced
    simp only [shutdownAfterEach, List.mem_cons] at hb
    cases hi : sm.idlePress inp with
    | true =>
      obtain ⟨p1, p2, p3⟩ := u5 hi
      simp only [hi, if_true, List.singleton_append, List.pairwise_cons, List.mem_cons,
        forall_eq_or_imp] at hfirst hspaced
      have hinv' : SinglePresses true (sm.update env inp).1 := by
        refine ⟨?_, Or.inr ?_, fun h => absurd h (by simp)⟩
        · rw [p3, hsd, Bool.false_or, decide_eq_false_iff_not]
          rintro ⟨hw, hge⟩
          cases hp : pressed with
          | true =>
            have := (hfirst hp).1
            rw [hsub] at hw
            simp only [DOUBLE_PRESS_TIMEOUT_MS] at hw
            omega
          | false =>
            rw [hzero hp, wrap32_one] at hge
            exact absurd hge (by decide)
        · rw [p2]
          split
          · rename_i hw
            cases hp : pressed with
            | true =>
              have := (hfirst hp).1
              rw [hsub] at hw
              simp only [DOUBLE_PRESS_TIMEOUT_MS] at hw
              omega
            | false => rw [hzero hp, wrap32_one]
          · rfl
      rcases hb with hb | hb
      · rw [hb]
        exact hinv'.1
      · refine ih _ _ true hinv' ?_ hsorted' ?_ hspaced.2 b hb
        · intro i hmem
          rw [p1]
          exact ⟨hnext i hmem, (hbound i (List.mem_cons_of_mem _ hmem)).2⟩
        · intro _ p hp
          rw [p1]
          exact hspaced.1 p hp
    | false =>
      obtain ⟨p1, p2, p3⟩ := u6 hi
      simp only [hi, Bool.false_eq_true, if_false, List.nil_append] at hfirst hspaced
      have hinv' : SinglePresses pressed (sm.update env inp).1 := by
        refine ⟨p3.trans hsd, ?_, ?_⟩
        · rw [p2]
          split
          · left; rfl
          · exact hcnt
        · intro hp
          rw [p2, hzero hp]
          split <;> rfl
      rcases hb with hb | hb
      · rw [hb]
        exact hinv'.1
      · refine ih _ _ pressed hinv' ?_ hsorted' ?_ hspaced b hb
        · intro i hmem
          rw [p1]
          exact hbound i (List.mem_cons_of_mem _ hmem)
        · intro hp p hmem
          rw [p1]
          exact hfirst hp p hmem

/-- C5: starting from the constructed controller, with a non-decreasing clock that does
not wrap: if no two button falling edges detected while not logging are less than
500 ms apart, `isShutdownRequested()` is false after every `update()`. -/
theorem C5_spaced_presses_never_shutdown (toggle_gpio : Bool) (debug : Option SDFile)
    (env0 : Env) (inps : List Inputs)
    (hclock : (inps.map (fun i => i.now)).Pairwise (fun a b => a ≤ b))
    (hwrap : ∀ i ∈ inps, i.now < 2 ^ 32)
    (hspaced : (idlePressTimes (SessionManager.new toggle_gpio debug env0).1
      (SessionManager.new toggle_gpio debug env0).2 inps).Pairwise (fun a b => a + 500 ≤ b)) :
    ∀ b ∈ shutdownAfterEach (SessionManager.new toggle_gpio debug env0).1
      (SessionManager.new toggle_gpio debug env0).2 inps, b = false := by
  obtain ⟨n1, n2, n3, _⟩ := new_control toggle_gpio debug env0
  refine single_presses_core inps _ _ false ⟨n3, Or.inl n2, fun _ => n2⟩ ?_ hclock ?_ hspaced
  · intro i hi
    rw [n1]
    exact ⟨Nat.zero_le _, hwrap i hi⟩
  · intro h
    exact absurd h (by simp)

set_option maxRecDepth 100000 in
/-- C5 for a press at 100 ms, a release at 400 ms and a second press 600 ms after the
first, with the toggle off: shutdown is not requested after any of the calls. -/
theorem C5_spaced_presses_never_shutdown_witness :
    shutdownAfterEach (SessionManager.new true none (mountedEnv [])).1
      (SessionManager.new true none (mountedEnv [])).2
      [pressAt 100, releaseAt 400, pressAt 700] = List.replicate 3 false :=
  List.eq_replicate_iff.mpr ⟨by decide!,
    C5_spaced_presses_never_shutdown true none (mountedEnv [])
      [pressAt 100, releaseAt 400, pressAt 700] (by decide!) (by decide!) (by decide!)⟩

/-! ### File I/O leaves the directories alone -/

theorem fileRW_refl (fs : FatFs) : fs.fileRW fs := by
  refine ⟨rfl, rfl, rfl, rfl, rfl, rfl, rfl, ⟨0, by simp⟩, ⟨0, by simp⟩, ⟨0, by simp⟩,
    ⟨[], by simp, by simp⟩⟩

theorem fileRW_trans {a b c : FatFs} (h1 : a.fileRW b) (h2 : b.fileRW c) : a.fileRW c := by
  obtain ⟨a1, a2, a3, a4, a5, a6, a7, ⟨k1, a8⟩, ⟨k2, a9⟩, ⟨k3, a10⟩, ⟨e1, a11, a12⟩⟩ := h1
  obtain ⟨b1, b2, b3, b4, b5, b6, b7, ⟨j1, b8⟩, ⟨j2, b9⟩, ⟨j3, b10⟩, ⟨e2, b11, b12⟩⟩ := h2
  refine ⟨b1.trans a1, b2.trans a2, b3.trans a3, b4.trans a4, b5.trans a5, b6.trans a6,
    b7.trans a7, ⟨k1 + j1, ?_⟩, ⟨k2 + j2, ?_⟩, ⟨k3 + j3, ?_⟩, ⟨e1 ++ e2, ?_, ?_⟩⟩
  · rw [b8, a8, List.drop_drop, Nat.add_comm]
  · rw [b9, a9, List.drop_drop, Nat.add_comm]
  · rw [b10, a10, List.drop_drop, Nat.add_comm]
  · rw [b11, a11, List.append_assoc]
  · intro e he
    rcases List.mem_append.mp he with he | he
    · exact a12 e he
    · exact b12 e he

theorem fileRW_log {fs fs1 : FatFs} (h : fs.fileRW fs1) :
    ∃ evs, fs1.log = fs.log ++ evs ∧ ∀ e ∈ evs, e.isCreate = false := by
  obtain ⟨_, _, _, _, _, _, _, _, _, _, hl⟩ := h
  exact hl

theorem envFileRW_refl (env : Env) : env.fileRW env := ⟨rfl, rfl, fileRW_refl _⟩

theorem envFileRW_trans {a b c : Env} (h1 : a.fileRW b) (h2 : b.fileRW c) : a.fileRW c :=
  ⟨h2.1.trans h1.1, h2.2.1.trans h1.2.1, fileRW_trans h1.2.2 h2.2.2⟩

theorem tail_eq_drop_one {α : Type} (l : List α) : l.tail = l.drop 1 := by
  cases l <;> rfl

theorem flushBuffer_fileRW (f : SDFile) (fs : FatFs) : fs.fileRW (f.flushBuffer fs).2.2 := by
  unfold SDFile.flushBuffer
  by_cases h0 : f.buffer_pos = 0
  · simp only [h0, if_true]
    exact fileRW_refl fs
  · simp only [h0, if_false, f_write]
    split <;>
    · refine ⟨rfl, rfl, rfl, rfl, rfl, rfl, rfl, ⟨1, tail_eq_drop_one _⟩, ⟨0, by simp⟩,
        ⟨0, by simp⟩, ⟨_, rfl, ?_⟩⟩
      intro e he
      rw [List.mem_singleton] at he
      rw [he]
      rfl

theorem writeLoop_fileRW (fuel : Nat) : ∀ (f : SDFile) (fs : FatFs) (src : Bytes) (r : Bool)
    (f1 : SDFile) (fs1 : FatFs), SDFile.writeLoop fuel f fs src = some (r, f1, fs1) →
    fs.fileRW fs1 ∧ f1.is_open = f.is_open := by
  induction fuel with
  | zero =>
    intro f fs src r f1 fs1 h
    unfold SDFile.writeLoop at h
    split at h
    · simp only [Option.some.injEq, Prod.mk.injEq] at h
      obtain ⟨_, rfl, rfl⟩ := h
      exact ⟨fileRW_refl _, rfl⟩
    · simp at h
  | succ fuel ih =>
    intro f fs src r f1 fs1 h
    unfold SDFile.writeLoop at h
    split at h
    · simp only [Option.some.injEq, Prod.mk.injEq] at h
      obtain ⟨_, rfl, rfl⟩ := h
      exact ⟨fileRW_refl _, rfl⟩
    · dsimp only at h
      generalize (if src.length < subU32 BUFFER_SIZE f.buffer_pos then src.length
        else subU32 BUFFER_SIZE f.buffer_pos) = n at h
      obtain ⟨F, hF⟩ : ∃ F : SDFile, F =
          { f with buffer := memcpy f.buffer f.buffer_pos src n,
                   buffer_pos := f.buffer_pos + n } := ⟨_, rfl⟩
      have hFo : F.is_open = f.is_open := by rw [hF]
      have hFp : F.buffer_pos = f.buffer_pos + n := by rw [hF]
      rw [← hF, ← hFp] at h
      have hfl := flushBuffer_fileRW F fs
      have hop := (flushBuffer_frame F fs).2.1
      split at h
      · split at h
        · simp only [Option.some.injEq, Prod.mk.injEq] at h
          obtain ⟨_, rfl, rfl⟩ := h
          exact ⟨hfl, hop.trans hFo⟩
        · obtain ⟨k1, k2⟩ := ih _ _ _ _ _ _ h
          exact ⟨fileRW_trans hfl k1, k2.trans (hop.trans hFo)⟩
      · obtain ⟨k1, k2⟩ := ih _ _ _ _ _ _ h
        exact ⟨k1, k2.trans hFo⟩

theorem write_fileRW (f : SDFile) (env : Env) (formatted : Option Bytes) :
    env.fileRW (f.write env formatted).2.2 ∧ (f.write env formatted).2.2.sd = env.sd ∧
    (f.write env formatted).2.1.is_open = f.is_open := by
  unfold SDFile.write
  split
  · exact ⟨envFileRW_refl env, rfl, rfl⟩
  · split
    · exact ⟨envFileRW_refl env, rfl, rfl⟩
    · dsimp only
      split
      · rename_i hrun
        obtain ⟨k1, k2⟩ := writeLoop_fileRW _ _ _ _ _ _ _ hrun
        exact ⟨⟨rfl, rfl, k1⟩, rfl, k2⟩
      · exact ⟨envFileRW_refl env, rfl, rfl⟩

theorem f_sync_fileRW (fs : FatFs) (fil : FIL) : fs.fileRW (f_sync fs fil).2.2 := by
  unfold f_sync
  split <;>
  · refine ⟨rfl, rfl, rfl, rfl, rfl, rfl, rfl, ⟨0, by simp⟩, ⟨1, tail_eq_drop_one _⟩,
      ⟨0, by simp⟩, ⟨_, rfl, ?_⟩⟩
    intro e he
    rw [List.mem_singleton] at he
    rw [he]
    rfl

theorem f_close_fileRW (fs : FatFs) (fil : FIL) : fs.fileRW (f_close fs fil).2 := by
  unfold f_close
  split <;>
  · refine ⟨rfl, rfl, rfl, rfl, rfl, rfl, rfl, ⟨0, by simp⟩, ⟨0, by simp⟩,
      ⟨1, tail_eq_drop_one _⟩, ⟨_, rfl, ?_⟩⟩
    intro e he
    rw [List.mem_singleton] at he
    rw [he]
    rfl

theorem sync_fileRW (f : SDFile) (env : Env) :
    env.fileRW (f.sync env).2.2 ∧ (f.sync env).2.2.sd = env.sd ∧
    (f.sync env).2.1.is_open = f.is_open := by
  have hfl := flushBuffer_fileRW f env.fs
  have hop := (flushBuffer_frame f env.fs).2.1
  rcases hres : f.flushBuffer env.fs with ⟨r0, f1, fs1⟩
  rw [hres] at hfl hop
  simp only at hfl hop
  have key : f.sync env =
      if f.is_open then
        (if r0 then
          (decide ((f_sync fs1 f1.fil).1 = FRESULT.FR_OK),
            { f1 with fil := (f_sync fs1 f1.fil).2.1 }, { env with fs := (f_sync fs1 f1.fil).2.2 })
        else (false, f1, { env with fs := fs1 }))
      else (false, f, env) := by
    unfold SDFile.sync
    rw [hres]
    cases f.is_open <;> cases r0 <;> rfl
  rw [key]
  cases hfo : f.is_open with
  | false => exact ⟨envFileRW_refl env, rfl, hfo⟩
  | true =>
    rw [hfo] at hop
    cases r0 with
    | false => exact ⟨⟨rfl, rfl, hfl⟩, rfl, hop⟩
    | true => exact ⟨⟨rfl, rfl, fileRW_trans hfl (f_sync_fileRW fs1 f1.fil)⟩, rfl, hop⟩

theorem close_fileRW (f : SDFile) (env : Env) : env.fileRW (f.close env).2.2 := by
  have hfl := flushBuffer_fileRW f env.fs
  unfold SDFile.close
  by_cases ho : f.is_open = true
  · simp only [ho, Bool.not_true, Bool.false_eq_true, if_false]
    rcases hres : f.flushBuffer env.fs with ⟨r0, f1, fs1⟩
    rw [hres] at hfl
    simp only at hfl
    cases r0 with
    | false => exact ⟨rfl, rfl, hfl⟩
    | true =>
      simp only [Bool.not_true, Bool.false_eq_true, if_false]
      refine ⟨?_, ?_, fileRW_trans hfl (f_close_fileRW fs1 f1.fil)⟩
      · unfold SDCard.unregisterFile
        split <;> rfl
      · unfold SDCard.unregisterFile
        split <;> rfl
  · have : f.is_open = false := by simpa using ho
    simp only [this, Bool.not_false, if_true]
    exact envFileRW_refl env

theorem debugWrite_fileRW (dbg : Option SDFile) (env : Env) (text : Bytes) :
    env.fileRW (debugWrite dbg env text).2 ∧ (debugWrite dbg env text).2.sd = env.sd := by
  unfold debugWrite
  cases dbg with
  | none => exact ⟨envFileRW_refl env, rfl⟩
  | some d =>
    obtain ⟨h1, h2, _⟩ := write_fileRW d env (some text)
    exact ⟨h1, h2⟩

theorem closeAllFiles_fileRW : ∀ (files : List SDFile) (env : Env),
    env.fileRW (closeAllFiles files env).2 ∧
    (closeAllFiles files env).1.length = files.length := by
  intro files
  induction files with
  | nil => intro env; exact ⟨envFileRW_refl env, rfl⟩
  | cons f rest ih =>
    intro env
    unfold closeAllFiles
    split
    · have h1 := (sync_fileRW f env).1
      have h2 := close_fileRW (f.sync env).2.1 (f.sync env).2.2
      obtain ⟨h3, h4⟩ := ih ((f.sync env).2.1.close (f.sync env).2.2).2.2
      exact ⟨envFileRW_trans h1 (envFileRW_trans h2 h3), by simp [h4]⟩
    · obtain ⟨h3, h4⟩ := ih env
      exact ⟨h3, by simp [h4]⟩

theorem syncAllFiles_fileRW : ∀ (files : List SDFile) (env : Env),
    env.fileRW (syncAllFiles files env).2 ∧ (syncAllFiles files env).2.sd = env.sd ∧
    (syncAllFiles files env).1.length = files.length := by
  intro files
  induction files with
  | nil => intro env; exact ⟨envFileRW_refl env, rfl, rfl⟩
  | cons f rest ih =>
    intro env
    unfold syncAllFiles
    split
    · obtain ⟨h1, h2, _⟩ := sync_fileRW f env
      obtain ⟨h3, h4, h5⟩ := ih (f.sync env).2.2
      exact ⟨envFileRW_trans h1 h3, h4.trans h2, by simp [h5]⟩
    · obtain ⟨h3, h4, h5⟩ := ih env
      exact ⟨h3, h4, by simp [h5]⟩

/-! ### Opening files -/

theorem fileOps_refl (fs : FatFs) : fs.fileOps fs :=
  ⟨rfl, rfl, rfl, rfl, rfl, rfl, ⟨0, by simp⟩, ⟨[], by simp, by simp⟩⟩

theorem fileOps_trans {a b c : FatFs} (h1 : a.fileOps b) (h2 : b.fileOps c) : a.fileOps c := by
  obtain ⟨a1, a2, a3, a4, a5, a6, ⟨k1, a7⟩, ⟨e1, a8, a9⟩⟩ := h1
  obtain ⟨b1, b2, b3, b4, b5, b6, ⟨j1, b7⟩, ⟨e2, b8, b9⟩⟩ := h2
  refine ⟨b1.trans a1, b2.trans a2, b3.trans a3, b4.trans a4, b5.trans a5, b6.trans a6,
    ⟨k1 + j1, ?_⟩, ⟨e1 ++ e2, ?_, ?_⟩⟩
  · rw [b7, a7, List.drop_drop, Nat.add_comm]
  · rw [b8, a8, List.append_assoc]
  · intro e he
    rcases List.mem_append.mp he with he | he
    · exact a9 e he
    · exact b9 e he

theorem fileOps_of_fileRW {fs fs1 : FatFs} (h : fs.fileRW fs1) : fs.fileOps fs1 := by
  obtain ⟨a1, a2, a3, a4, a5, _, a7, a8, _, _, ⟨evs, a11, a12⟩⟩ := h
  refine ⟨a1, a2, a3, a4, a5, a7, a8, ⟨evs, a11, ?_⟩⟩
  intro e he
  have := a12 e he
  cases e <;> simp_all [Event.isCreate, Event.isMkdir]

theorem f_open_fileOps (fs : FatFs) (fil : FIL) (path : Bytes) (mode : Nat) :
    fs.fileOps (f_open fs fil path mode).2.2 := by
  unfold f_open
  split <;>
  · refine ⟨rfl, rfl, rfl, rfl, rfl, rfl, ⟨0, by simp⟩, ⟨_, rfl, ?_⟩⟩
    intro e he
    rw [List.mem_singleton] at he
    rw [he]
    rfl

/-- `open` written out on the result of the implicit `close`. -/
theorem open_eq (f : SDFile) (env : Env) (path : Bytes) (append : Bool) (c : Bool)
    (f1 : SDFile) (env1 : Env)
    (hc : (if f.is_open then f.close env else (true, f, env)) = (c, f1, env1)) :
    f.open env path append =
      if env1.sd.mounted = false then (false, f1, env1)
      else if env1.sd.open_files ≥ MAX_FILES then (false, f1, env1)
      else
        (decide ((f_open env1.fs f1.fil path
            (if append then FA_WRITE ||| FA_OPEN_APPEND else FA_WRITE ||| FA_CREATE_ALWAYS)).1
            = FRESULT.FR_OK),
          { f1 with
            fil := (f_open env1.fs f1.fil path
              (if append then FA_WRITE ||| FA_OPEN_APPEND else FA_WRITE ||| FA_CREATE_ALWAYS)).2.1,
            is_open := decide ((f_open env1.fs f1.fil path
              (if append then FA_WRITE ||| FA_OPEN_APPEND else FA_WRITE ||| FA_CREATE_ALWAYS)).1
              = FRESULT.FR_OK),
            buffer_pos := 0 },
          { sd := { env1.sd with open_files :=
                      if (f_open env1.fs f1.fil path
                        (if append then FA_WRITE ||| FA_OPEN_APPEND
                         else FA_WRITE ||| FA_CREATE_ALWAYS)).1 = FRESULT.FR_OK
                      then env1.sd.open_files + 1 else env1.sd.open_files },
            fs := (f_open env1.fs f1.fil path
              (if append then FA_WRITE ||| FA_OPEN_APPEND else FA_WRITE ||| FA_CREATE_ALWAYS)).2.2 })
      := by
  unfold SDFile.open
  rw [hc]
  simp only [SDCard.isMounted]
  cases hm : env1.sd.mounted with
  | false => simp
  | true =>
    simp only [Bool.not_true, Bool.false_eq_true, if_false]
    unfold SDCard.registerFile
    by_cases hfull : env1.sd.open_files ≥ MAX_FILES
    · simp [hfull]
    · have hlt : env1.sd.open_files < 8 := by
        simp only [MAX_FILES] at hfull
        omega
      have hmod : (env1.sd.open_files + 1) % 256 = env1.sd.open_files + 1 := by omega
      simp only [hfull, if_false, Bool.not_true, Bool.false_eq_true, hmod]
      by_cases hop : (f_open env1.fs f1.fil path
          (if append then FA_WRITE ||| FA_OPEN_APPEND else FA_WRITE ||| FA_CREATE_ALWAYS)).1
          = FRESULT.FR_OK
      · simp [hop, hm]
      · simp [hop, hm, SDCard.unregisterFile]

theorem f_open_ok (fs : FatFs) (fil : FIL) (path : Bytes) (mode : Nat)
    (h : (f_open fs fil path mode).1 = FRESULT.FR_OK) :
    (f_open fs fil path mode).2.1 = { path := path, mode := mode, data := [], synced := 0 } := by
  unfold f_open at h ⊢
  split at h
  · simp at h
  · rename_i hc
    simp [hc]

/-- `open` in general: it works on files only, and after a true return the file is open
on a fresh handle with the cursor at 0. -/
theorem open_general (f : SDFile) (env : Env) (path : Bytes) (append : Bool) :
    env.fs.fileOps (f.open env path append).2.2.fs ∧
    (f.open env path append).2.2.sd.mounted = env.sd.mounted ∧
    ((f.open env path append).1 = true →
      (f.open env path append).2.1.is_open = true ∧
      (f.open env path append).2.1.fil =
        { path := path,
          mode := if append then FA_WRITE ||| FA_OPEN_APPEND else FA_WRITE ||| FA_CREATE_ALWAYS,
          data := [], synced := 0 } ∧
      (f.open env path append).2.1.buffer_pos = 0) := by
  rcases hc : (if f.is_open then f.close env else (true, f, env)) with ⟨c, f1, env1⟩
  have hio : env.fileRW env1 := by
    by_cases ho : f.is_open = true
    · rw [if_pos ho] at hc
      have := close_fileRW f env
      rw [hc] at this
      exact this
    · rw [if_neg ho] at hc
      simp only [Prod.mk.injEq] at hc
      rw [← hc.2.2]
      exact envFileRW_refl env
  have hops := f_open_fileOps env1.fs f1.fil path
    (if append then FA_WRITE ||| FA_OPEN_APPEND else FA_WRITE ||| FA_CREATE_ALWAYS)
  have hfo := f_open_ok env1.fs f1.fil path
    (if append then FA_WRITE ||| FA_OPEN_APPEND else FA_WRITE ||| FA_CREATE_ALWAYS)
  rw [open_eq f env path append c f1 env1 hc]
  split
  · exact ⟨fileOps_of_fileRW hio.2.2, hio.1, fun h => absurd h (by simp)⟩
  · split
    · exact ⟨fileOps_of_fileRW hio.2.2, hio.1, fun h => absurd h (by simp)⟩
    · refine ⟨fileOps_trans (fileOps_of_fileRW hio.2.2) hops, hio.1, ?_⟩
      intro h
      have hok := of_decide_eq_true h
      exact ⟨h, hfo hok, rfl⟩

/-- `open` on a file that is not open: the open flag is the result and the open-file
count grows by one exactly on success. -/
theorem open_closed (f : SDFile) (env : Env) (path : Bytes) (append : Bool)
    (hclosed : f.is_open = false) :
    (f.open env path append).2.1.is_open = (f.open env path append).1 ∧
    (f.open env path append).2.2.sd.open_files =
      env.sd.open_files + (if (f.open env path append).1 = true then 1 else 0) := by
  have hc : (if f.is_open then f.close env else (true, f, env)) = (true, f, env) := by
    simp [hclosed]
  rw [open_eq f env path append true f env hc]
  split
  · exact ⟨hclosed, by simp⟩
  · split
    · exact ⟨hclosed, by simp⟩
    · refine ⟨rfl, ?_⟩
      by_cases hop : (f_open env.fs f.fil path
          (if append then FA_WRITE ||| FA_OPEN_APPEND else FA_WRITE ||| FA_CREATE_ALWAYS)).1
          = FRESULT.FR_OK
      · simp [hop]
      · simp [hop]

theorem writeLoop_nil (fuel : Nat) (f : SDFile) (fs : FatFs) :
    SDFile.writeLoop fuel f fs [] = some (true, f, fs) := by
  cases fuel <;> simp [SDFile.writeLoop]

/-- A text shorter than the scratch array, written to an open file whose buffer is
empty, ends up whole in the buffer without any call to the medium. -/
theorem write_small (f : SDFile) (env : Env) (text : Bytes) (ho : f.is_open = true)
    (hp : f.buffer_pos = 0) (hlen : text.length < TEMP_SIZE) :
    (f.write env (some text)).1 = true ∧
    (f.write env (some text)).2.2 = env ∧
    (f.write env (some text)).2.1.pending = text ∧
    (f.write env (some text)).2.1.fil = f.fil ∧
    (f.write env (some text)).2.1.is_open = true := by
  unfold SDFile.write
  have hge : ¬ text.length ≥ TEMP_SIZE := by omega
  simp only [ho, Bool.not_true, Bool.false_eq_true, if_false, hge, List.take_length]
  by_cases h0 : text.length = 0
  · have : text = [] := List.length_eq_zero.mp h0
    subst this
    rw [writeLoop_nil]
    simp [SDFile.pending, hp, ho]
  · have hspace : subU32 BUFFER_SIZE 0 = 512 := by decide
    have hlt : text.length < 512 := by
      simp only [TEMP_SIZE] at hlen
      omega
    have hnf : ¬ (0 + text.length ≥ BUFFER_SIZE) := by
      simp only [BUFFER_SIZE]
      omega
    have hfuel : 2 * text.length + 1 = (2 * text.length) + 1 := rfl
    rw [hfuel, SDFile.writeLoop]
    simp only [h0, if_false, hspace, hlt, if_true, hp, hnf, List.drop_length, writeLoop_nil]
    refine ⟨trivial, trivial, ?_, trivial, ho⟩
    simp only [SDFile.pending, memcpy, List.take_zero, List.nil_append, List.take_length,
      Nat.zero_add]
    rw [List.take_left]

/-- The file written by the header step of the file loop. -/
theorem openFiles_cons (folder : Int) (cfg : FileConfig) (cfgs : List FileConfig) (f : SDFile)
    (rest : List SDFile) (dbg : Option SDFile) (env : Env) (ok : Bool) :
    openFiles folder (cfg :: cfgs) (f :: rest) dbg env ok =
      if cfg.enabled = false then
        { openFiles folder cfgs rest dbg env ok with
          files := f :: (openFiles folder cfgs rest dbg env ok).files }
      else if (f.open env (sessionFilePath folder cfg.filename) false).1 = false then
        { openFiles folder cfgs rest
            (debugWrite dbg (f.open env (sessionFilePath folder cfg.filename) false).2.2
              (msgCreateFailed cfg.filename folder)).1
            (debugWrite dbg (f.open env (sessionFilePath folder cfg.filename) false).2.2
              (msgCreateFailed cfg.filename folder)).2 false with
          files := (f.open env (sessionFilePath folder cfg.filename) false).2.1 ::
            (openFiles folder cfgs rest
              (debugWrite dbg (f.open env (sessionFilePath folder cfg.filename) false).2.2
                (msgCreateFailed cfg.filename folder)).1
              (debugWrite dbg (f.open env (sessionFilePath folder cfg.filename) false).2.2
                (msgCreateFailed cfg.filename folder)).2 false).files }
      else
        { openFiles folder cfgs rest dbg
            (if cfg.header.length > 0 then
              (f.open env (sessionFilePath folder cfg.filename) false).2.1.write
                (f.open env (sessionFilePath folder cfg.filename) false).2.2 (some cfg.header)
             else (true, (f.open env (sessionFilePath folder cfg.filename) false).2.1,
               (f.open env (sessionFilePath folder cfg.filename) false).2.2)).2.2 ok with
          files :=
            (if cfg.header.length > 0 then
              (f.open env (sessionFilePath folder cfg.filename) false).2.1.write
                (f.open env (sessionFilePath folder cfg.filename) false).2.2 (some cfg.header)
             else (true, (f.open env (sessionFilePath folder cfg.filename) false).2.1,
               (f.open env (sessionFilePath folder cfg.filename) false).2.2)).2.1 ::
            (openFiles folder cfgs rest dbg
              (if cfg.header.length > 0 then
                (f.open env (sessionFilePath folder cfg.filename) false).2.1.write
                  (f.open env (sessionFilePath folder cfg.filename) false).2.2 (some cfg.header)
               else (true, (f.open env (sessionFilePath folder cfg.filename) false).2.1,
                 (f.open env (sessionFilePath folder cfg.filename) false).2.2)).2.2 ok).files } := by
  rw [openFiles]
  generalize f.open env (sessionFilePath folder cfg.filename) false = res
  obtain ⟨opened, f1, env1⟩ := res
  cases cfg.enabled <;> cases opened <;> rfl

theorem openFiles_false (folder : Int) : ∀ (cfgs : List FileConfig) (files : List SDFile)
    (dbg : Option SDFile) (env : Env),
    (openFiles folder cfgs files dbg env false).all_success = false := by
  intro cfgs
  induction cfgs with
  | nil => intro files dbg env; simp [openFiles]
  | cons cfg cfgs ih =>
    intro files dbg env
    cases files with
    | nil => simp [openFiles]
    | cons f rest =>
      rw [openFiles_cons]
      split
      · exact ih _ _ _
      · split
        · exact ih _ _ _
        · exact ih _ _ _

/-- When the file loop of `createNewSession` ends with `all_success`, every stream file
has just been opened at its path and holds its header. -/
theorem openFiles_success (folder : Int) : ∀ (cfgs : List FileConfig) (files : List SDFile)
    (dbg : Option SDFile) (env : Env), files.length = cfgs.length →
    (∀ cfg ∈ cfgs, cfg.enabled = true ∧ cfg.header.length < TEMP_SIZE) →
    (openFiles folder cfgs files dbg env true).all_success = true →
    List.Forall₂ (FreshlyOpened folder) cfgs (openFiles folder cfgs files dbg env true).files := by
  intro cfgs
  induction cfgs with
  | nil =>
    intro files dbg env hlen _ _
    have : files = [] := List.length_eq_zero.mp hlen
    subst this
    simp [openFiles]
  | cons cfg cfgs ih =>
    intro files dbg env hlen hcfg hall
    cases files with
    | nil => simp at hlen
    | cons f rest =>
      have hlen' : rest.length = cfgs.length := by simpa using hlen
      obtain ⟨hen, hhl⟩ := hcfg cfg (List.mem_cons_self _ _)
      have hcfg' : ∀ c ∈ cfgs, c.enabled = true ∧ c.header.length < TEMP_SIZE :=
        fun c hc => hcfg c (List.mem_cons_of_mem _ hc)
      obtain ⟨_, _, o3⟩ := open_general f env (sessionFilePath folder cfg.filename) false
      rw [openFiles_cons] at hall ⊢
      rw [if_neg (by simp [hen])] at hall ⊢
      rcases hop : f.open env (sessionFilePath folder cfg.filename) false with ⟨opened, f1, env1⟩
      rw [hop] at hall o3
      cases opened with
      | false =>
        rw [if_pos rfl] at hall
        have := openFiles_false folder cfgs rest
          (debugWrite dbg env1 (msgCreateFailed cfg.filename folder)).1
          (debugWrite dbg env1 (msgCreateFailed cfg.filename folder)).2
        rw [this] at hall
        exact absurd hall (by simp)
      | true =>
        rw [if_neg (by simp)] at hall ⊢
        obtain ⟨q1, q2, q3⟩ := o3 rfl
        simp only at q1 q2 q3 hall ⊢
        have hw : (if cfg.header.length > 0 then f1.write env1 (some cfg.header)
            else (true, f1, env1)).2.1.pending = cfg.header ∧
            (if cfg.header.length > 0 then f1.write env1 (some cfg.header)
            else (true, f1, env1)).2.1.fil = f1.fil ∧
            (if cfg.header.length > 0 then f1.write env1 (some cfg.header)
            else (true, f1, env1)).2.1.is_open = true := by
          split
          · obtain ⟨_, _, w3, w4, w5⟩ := write_small f1 env1 cfg.header q1 q3 hhl
            exact ⟨w3, w4, w5⟩
          · rename_i h0
            have : cfg.header = [] := List.length_eq_zero.mp (by omega)
            simp [SDFile.pending, q3, this, q1]
        obtain ⟨w3, w4, w5⟩ := hw
        refine List.Forall₂.cons ⟨w5, ?_, ?_, ?_, w3⟩ (ih _ _ _ hlen' hcfg' hall)
        · rw [w4, q2]
        · rw [w4, q2]; rfl
        · rw [w4, q2]

/-! ### Closing files -/

theorem writesSucceed_of_fileRW {fs fs1 : FatFs} (h : writesSucceed fs) (hio : fs.fileRW fs1) :
    writesSucceed fs1 := by
  obtain ⟨k, hk⟩ := hio.2.2.2.2.2.2.2.1
  intro o ho
  rw [hk] at ho
  exact h o (List.mem_of_mem_drop ho)

theorem writesSucceed_of_fileOps {fs fs1 : FatFs} (h : writesSucceed fs) (hio : fs.fileOps fs1) :
    writesSucceed fs1 := by
  obtain ⟨k, hk⟩ := hio.2.2.2.2.2.2.1
  intro o ho
  rw [hk] at ho
  exact h o (List.mem_of_mem_drop ho)

theorem unregisterFile_count (sd : SDCard) :
    sd.unregisterFile.open_files = sd.open_files - 1 := by
  unfold SDCard.unregisterFile
  split
  · rfl
  · omega

/-- `sync` then `close` on an open file when the writes succeed: the pending bytes reach
the handle, the file is closed and unregistered. -/
theorem sync_close_ok (f : SDFile) (env : Env) (ho : f.is_open = true)
    (hw : writesSucceed env.fs) :
    ((f.sync env).2.1.close (f.sync env).2.2).2.1.is_open = false ∧
    ((f.sync env).2.1.close (f.sync env).2.2).2.1.fil.data = f.fil.data ++ f.pending ∧
    ((f.sync env).2.1.close (f.sync env).2.2).2.1.fil.path = f.fil.path ∧
    ((f.sync env).2.1.close (f.sync env).2.2).2.1.buffer_pos = 0 ∧
    ((f.sync env).2.1.close (f.sync env).2.2).2.2.sd.open_files = env.sd.open_files - 1 := by
  obtain ⟨f1, fs1, hfl, _⟩ := flushBuffer_of_writesSucceed f env.fs hw
  obtain ⟨d1, d2, _, d4, d5, _⟩ := flushBuffer_true _ _ _ _ hfl
  have hsync : f.sync env = (decide ((f_sync fs1 f1.fil).1 = FRESULT.FR_OK),
      { f1 with fil := (f_sync fs1 f1.fil).2.1 }, { env with fs := (f_sync fs1 f1.fil).2.2 }) := by
    unfold SDFile.sync
    rw [hfl]
    simp [ho]
  have hfil : (f_sync fs1 f1.fil).2.1.data = f1.fil.data ∧
      (f_sync fs1 f1.fil).2.1.path = f1.fil.path := by
    unfold f_sync
    split <;> exact ⟨rfl, rfl⟩
  rw [hsync]
  unfold SDFile.close
  simp only [d4, ho, Bool.not_true, Bool.false_eq_true, if_false]
  rw [flushBuffer_zero _ _ (by exact d2)]
  simp only [Bool.not_true, Bool.false_eq_true, if_false]
  exact ⟨trivial, by rw [hfil.1, d1], by rw [hfil.2, d5], d2, unregisterFile_count _⟩

theorem openCount_cons (f : SDFile) (rest : List SDFile) :
    openCount (f :: rest) = (if f.is_open = true then 1 else 0) + openCount rest := by
  unfold openCount
  by_cases h : f.is_open = true
  · simp [h, Nat.add_comm]
  · simp [h]

/-- `closeAllFiles` when the writes succeed: every file ends closed as `ClosedFrom` says
and the open-file count drops by the number of files that were open. -/
theorem closeAllFiles_closed : ∀ (files : List SDFile) (env : Env), writesSucceed env.fs →
    List.Forall₂ ClosedFrom files (closeAllFiles files env).1 ∧
    (closeAllFiles files env).2.sd.open_files = env.sd.open_files - openCount files := by
  intro files
  induction files with
  | nil =>
    intro env _
    exact ⟨List.Forall₂.nil, by simp [closeAllFiles, openCount]⟩
  | cons f rest ih =>
    intro env hw
    rw [openCount_cons]
    unfold closeAllFiles
    by_cases ho : f.is_open = true
    · simp only [SDFile.isOpen, ho, if_true]
      obtain ⟨c1, c2, c3, c4, c5⟩ := sync_close_ok f env ho hw
      have hio : env.fileRW ((f.sync env).2.1.close (f.sync env).2.2).2.2 :=
        envFileRW_trans (sync_fileRW f env).1 (close_fileRW _ _)
      obtain ⟨i1, i2⟩ := ih _ (writesSucceed_of_fileRW hw hio.2.2)
      refine ⟨List.Forall₂.cons ⟨c1, fun _ => ⟨c2, c3, c4⟩, fun h => ?_⟩ i1, ?_⟩
      · rw [ho] at h
        exact absurd h (by simp)
      · rw [i2, c5]
        omega
    · have ho' : f.is_open = false := by simpa using ho
      simp only [SDFile.isOpen, ho', Bool.false_eq_true, if_false]
      obtain ⟨i1, i2⟩ := ih env hw
      refine ⟨List.Forall₂.cons ⟨ho', fun h => ?_, fun _ => rfl⟩ i1, ?_⟩
      · rw [ho'] at h
        exact absurd h (by simp)
      · rw [i2]
        omega

theorem forall₂_closed {files files1 : List SDFile} (h : List.Forall₂ ClosedFrom files files1) :
    ∀ f ∈ files1, f.is_open = false := by
  induction h with
  | nil => intro f hf; simp at hf
  | cons hab _ ih =>
    intro f hf
    rcases List.mem_cons.mp hf with hf | hf
    · rw [hf]; exact hab.1
    · exact ih f hf

theorem openCount_of_closed {files : List SDFile} (h : ∀ f ∈ files, f.is_open = false) :
    openCount files = 0 := by
  unfold openCount
  rw [List.length_eq_zero, List.filter_eq_nil_iff]
  intro f hf
  rw [h f hf]
  simp

/-! ### Directory operations and the file loop: what they leave alone -/

theorem f_opendir_frame (fs : FatFs) (path : Bytes) :
    (f_opendir fs path).2.2.root = fs.root ∧ (f_opendir fs path).2.2.subdirs = fs.subdirs ∧
    (f_opendir fs path).2.2.wrOut = fs.wrOut ∧ (f_opendir fs path).2.2.mkFail = fs.mkFail ∧
    (f_opendir fs path).2.2.rdFail = fs.rdFail ∧
    ∃ ok, (f_opendir fs path).2.2.log = fs.log ++ [Event.opendir path ok] := by
  unfold f_opendir
  dsimp only
  split
  · exact ⟨rfl, rfl, rfl, rfl, rfl, true, rfl⟩
  · exact ⟨rfl, rfl, rfl, rfl, rfl, true, rfl⟩
  · exact ⟨rfl, rfl, rfl, rfl, rfl, false, rfl⟩

theorem findHighest_frame (env : Env) (pfx : Bytes) :
    (SDCard.findHighestNumberedFolder env pfx).2.sd = env.sd ∧
    (SDCard.findHighestNumberedFolder env pfx).2.fs.root = env.fs.root ∧
    (SDCard.findHighestNumberedFolder env pfx).2.fs.wrOut = env.fs.wrOut ∧
    (SDCard.findHighestNumberedFolder env pfx).2.fs.mkFail = env.fs.mkFail ∧
    ∃ evs, (SDCard.findHighestNumberedFolder env pfx).2.fs.log = env.fs.log ++ evs ∧
      ∀ e ∈ evs, e.isMkdir = false := by
  obtain ⟨o1, _, o3, o4, _, ok, o6⟩ := f_opendir_frame env.fs pfx
  unfold SDCard.findHighestNumberedFolder
  split
  · exact ⟨rfl, rfl, rfl, rfl, [], by simp, by simp⟩
  · split
    rename_i hod
    rw [hod] at o1 o3 o4 o6
    simp only at o1 o3 o4 o6
    have hev : ∀ e ∈ [Event.opendir pfx ok], e.isMkdir = false := by
      intro e he
      rw [List.mem_singleton] at he
      rw [he]
      rfl
    split
    · exact ⟨rfl, o1, o3, o4, _, o6, hev⟩
    · split
      exact ⟨rfl, o1, o3, o4, _, o6, hev⟩

theorem createFolder_frame (env : Env) (path : Bytes) :
    (SDCard.createFolder env path).2.sd = env.sd ∧
    (SDCard.createFolder env path).2.fs.wrOut = env.fs.wrOut ∧
    (env.sd.mounted = true →
      ∃ res, (SDCard.createFolder env path).2.fs.log = env.fs.log ++ [Event.mkdir path res]) ∧
    ((SDCard.createFolder env path).1 = true →
      ∃ e ∈ (SDCard.createFolder env path).2.fs.root, e.fname = path) := by
  unfold SDCard.createFolder
  cases hm : env.sd.mounted with
  | false => simp
  | true =>
    simp only [Bool.not_true, Bool.false_eq_true, if_false, true_implies]
    unfold f_mkdir
    split
    · exact ⟨by trivial, by trivial, ⟨_, rfl⟩, by simp⟩
    · split
      · rename_i hex
        refine ⟨by trivial, by trivial, ⟨_, rfl⟩, fun _ => ?_⟩
        obtain ⟨e, he, hn⟩ := List.any_eq_true.mp hex
        exact ⟨e, he, by simpa using hn⟩
      · refine ⟨by trivial, by trivial, ⟨_, rfl⟩, fun _ => ?_⟩
        exact ⟨_, List.mem_append.mpr (Or.inr (List.mem_singleton_self _)), rfl⟩

theorem header_write_frame (f : SDFile) (env : Env) (header : Bytes) :
    env.fileRW (if header.length > 0 then f.write env (some header) else (true, f, env)).2.2 ∧
    (if header.length > 0 then f.write env (some header) else (true, f, env)).2.2.sd = env.sd ∧
    (if header.length > 0 then f.write env (some header) else (true, f, env)).2.1.is_open
      = f.is_open := by
  split
  · exact write_fileRW f env (some header)
  · exact ⟨envFileRW_refl env, rfl, rfl⟩

/-- The file loop of `createNewSession` works on files only, keeps the number of files,
and when it starts from files that are not open it raises the open-file count by the
number of files it leaves open. -/
theorem openFiles_frame (folder : Int) : ∀ (cfgs : List FileConfig) (files : List SDFile)
    (dbg : Option SDFile) (env : Env) (ok : Bool),
    env.fs.fileOps (openFiles folder cfgs files dbg env ok).env.fs ∧
    (openFiles folder cfgs files dbg env ok).env.sd.mounted = env.sd.mounted ∧
    ((∀ f ∈ files, f.is_open = false) →
      (openFiles folder cfgs files dbg env ok).env.sd.open_files =
        env.sd.open_files + openCount (openFiles folder cfgs files dbg env ok).files) := by
  intro cfgs
  induction cfgs with
  | nil =>
    intro files dbg env ok
    refine ⟨fileOps_refl _, rfl, fun h => ?_⟩
    simp only [openFiles]
    rw [openCount_of_closed h]
    rfl
  | cons cfg cfgs ih =>
    intro files dbg env ok
    cases files with
    | nil =>
      refine ⟨fileOps_refl _, rfl, fun _ => ?_⟩
      simp [openFiles, openCount]
    | cons f rest =>
      obtain ⟨g1, g2, _⟩ := open_general f env (sessionFilePath folder cfg.filename) false
      rw [openFiles_cons]
      split
      · obtain ⟨i1, i2, i3⟩ := ih rest dbg env ok
        refine ⟨i1, i2, fun h => ?_⟩
        have hf := h f (List.mem_cons_self _ _)
        rw [openCount_cons, i3 (fun x hx => h x (List.mem_cons_of_mem _ hx))]
        simp [hf]
      · split
        · rename_i hop
          obtain ⟨d1, d2⟩ := debugWrite_fileRW dbg
            (f.open env (sessionFilePath folder cfg.filename) false).2.2
            (msgCreateFailed cfg.filename folder)
          obtain ⟨i1, i2, i3⟩ := ih rest
            (debugWrite dbg (f.open env (sessionFilePath folder cfg.filename) false).2.2
              (msgCreateFailed cfg.filename folder)).1
            (debugWrite dbg (f.open env (sessionFilePath folder cfg.filename) false).2.2
              (msgCreateFailed cfg.filename folder)).2 false
          refine ⟨fileOps_trans g1 (fileOps_trans (fileOps_of_fileRW d1.2.2) i1),
            i2.trans (d1.1.trans g2), fun h => ?_⟩
          obtain ⟨c1, c2⟩ := open_closed f env (sessionFilePath folder cfg.filename) false
            (h f (List.mem_cons_self _ _))
          rw [hop] at c1 c2
          rw [openCount_cons, i3 (fun x hx => h x (List.mem_cons_of_mem _ hx)), d2, c2]
          simp [c1]
        · rename_i hop
          have hop' : (f.open env (sessionFilePath folder cfg.filename) false).1 = true := by
            simpa using hop
          obtain ⟨w1, w2, w3⟩ := header_write_frame
            (f.open env (sessionFilePath folder cfg.filename) false).2.1
            (f.open env (sessionFilePath folder cfg.filename) false).2.2 cfg.header
          obtain ⟨i1, i2, i3⟩ := ih rest dbg
            (if cfg.header.length > 0 then
              (f.open env (sessionFilePath folder cfg.filename) false).2.1.write
                (f.open env (sessionFilePath folder cfg.filename) false).2.2 (some cfg.header)
             else (true, (f.open env (sessionFilePath folder cfg.filename) false).2.1,
               (f.open env (sessionFilePath folder cfg.filename) false).2.2)).2.2 ok
          refine ⟨fileOps_trans g1 (fileOps_trans (fileOps_of_fileRW w1.2.2) i1),
            i2.trans (w1.1.trans g2), fun h => ?_⟩
          obtain ⟨c1, c2⟩ := open_closed f env (sessionFilePath folder cfg.filename) false
            (h f (List.mem_cons_self _ _))
          rw [hop'] at c1 c2
          rw [openCount_cons, i3 (fun x hx => h x (List.mem_cons_of_mem _ hx)), w2, c2, w3, c1]
          simp only [if_true]
          omega

/-! ### Session creation -/

/-- The three ways through `createNewSession`, with the intermediate results named. -/
theorem createNewSession_cases (sm : SessionManager) (env : Env) :
    ∃ files1 env1 highest env2 created env3,
      closeAllFiles sm.session_files env = (files1, env1) ∧
      SDCard.findHighestNumberedFolder env1 [] = (highest, env2) ∧
      SDCard.createFolder env2 (fmtInt (wrap32 (highest + 1))) = (created, env3) ∧
      (sm.createNewSession env).2.1.current_folder_num = wrap32 (highest + 1) ∧
      ((created = false ∧ (sm.createNewSession env).1 = false ∧
          (sm.createNewSession env).2.1.session_files = files1 ∧
          (sm.createNewSession env).2.2 =
            (debugWrite sm.debug_file env3 (msgFolderFailed (fmtInt (wrap32 (highest + 1))))).2) ∨
        (created = true ∧
          (openFiles (wrap32 (highest + 1)) file_configs files1 sm.debug_file env3
            true).all_success = false ∧
          (sm.createNewSession env).1 = false ∧
          (sm.createNewSession env).2.1.session_files =
            (closeAllFiles
              (openFiles (wrap32 (highest + 1)) file_configs files1 sm.debug_file env3 true).files
              (openFiles (wrap32 (highest + 1)) file_configs files1 sm.debug_file env3 true).env).1 ∧
          (sm.createNewSession env).2.2 =
            (closeAllFiles
              (openFiles (wrap32 (highest + 1)) file_configs files1 sm.debug_file env3 true).files
              (openFiles (wrap32 (highest + 1)) file_configs files1 sm.debug_file env3 true).env).2) ∨
        (created = true ∧
          (openFiles (wrap32 (highest + 1)) file_configs files1 sm.debug_file env3
            true).all_success = true ∧
          (sm.createNewSession env).1 = true ∧
          (sm.createNewSession env).2.1.session_files =
            (openFiles (wrap32 (highest + 1)) file_configs files1 sm.debug_file env3 true).files ∧
          (sm.createNewSession env).2.2 =
            (debugWrite
              (openFiles (wrap32 (highest + 1)) file_configs files1 sm.debug_file env3 true).dbg
              (openFiles (wrap32 (highest + 1)) file_configs files1 sm.debug_file env3 true).env
              (msgStarted (wrap32 (highest + 1)))).2)) := by
  rcases h1 : closeAllFiles sm.session_files env with ⟨files1, env1⟩
  rcases h2 : SDCard.findHighestNumberedFolder env1 [] with ⟨highest, env2⟩
  rcases h3 : SDCard.createFolder env2 (fmtInt (wrap32 (highest + 1))) with ⟨created, env3⟩
  refine ⟨files1, env1, highest, env2, created, env3, rfl, h2, h3, ?_⟩
  unfold SessionManager.createNewSession
  rw [h1]
  dsimp only
  rw [h2]
  dsimp only
  rw [h3]
  dsimp only
  cases created with
  | false => exact ⟨rfl, Or.inl ⟨rfl, rfl, rfl, rfl⟩⟩
  | true =>
    simp only [Bool.not_true, Bool.false_eq_true, if_false]
    cases hs : (openFiles (wrap32 (highest + 1)) file_configs files1 sm.debug_file env3
        true).all_success with
    | false =>
      refine ⟨rfl, Or.inr (Or.inl ⟨?_, ?_, ?_, ?_, ?_⟩)⟩ <;> first | rfl | trivial
    | true =>
      refine ⟨rfl, Or.inr (Or.inr ⟨?_, ?_, ?_, ?_, ?_⟩)⟩ <;> first | rfl | trivial

/-- The configured streams are all enabled and their headers fit the scratch array. -/
theorem file_configs_ok :
    ∀ cfg ∈ file_configs, cfg.enabled = true ∧ cfg.header.length < TEMP_SIZE := by
  decide!

/-- C9: whenever `createNewSession` returns true with folder index n, the files of the
streams FLIGHT, GPS, PITOT (in this order in `session_files`) are open on handles
opened with create/truncate at "n/flight.txt", "n/gps.txt", "n/pitot.txt", and the
write buffer of each holds exactly the stream's header line of the record format (the
header text followed by one newline, nothing cut). -/
theorem C9_session_files_fresh_with_headers (sm : SessionManager) (env : Env)
    (harr : sm.session_files.length = FILE_COUNT)
    (hok : (sm.createNewSession env).1 = true) :
    List.Forall₂ (FreshlyOpened (sm.createNewSession env).2.1.getCurrentSession) file_configs
      (sm.createNewSession env).2.1.session_files ∧
    file_configs.map (fun c => c.filename) =
      ["flight.txt".toList, "gps.txt".toList, "pitot.txt".toList] ∧
    file_configs.map (fun c => c.header) =
      [ "time_ms,accel_x,accel_y,accel_z,gyro_x,gyro_y,gyro_z,altitude,pressure,temperature".toList
          ++ ['\n'],
        "time_ms,unix_time,latitude,longitude,altitude_mm,vel_north_mm_s,vel_east_mm_s,vel_down_mm_s,heading,h_accuracy,v_accuracy,speed_accuracy,heading_accuracy,valid".toList
          ++ ['\n'],
        "time_ms,airspeed_ms,airspeed_mph,pressure_psi".toList ++ ['\n'] ] ∧
    FA_WRITE ||| FA_CREATE_ALWAYS = 0x0A ∧
    (∀ folder name, sessionFilePath folder name = fmtInt folder ++ ['/'] ++ name) := by
  refine ⟨?_, by decide!, by decide!, by decide, fun _ _ => rfl⟩
  obtain ⟨files1, env1, highest, env2, created, env3, h1, _, _, hidx, hcase⟩ :=
    createNewSession_cases sm env
  have hlen1 : files1.length = file_configs.length := by
    have := (closeAllFiles_fileRW sm.session_files env).2
    rw [h1] at this
    rw [this, harr]
    rfl
  rcases hcase with ⟨_, hf, _⟩ | ⟨_, _, hf, _⟩ | ⟨_, hall, _, hfiles, _⟩
  · rw [hf] at hok
    exact absurd hok (by simp)
  · rw [hf] at hok
    exact absurd hok (by simp)
  · rw [hfiles, SessionManager.getCurrentSession, hidx]
    exact openFiles_success _ file_configs files1 sm.debug_file env3 hlen1 file_configs_ok hall

/-- The writes still succeed, and the `SDCard` singleton is as it was, after the first
three steps of `createNewSession` from the files closed by its first step. -/
theorem after_createFolder {env1 env2 env3 : Env} {highest : Int} {created : Bool}
    {path : Bytes} (h2 : SDCard.findHighestNumberedFolder env1 [] = (highest, env2))
    (h3 : SDCard.createFolder env2 path = (created, env3)) :
    env3.sd = env1.sd ∧ env3.fs.wrOut = env1.fs.wrOut := by
  obtain ⟨a1, _, a3, _⟩ := findHighest_frame env1 []
  obtain ⟨b1, b2, _⟩ := createFolder_frame env2 path
  rw [h2] at a1 a3
  rw [h3] at b1 b2
  exact ⟨b1.trans a1, b2.trans a3⟩

/-- C3 as amended: whenever `createNewSession` reports failure and the writes of the
attempt succeed, none of the session's stream files is open afterwards, and the
volume's open-file count is what it was less the session files that were open before:
the session contributes nothing to it. -/
theorem C3_rollback_amended (sm : SessionManager) (env : Env)
    (hwrites : writesSucceed env.fs) (hfail : (sm.createNewSession env).1 = false) :
    (∀ f ∈ (sm.createNewSession env).2.1.session_files, f.isOpen = false) ∧
    (sm.createNewSession env).2.2.sd.open_files =
      env.sd.open_files - openCount sm.session_files := by
  obtain ⟨files1, env1, highest, env2, created, env3, h1, h2, h3, _, hcase⟩ :=
    createNewSession_cases sm env
  obtain ⟨c1, c2⟩ := closeAllFiles_closed sm.session_files env hwrites
  have hio := (closeAllFiles_fileRW sm.session_files env).1
  rw [h1] at c1 c2 hio
  simp only at c1 c2 hio
  have hclosed1 := forall₂_closed c1
  obtain ⟨k1, k2⟩ := after_createFolder h2 h3
  have hw3 : writesSucceed env3.fs := by
    have := writesSucceed_of_fileRW hwrites hio.2.2
    intro o ho
    rw [k2] at ho
    exact this o ho
  rcases hcase with ⟨_, _, hfiles, henv⟩ | ⟨_, _, _, hfiles, henv⟩ | ⟨_, _, hf, _⟩
  · rw [hfiles, henv, (debugWrite_fileRW _ _ _).2, k1, c2]
    exact ⟨hclosed1, rfl⟩
  · obtain ⟨o1, _, o3⟩ := openFiles_frame (wrap32 (highest + 1)) file_configs files1
      sm.debug_file env3 true
    obtain ⟨d1, d2⟩ := closeAllFiles_closed
      (openFiles (wrap32 (highest + 1)) file_configs files1 sm.debug_file env3 true).files
      (openFiles (wrap32 (highest + 1)) file_configs files1 sm.debug_file env3 true).env
      (writesSucceed_of_fileOps hw3 o1)
    rw [hfiles, henv, d2, o3 hclosed1, k1, c2]
    exact ⟨forall₂_closed d1, by omega⟩
  · rw [hf] at hfail
    exact absurd hfail (by simp)

set_option maxRecDepth 100000 in
/-- C3 as amended, on a working medium whose third `f_open` fails: the creation fails and
no session file is open. -/
theorem C3_rollback_amended_witness :
    (SessionManager.createNewSession {} onlyThirdOpenFails).1 = false ∧
    (∀ f ∈ (SessionManager.createNewSession {} onlyThirdOpenFails).2.1.session_files,
      f.isOpen = false) ∧
    (SessionManager.createNewSession {} onlyThirdOpenFails).2.2.sd.open_files = 0 :=
  have h := C3_rollback_amended {} onlyThirdOpenFails (by decide) (by decide!)
  ⟨by decide!, h.1, h.2⟩

set_option maxRecDepth 100000 in
/-- C9 on an empty mounted volume: session 0 is created with its three files. -/
theorem C9_session_files_fresh_with_headers_witness :
    List.Forall₂
      (FreshlyOpened (SessionManager.createNewSession {} (mountedEnv [])).2.1.getCurrentSession)
      file_configs (SessionManager.createNewSession {} (mountedEnv [])).2.1.session_files :=
  (C9_session_files_fresh_with_headers {} (mountedEnv []) (by decide!) (by decide!)).1

/-! ### The folder index -/

theorem f_opendir_congr {fs fs1 : FatFs} (pfx : Bytes) (h1 : fs1.root = fs.root)
    (h2 : fs1.subdirs = fs.subdirs) (h3 : fs1.odFail = fs.odFail) (h4 : fs1.rdFail = fs.rdFail) :
    (f_opendir fs1 pfx).1 = (f_opendir fs pfx).1 ∧
    (f_opendir fs1 pfx).2.1 = (f_opendir fs pfx).2.1 ∧
    (f_opendir fs1 pfx).2.2.rdFail = (f_opendir fs pfx).2.2.rdFail := by
  have hr := (f_opendir_frame fs pfx).2.2.2.2.1
  have hr1 := (f_opendir_frame fs1 pfx).2.2.2.2.1
  refine ⟨?_, ?_, by rw [hr, hr1, h4]⟩
  · unfold f_opendir
    rw [h1, h2, h3]
    dsimp only
    split <;> rfl
  · unfold f_opendir
    rw [h1, h2, h3]
    dsimp only
    split <;> rfl

/-- The value of `findHighestNumberedFolder` is not affected by file I/O done before. -/
theorem findHighest_value_congr {env env1 : Env} (pfx : Bytes) (h : env.fileRW env1) :
    (SDCard.findHighestNumberedFolder env1 pfx).1 = (SDCard.findHighestNumberedFolder env pfx).1 := by
  obtain ⟨hm, _, hr, hs, ho, hrd, _⟩ := h
  obtain ⟨c1, c2, c3⟩ := f_opendir_congr pfx hr hs ho hrd
  cases hmnt : env.sd.mounted with
  | false =>
    rw [findHighest_unmounted env pfx hmnt, findHighest_unmounted env1 pfx (hm.trans hmnt)]
  | true =>
    rw [findHighest_mounted env pfx hmnt, findHighest_mounted env1 pfx (hm.trans hmnt), c1, c2, c3]

/-- The steps of `createNewSession` up to `createFolder`, and what follows: operations
on files only. -/
theorem createNewSession_tail (sm : SessionManager) (env : Env) :
    ∃ env1 env2 env3 created,
      (closeAllFiles sm.session_files env).2 = env1 ∧
      (sm.createNewSession env).2.1.current_folder_num =
        wrap32 ((SDCard.findHighestNumberedFolder env1 []).1 + 1) ∧
      (SDCard.findHighestNumberedFolder env1 []).2 = env2 ∧
      SDCard.createFolder env2 (fmtInt (sm.createNewSession env).2.1.current_folder_num)
        = (created, env3) ∧
      ((sm.createNewSession env).1 = true → created = true) ∧
      env3.fs.fileOps (sm.createNewSession env).2.2.fs := by
  obtain ⟨files1, env1, highest, env2, created, env3, h1, h2, h3, hidx, hcase⟩ :=
    createNewSession_cases sm env
  refine ⟨env1, env2, env3, created, by rw [h1], by rw [hidx, h2], by rw [h2],
    by rw [hidx, h3], ?_, ?_⟩
  · intro hok
    rcases hcase with ⟨_, hf, _⟩ | ⟨_, _, hf, _⟩ | ⟨hc, _⟩
    · rw [hf] at hok; exact absurd hok (by simp)
    · rw [hf] at hok; exact absurd hok (by simp)
    · exact hc
  · rcases hcase with ⟨_, _, _, henv⟩ | ⟨_, _, _, _, henv⟩ | ⟨_, _, _, _, henv⟩
    · rw [henv]
      exact fileOps_of_fileRW (debugWrite_fileRW _ _ _).1.2.2
    · rw [henv]
      exact fileOps_trans (openFiles_frame _ _ _ _ _ _).1
        (fileOps_of_fileRW (closeAllFiles_fileRW _ _).1.2.2)
    · rw [henv]
      exact fileOps_trans (openFiles_frame _ _ _ _ _ _).1
        (fileOps_of_fileRW (debugWrite_fileRW _ _ _).1.2.2)

/-- The index that `createNewSession` chooses is the 32-bit sum of 1 and the value of
`findHighestNumberedFolder` at the start of the attempt. -/
theorem createNewSession_index (sm : SessionManager) (env : Env) :
    (sm.createNewSession env).2.1.current_folder_num =
      wrap32 ((SDCard.findHighestNumberedFolder env []).1 + 1) := by
  obtain ⟨env1, _, _, _, h1, hidx, _⟩ := createNewSession_tail sm env
  rw [hidx, ← h1, findHighest_value_congr [] (closeAllFiles_fileRW sm.session_files env).1]

theorem wrap32_of_range {x : Int} (h1 : -(2 ^ 31) ≤ x) (h2 : x < 2 ^ 31) : wrap32 x = x := by
  unfold wrap32
  have : (x + 2 ^ 31) % 2 ^ 32 = x + 2 ^ 31 := Int.emod_eq_of_lt (by omega) (by omega)
  rw [this]
  omega

theorem buttonPart_noedge (sm : SessionManager) (env : Env) (t : Nat)
    (h : (!sm.button_state && sm.last_button_state) = false) :
    sm.buttonPart env t = (sm, env) := by
  unfold SessionManager.buttonPart
  rw [if_neg (by rw [h]; simp)]

theorem syncsSucceed_of_fileRW {fs fs1 : FatFs} (h : syncsSucceed fs) (hio : fs.fileRW fs1) :
    syncsSucceed fs1 := by
  obtain ⟨k, hk⟩ := hio.2.2.2.2.2.2.2.2.1
  intro o ho
  rw [hk] at ho
  exact h o (List.mem_of_mem_drop ho)

theorem sync_ok (f : SDFile) (env : Env) (ho : f.is_open = true) (hw : writesSucceed env.fs)
    (hs : syncsSucceed env.fs) :
    (f.sync env).1 = true ∧ (f.sync env).2.1.is_open = true ∧
    (f.sync env).2.1.fil.data = f.fil.data ++ f.pending ∧ (f.sync env).2.1.buffer_pos = 0 ∧
    (f.sync env).2.1.fil.synced = (f.sync env).2.1.fil.data.length ∧
    (f.sync env).2.1.fil.path = f.fil.path := by
  obtain ⟨f1, fs1, hfl, _⟩ := flushBuffer_of_writesSucceed f env.fs hw
  obtain ⟨d1, d2, _, d4, d5, _⟩ := flushBuffer_true _ _ _ _ hfl
  have hio := flushBuffer_fileRW f env.fs
  rw [hfl] at hio
  have hs1 : syncsSucceed fs1 := syncsSucceed_of_fileRW hs hio
  have hhead : ¬ (fs1.syFail.head? = some true) := by
    intro h
    cases hl : fs1.syFail with
    | nil => rw [hl] at h; simp at h
    | cons b bs =>
      rw [hl] at h
      simp only [List.head?_cons, Option.some.injEq] at h
      have := hs1 b (by rw [hl]; exact List.mem_cons_self _ _)
      rw [h] at this
      exact absurd this (by simp)
  have hsync : f.sync env = (true, { f1 with fil := { f1.fil with synced := f1.fil.data.length } },
      { env with fs := (f_sync fs1 f1.fil).2.2 }) := by
    unfold SDFile.sync
    rw [hfl]
    simp only [ho, Bool.not_true, Bool.false_eq_true, if_false]
    unfold f_sync
    rw [if_neg hhead]
    simp
  rw [hsync]
  exact ⟨rfl, d4.trans ho, d1, d2, rfl, d5⟩

theorem syncAllFiles_synced : ∀ (files : List SDFile) (env : Env), writesSucceed env.fs →
    syncsSucceed env.fs → List.Forall₂ SyncedFrom files (syncAllFiles files env).1 := by
  intro files
  induction files with
  | nil => intro env _ _; exact List.Forall₂.nil
  | cons f rest ih =>
    intro env hw hs
    unfold syncAllFiles
    by_cases ho : f.is_open = true
    · simp only [SDFile.isOpen, ho, if_true]
      obtain ⟨_, c2, c3, c4, c5, c6⟩ := sync_ok f env ho hw hs
      have hio := (sync_fileRW f env).1
      refine List.Forall₂.cons ⟨fun _ => ⟨c2, c3, c4, c5, c6⟩, fun h => ?_⟩
        (ih _ (writesSucceed_of_fileRW hw hio.2.2) (syncsSucceed_of_fileRW hs hio.2.2))
      rw [ho] at h
      exact absurd h (by simp)
    · have ho' : f.is_open = false := by simpa using ho
      simp only [SDFile.isOpen, ho', Bool.false_eq_true, if_false]
      refine List.Forall₂.cons ⟨fun h => ?_, fun _ => rfl⟩ (ih env hw hs)
      rw [ho'] at h
      exact absurd h (by simp)

theorem findHighest_ge (env : Env) (pfx : Bytes) :
    -1 ≤ (SDCard.findHighestNumberedFolder env pfx).1 := by
  cases hm : env.sd.mounted with
  | false => rw [findHighest_unmounted env pfx hm]
  | true =>
    rw [findHighest_mounted env pfx hm]
    split
    · exact le_refl _
    · exact (foldl_scanEntry_max _ _).1

theorem togglePart_unchanged (sm : SessionManager) (env : Env)
    (h : sm.toggle_state = sm.last_toggle_state) : sm.togglePart env = (sm, env) := by
  unfold SessionManager.togglePart
  rw [if_neg (by simp [h])]

/-- The log only grows through `createNewSession`. -/
theorem createNewSession_log (sm : SessionManager) (env : Env) :
    ∃ evs, (sm.createNewSession env).2.2.fs.log = env.fs.log ++ evs := by
  obtain ⟨env1, env2, env3, created, h1, _, h2, h3, _, hops⟩ := createNewSession_tail sm env
  obtain ⟨e1, he1, _⟩ := fileRW_log (closeAllFiles_fileRW sm.session_files env).1.2.2
  obtain ⟨_, _, _, _, e2, he2, _⟩ := findHighest_frame env1 []
  obtain ⟨e4, he4, _⟩ := hops.2.2.2.2.2.2.2
  have he3 : ∃ e3, env3.fs.log = env2.fs.log ++ e3 := by
    have hc := createFolder_frame env2 (fmtInt (sm.createNewSession env).2.1.current_folder_num)
    rw [h3] at hc
    cases hm : env2.sd.mounted with
    | true =>
      obtain ⟨res, hres⟩ := hc.2.2.1 hm
      exact ⟨_, hres⟩
    | false =>
      have : env3 = env2 := by
        have h3' := h3
        unfold SDCard.createFolder at h3'
        simp only [hm, Bool.not_false, if_true, Prod.mk.injEq] at h3'
        exact h3'.2.symm
      exact ⟨[], by rw [this]; simp⟩
  obtain ⟨e3, he3⟩ := he3
  refine ⟨e1 ++ e2 ++ e3 ++ e4, ?_⟩
  rw [he4, he3, ← h2, he2, ← h1, he1]
  simp only [List.append_assoc]

theorem buttonPart_logging (sm : SessionManager) (env : Env) (t : Nat)
    (h1 : (!sm.button_state && sm.last_button_state) = true) (h2 : sm.logging_active = true) :
    sm.buttonPart env t =
      (SessionManager.createNewSession
        { sm with debug_file := (debugWrite sm.debug_file env MSG_BUTTON).1,
                  session_files := (syncAllFiles sm.session_files
                    (debugWrite sm.debug_file env MSG_BUTTON).2).1 }
        (syncAllFiles sm.session_files (debugWrite sm.debug_file env MSG_BUTTON).2).2).2 := by
  unfold SessionManager.buttonPart
  rw [if_pos h1, if_pos h2]

/-- `update()` in the LOGGING state with a button falling edge and the toggle level
unchanged: the session files are synced, then `createNewSession` runs on them. -/
theorem update_split (sm : SessionManager) (env : Env) (inp : Inputs)
    (hlog : sm.logging_active = true) (hedge : sm.fallingEdge inp = true)
    (htoggle : (!inp.toggle_gpio) = sm.last_toggle_state) :
    (sm.update env inp).2 =
      (SessionManager.createNewSession
        { sm with toggle_state := !inp.toggle_gpio, button_state := inp.button_gpio,
                  debug_file := (debugWrite sm.debug_file env MSG_BUTTON).1,
                  session_files := (syncAllFiles sm.session_files
                    (debugWrite sm.debug_file env MSG_BUTTON).2).1 }
        (syncAllFiles sm.session_files (debugWrite sm.debug_file env MSG_BUTTON).2).2).2.2 ∧
    (sm.update env inp).1.session_files =
      (SessionManager.createNewSession
        { sm with toggle_state := !inp.toggle_gpio, button_state := inp.button_gpio,
                  debug_file := (debugWrite sm.debug_file env MSG_BUTTON).1,
                  session_files := (syncAllFiles sm.session_files
                    (debugWrite sm.debug_file env MSG_BUTTON).2).1 }
        (syncAllFiles sm.session_files
          (debugWrite sm.debug_file env MSG_BUTTON).2).2).2.1.session_files ∧
    (sm.update env inp).1.current_folder_num =
      (SessionManager.createNewSession
        { sm with toggle_state := !inp.toggle_gpio, button_state := inp.button_gpio,
                  debug_file := (debugWrite sm.debug_file env MSG_BUTTON).1,
                  session_files := (syncAllFiles sm.session_files
                    (debugWrite sm.debug_file env MSG_BUTTON).2).1 }
        (syncAllFiles sm.session_files
          (debugWrite sm.debug_file env MSG_BUTTON).2).2).2.1.current_folder_num ∧
    (sm.update env inp).1.logging_active = true := by
  have hb := buttonPart_logging
    { sm with toggle_state := !inp.toggle_gpio, button_state := inp.button_gpio } env
    (inp.now % 2 ^ 32) hedge hlog
  rcases hcr : SessionManager.createNewSession
        { sm with toggle_state := !inp.toggle_gpio, button_state := inp.button_gpio,
                  debug_file := (debugWrite sm.debug_file env MSG_BUTTON).1,
                  session_files := (syncAllFiles sm.session_files
                    (debugWrite sm.debug_file env MSG_BUTTON).2).1 }
        (syncAllFiles sm.session_files (debugWrite sm.debug_file env MSG_BUTTON).2).2
    with ⟨ok, smc, envc⟩
  obtain ⟨⟨c1, c2, _, _, _, _, _⟩, c8, _⟩ := createNewSession_control hcr
  simp only at c1 c2 c8
  rw [hcr] at hb
  simp only at hb
  unfold SessionManager.update
  dsimp only
  rw [hb]
  dsimp only
  generalize hsm3 : (if subU32 (inp.now % 2 ^ 32) smc.last_button_press_time >
      DOUBLE_PRESS_TIMEOUT_MS then
        { smc with last_button_state := smc.button_state, button_press_count := 0 }
      else { smc with last_button_state := smc.button_state }) = sm3
  have k1 : sm3.toggle_state = sm3.last_toggle_state := by
    rw [← hsm3]
    split <;> simp [c1, c2, htoggle]
  have k3 : sm3.session_files = smc.session_files := by
    rw [← hsm3]; split <;> rfl
  have k4 : sm3.current_folder_num = smc.current_folder_num := by
    rw [← hsm3]; split <;> rfl
  have k5 : sm3.logging_active = true := by
    rw [← hsm3]; split <;> simp [c8, hlog]
  rw [togglePart_unchanged sm3 envc k1]
  exact ⟨rfl, k3, k4, k5⟩

theorem readEntries_subset : ∀ (l : List FILINFO) (rd : List Bool) (e : FILINFO),
    e ∈ readEntries l rd → e ∈ l := by
  intro l
  induction l with
  | nil => intro rd e h; simp [readEntries] at h
  | cons a l ih =>
    intro rd e h
    unfold readEntries at h
    split at h
    · simp at h
    · rcases List.mem_cons.mp h with h | h
      · rw [h]; exact List.mem_cons_self _ _
      · exact List.mem_cons_of_mem _ (ih _ _ h)

theorem f_opendir_root (fs : FatFs) :
    (f_opendir fs []).2.1 = fs.root ∨ (f_opendir fs []).2.1 = [] := by
  unfold f_opendir
  dsimp only
  split
  · left
    rename_i h _
    simp only [if_true, Option.some.injEq] at h
    exact h.symm
  · left
    rename_i h _
    simp only [if_true, Option.some.injEq] at h
    exact h.symm
  · right; rfl

/-- Without any counted folder in the root, `findHighestNumberedFolder("")` is -1. -/
theorem findHighest_none (env : Env) (h : ∀ e ∈ env.fs.root, countedValue e = none) :
    (SDCard.findHighestNumberedFolder env []).1 = -1 := by
  cases hm : env.sd.mounted with
  | false => rw [findHighest_unmounted env [] hm]
  | true =>
    rw [findHighest_mounted env [] hm]
    split
    · rfl
    · obtain ⟨_, _, h3⟩ := foldl_scanEntry_max
        (readEntries (f_opendir env.fs []).2.1 (f_opendir env.fs []).2.2.rdFail) (-1)
      rcases h3 with h3 | ⟨e, he, hv⟩
      · exact h3
      · have hsub := readEntries_subset _ _ e he
        rcases f_opendir_root env.fs with hr | hr
        · rw [hr] at hsub
          rw [h e hsub] at hv
          exact absurd hv (by simp)
        · rw [hr] at hsub
          simp at hsub

/-- C11: constructed with the toggle read as on (pin low), the controller makes one call
of `createNewSession`, on the state after the start-up message, and `isLogging()` is
the result of that call; on a volume without any counted folder the session folder is
"0".  Constructed with the toggle read as off, it only writes the start-up message:
no `f_mkdir`, no `f_open`, the root directory and the `SDCard` singleton are unchanged,
no session file is open and `isLogging()` is false. -/
theorem C11_construction (debug : Option SDFile) (env : Env) :
    ((SessionManager.new false debug env).2 =
        (SessionManager.createNewSession
          { debug_file := (debugWrite debug env MSG_STARTUP_ON).1, toggle_state := true,
            last_toggle_state := true, led := true }
          (debugWrite debug env MSG_STARTUP_ON).2).2.2 ∧
      (SessionManager.new false debug env).1.isLogging =
        (SessionManager.createNewSession
          { debug_file := (debugWrite debug env MSG_STARTUP_ON).1, toggle_state := true,
            last_toggle_state := true, led := true }
          (debugWrite debug env MSG_STARTUP_ON).2).1 ∧
      (SessionManager.new false debug env).1.session_files =
        (SessionManager.createNewSession
          { debug_file := (debugWrite debug env MSG_STARTUP_ON).1, toggle_state := true,
            last_toggle_state := true, led := true }
          (debugWrite debug env MSG_STARTUP_ON).2).2.1.session_files ∧
      ((∀ e ∈ env.fs.root, countedValue e = none) →
        (SessionManager.new false debug env).1.getCurrentSession = 0 ∧
        fmtInt (SessionManager.new false debug env).1.getCurrentSession = "0".toList)) ∧
    ((SessionManager.new true debug env).1.isLogging = false ∧
      (SessionManager.new true debug env).1.session_files.map SDFile.isOpen
        = [false, false, false] ∧
      (SessionManager.new true debug env).2.sd = env.sd ∧
      (SessionManager.new true debug env).2.fs.root = env.fs.root ∧
      ∃ evs, (SessionManager.new true debug env).2.fs.log = env.fs.log ++ evs ∧
        ∀ e ∈ evs, e.isCreate = false) := by
  constructor
  · rcases hcr : SessionManager.createNewSession
          { debug_file := (debugWrite debug env MSG_STARTUP_ON).1, toggle_state := true,
            last_toggle_state := true, led := true }
          (debugWrite debug env MSG_STARTUP_ON).2 with ⟨ok, smc, envc⟩
    have hidx := createNewSession_index
          { debug_file := (debugWrite debug env MSG_STARTUP_ON).1, toggle_state := true,
            last_toggle_state := true, led := true }
          (debugWrite debug env MSG_STARTUP_ON).2
    obtain ⟨_, c8, _⟩ := createNewSession_control hcr
    rw [hcr] at hidx
    simp only at hidx c8
    have hnew : SessionManager.new false debug env =
        (if ok = true then { smc with logging_active := true } else smc, envc) := by
      unfold SessionManager.new
      simp only [Bool.not_false, if_true]
      rw [hcr]
      cases ok <;> rfl
    rw [hnew]
    refine ⟨rfl, ?_, ?_, ?_⟩
    · cases ok
      · simpa [SessionManager.isLogging] using c8
      · rfl
    · cases ok <;> rfl
    · intro hnone
      have hcur : (if ok = true then { smc with logging_active := true } else smc).current_folder_num
          = 0 := by
        have : (if ok = true then { smc with logging_active := true }
            else smc).current_folder_num = smc.current_folder_num := by
          cases ok <;> rfl
        rw [this, hidx, findHighest_value_congr [] (debugWrite_fileRW debug env MSG_STARTUP_ON).1,
          findHighest_none env hnone]
        decide
      unfold SessionManager.getCurrentSession
      simp only
      rw [hcur]
      exact ⟨rfl, by decide⟩
  · obtain ⟨hio, hsd⟩ := debugWrite_fileRW debug env MSG_STARTUP_OFF
    have hnew : SessionManager.new true debug env =
        ({ debug_file := (debugWrite debug env MSG_STARTUP_OFF).1, toggle_state := false,
           last_toggle_state := false, led := false },
          (debugWrite debug env MSG_STARTUP_OFF).2) := by
      unfold SessionManager.new
      simp
    rw [hnew]
    refine ⟨rfl, ?_, hsd, hio.2.2.1, fileRW_log hio.2.2⟩
    show List.map SDFile.isOpen (List.replicate FILE_COUNT SDFile.new) = [false, false, false]
    decide!

/-- The button block while not logging, or without a falling edge: only the debug file
is written; the session files and the folder index stay. -/
theorem buttonPart_quiet (sm : SessionManager) (env : Env) (t : Nat)
    (h : sm.logging_active = false ∨ (!sm.button_state && sm.last_button_state) = false) :
    env.fileRW (sm.buttonPart env t).2 ∧
    (sm.buttonPart env t).1.session_files = sm.session_files ∧
    (sm.buttonPart env t).1.current_folder_num = sm.current_folder_num := by
  unfold SessionManager.buttonPart
  split
  · rename_i hedge
    split
    · rename_i hlog
      rcases h with h | h
      · rw [h] at hlog; exact absurd hlog (by simp)
      · rw [h] at hedge; exact absurd hedge (by simp)
    · split
      · dsimp only
        split
        · split
          · rename_i d _
            dsimp only
            exact ⟨envFileRW_trans (write_fileRW d env (some MSG_SHUTDOWN)).1
              (sync_fileRW (d.write env (some MSG_SHUTDOWN)).2.1
                (d.write env (some MSG_SHUTDOWN)).2.2).1, rfl, rfl⟩
          · exact ⟨envFileRW_refl env, rfl, rfl⟩
        · exact ⟨envFileRW_refl env, rfl, rfl⟩
      · exact ⟨envFileRW_refl env, rfl, rfl⟩
  · exact ⟨envFileRW_refl env, rfl, rfl⟩

/-- The toggle going on: `togglePart` written out. -/
theorem togglePart_on (sm : SessionManager) (env : Env) (h1 : sm.toggle_state = true)
    (h2 : sm.last_toggle_state = false) (h3 : sm.logging_active = false) :
    (sm.togglePart env).2 =
      (SessionManager.createNewSession
        { sm with debug_file := (debugWrite sm.debug_file env MSG_TOGGLE_ON).1, led := true }
        (debugWrite sm.debug_file env MSG_TOGGLE_ON).2).2.2 ∧
    (sm.togglePart env).1.logging_active =
      (SessionManager.createNewSession
        { sm with debug_file := (debugWrite sm.debug_file env MSG_TOGGLE_ON).1, led := true }
        (debugWrite sm.debug_file env MSG_TOGGLE_ON).2).1 ∧
    (sm.togglePart env).1.session_files =
      (SessionManager.createNewSession
        { sm with debug_file := (debugWrite sm.debug_file env MSG_TOGGLE_ON).1, led := true }
        (debugWrite sm.debug_file env MSG_TOGGLE_ON).2).2.1.session_files ∧
    (sm.togglePart env).1.current_folder_num =
      (SessionManager.createNewSession
        { sm with debug_file := (debugWrite sm.debug_file env MSG_TOGGLE_ON).1, led := true }
        (debugWrite sm.debug_file env MSG_TOGGLE_ON).2).2.1.current_folder_num ∧
    (sm.togglePart env).1.last_toggle_state = true := by
  rcases hcr : SessionManager.createNewSession
        { sm with debug_file := (debugWrite sm.debug_file env MSG_TOGGLE_ON).1, led := true }
        (debugWrite sm.debug_file env MSG_TOGGLE_ON).2 with ⟨ok, smc, envc⟩
  obtain ⟨⟨c1, _⟩, c8, _⟩ := createNewSession_control hcr
  simp only at c1 c8
  have key : sm.togglePart env =
      (if ok = true then { smc with logging_active := true, last_toggle_state := smc.toggle_state }
        else { smc with last_toggle_state := smc.toggle_state }, envc) := by
    unfold SessionManager.togglePart
    rw [if_pos (by rw [h1, h2]; simp), if_pos h1]
    dsimp only
    rw [hcr]
  rw [key]
  cases ok
  · exact ⟨rfl, by simp [c8, h3], rfl, rfl, by simp [c1, h1]⟩
  · exact ⟨rfl, rfl, rfl, rfl, by simp [c1, h1]⟩

/-- An `update()` that reads the toggle as on, after it was on, while not logging or with
the button released: nothing is created. -/
theorem update_no_creation (sm : SessionManager) (env : Env) (inp : Inputs)
    (hon : sm.last_toggle_state = true) (ht : inp.toggle_gpio = false)
    (h : sm.logging_active = false ∨ inp.button_gpio = true) :
    env.fileRW (sm.update env inp).2 ∧
    (sm.update env inp).1.session_files = sm.session_files ∧
    (sm.update env inp).1.current_folder_num = sm.current_folder_num ∧
    (sm.update env inp).1.logging_active = sm.logging_active ∧
    (sm.update env inp).1.last_toggle_state = true := by
  have hq := buttonPart_quiet
    { sm with toggle_state := !inp.toggle_gpio, button_state := inp.button_gpio } env
    (inp.now % 2 ^ 32) (by
      rcases h with h | h
      · left; exact h
      · right; simp [h])
  rcases hb : SessionManager.buttonPart
    { sm with toggle_state := !inp.toggle_gpio, button_state := inp.button_gpio } env
    (inp.now % 2 ^ 32) with ⟨sm1, env1⟩
  obtain ⟨b1, b2, _, _, b5, _⟩ := buttonPart_control hb
  rw [hb] at hq
  simp only at b1 b2 b5 hq
  obtain ⟨q1, q2, q3⟩ := hq
  unfold SessionManager.update
  dsimp only
  rw [hb]
  dsimp only
  generalize hsm3 : (if subU32 (inp.now % 2 ^ 32) sm1.last_button_press_time >
      DOUBLE_PRESS_TIMEOUT_MS then
      { sm1 with last_button_state := sm1.button_state, button_press_count := 0 }
    else { sm1 with last_button_state := sm1.button_state }) = sm3
  have k1 : sm3.toggle_state = sm3.last_toggle_state := by
    rw [← hsm3]; split <;> simp [b1, b2, hon, ht]
  have k2 : sm3.last_toggle_state = true := by
    rw [← hsm3]; split <;> simp [b2, hon]
  have k3 : sm3.session_files = sm.session_files := by
    rw [← hsm3]; split <;> exact q2
  have k4 : sm3.current_folder_num = sm.current_folder_num := by
    rw [← hsm3]; split <;> exact q3
  have k5 : sm3.logging_active = sm.logging_active := by
    rw [← hsm3]; split <;> exact b5
  rw [togglePart_unchanged sm3 env1 k1]
  exact ⟨q1, k3, k4, k5, k2⟩

theorem runUpdates_no_creation : ∀ (later : List Inputs) (sm : SessionManager) (env : Env),
    sm.last_toggle_state = true → (∀ i ∈ later, i.toggle_gpio = false) →
    (sm.logging_active = false ∨ ∀ i ∈ later, i.button_gpio = true) →
    env.fileRW (runUpdates sm env later).2 ∧
    (runUpdates sm env later).1.session_files = sm.session_files ∧
    (runUpdates sm env later).1.current_folder_num = sm.current_folder_num ∧
    (runUpdates sm env later).1.logging_active = sm.logging_active := by
  intro later
  induction later with
  | nil => intro sm env _ _ _; exact ⟨envFileRW_refl env, rfl, rfl, rfl⟩
  | cons inp rest ih =>
    intro sm env hon ht h
    obtain ⟨u1, u2, u3, u4, u5⟩ := update_no_creation sm env inp hon
      (ht inp (List.mem_cons_self _ _)) (by
        rcases h with h | h
        · left; exact h
        · right; exact h inp (List.mem_cons_self _ _))
    obtain ⟨r1, r2, r3, r4⟩ := ih (sm.update env inp).1 (sm.update env inp).2 u5
      (fun i hi => ht i (List.mem_cons_of_mem _ hi)) (by
        rcases h with h | h
        · left; rw [u4]; exact h
        · right; exact fun i hi => h i (List.mem_cons_of_mem _ hi))
    rw [runUpdates_cons]
    exact ⟨envFileRW_trans u1 r1, r2.trans u2, r3.trans u3, r4.trans u4⟩

/-- C12 as amended: from an IDLE state (not logging, last toggle level off), an `update()`
that samples the toggle as on runs `createNewSession` once, after file I/O on the debug
file only, and ends with `isLogging()` equal to the result of that call.  On the later
ticks with the toggle still on, as long as the recorder is not logging or the button
stays released, nothing is created: no `f_mkdir` and no `f_open` is logged, and the
session files, the folder index and `isLogging()` stay as they are. -/
theorem C12_toggle_on_amended (sm : SessionManager) (env : Env) (inp : Inputs)
    (later : List Inputs)
    (hidle : sm.isLogging = false) (hoff : sm.last_toggle_state = false)
    (hon : inp.toggle_gpio = false) (hlater : ∀ i ∈ later, i.toggle_gpio = false)
    (hquiet : (sm.update env inp).1.isLogging = false ∨ ∀ i ∈ later, i.button_gpio = true) :
    (∃ (smB : SessionManager) (envB : Env),
      env.fileRW envB ∧ smB.session_files = sm.session_files ∧
      (sm.update env inp).2 = (smB.createNewSession envB).2.2 ∧
      (sm.update env inp).1.isLogging = (smB.createNewSession envB).1 ∧
      (sm.update env inp).1.session_files = (smB.createNewSession envB).2.1.session_files ∧
      (sm.update env inp).1.getCurrentSession
        = (smB.createNewSession envB).2.1.current_folder_num) ∧
    (sm.update env inp).2.fileRW
      (runUpdates (sm.update env inp).1 (sm.update env inp).2 later).2 ∧
    (runUpdates (sm.update env inp).1 (sm.update env inp).2 later).1.session_files
      = (sm.update env inp).1.session_files ∧
    (runUpdates (sm.update env inp).1 (sm.update env inp).2 later).1.getCurrentSession
      = (sm.update env inp).1.getCurrentSession ∧
    (runUpdates (sm.update env inp).1 (sm.update env inp).2 later).1.isLogging
      = (sm.update env inp).1.isLogging := by
  unfold SessionManager.isLogging at hidle hquiet
  have hq := buttonPart_quiet
    { sm with toggle_state := !inp.toggle_gpio, button_state := inp.button_gpio } env
    (inp.now % 2 ^ 32) (Or.inl hidle)
  rcases hb : SessionManager.buttonPart
    { sm with toggle_state := !inp.toggle_gpio, button_state := inp.button_gpio } env
    (inp.now % 2 ^ 32) with ⟨sm1, env1⟩
  obtain ⟨b1, b2, _, _, b5, _⟩ := buttonPart_control hb
  rw [hb] at hq
  simp only at b1 b2 b5 hq
  obtain ⟨q1, q2, q3⟩ := hq
  have hupd : ∃ sm3 : SessionManager, sm.update env inp = sm3.togglePart env1 ∧
      sm3.toggle_state = true ∧ sm3.last_toggle_state = false ∧
      sm3.logging_active = false ∧ sm3.session_files = sm.session_files ∧
      sm3.debug_file = sm1.debug_file := by
    unfold SessionManager.update
    dsimp only
    rw [hb]
    dsimp only
    refine ⟨_, rfl, ?_, ?_, ?_, ?_, ?_⟩
    · split <;> simp [b1, hon]
    · split <;> simp [b2, hoff]
    · split <;> simp [b5, hidle]
    · split <;> exact q2
    · split <;> rfl
  obtain ⟨sm3, hu, k1, k2, k3, k4, _⟩ := hupd
  obtain ⟨t1, t2, t3, t4, t5⟩ := togglePart_on sm3 env1 k1 k2 k3
  rw [← hu] at t1 t2 t3 t4 t5
  have hrun := runUpdates_no_creation later (sm.update env inp).1 (sm.update env inp).2 t5
    hlater hquiet
  exact ⟨⟨{ sm3 with debug_file := (debugWrite sm3.debug_file env1 MSG_TOGGLE_ON).1, led := true },
    (debugWrite sm3.debug_file env1 MSG_TOGGLE_ON).2,
    envFileRW_trans q1 (debugWrite_fileRW sm3.debug_file env1 MSG_TOGGLE_ON).1,
    k4, t1, t2, t3, t4⟩, hrun⟩



set_option maxRecDepth 100000 in
/-- C12 as amended, on an empty working volume: the toggle goes on, session 0 starts, and
two later ticks with the button released leave the session files, the folder index and
`isLogging()` as they are. -/
theorem C12_toggle_on_amended_witness :
    (runUpdates
      ((SessionManager.new true none (mountedEnv [])).1.update
        (SessionManager.new true none (mountedEnv [])).2 (releaseWhileOn 1000)).1
      ((SessionManager.new true none (mountedEnv [])).1.update
        (SessionManager.new true none (mountedEnv [])).2 (releaseWhileOn 1000)).2
      [releaseWhileOn 2000, releaseWhileOn 3000]).1.getCurrentSession
      = ((SessionManager.new true none (mountedEnv [])).1.update
        (SessionManager.new true none (mountedEnv [])).2
        (releaseWhileOn 1000)).1.getCurrentSession ∧
    (runUpdates
      ((SessionManager.new true none (mountedEnv [])).1.update
        (SessionManager.new true none (mountedEnv [])).2 (releaseWhileOn 1000)).1
      ((SessionManager.new true none (mountedEnv [])).1.update
        (SessionManager.new true none (mountedEnv [])).2 (releaseWhileOn 1000)).2
      [releaseWhileOn 2000, releaseWhileOn 3000]).1.isLogging
      = ((SessionManager.new true none (mountedEnv [])).1.update
        (SessionManager.new true none (mountedEnv [])).2 (releaseWhileOn 1000)).1.isLogging :=
  (C12_toggle_on_amended (SessionManager.new true none (mountedEnv [])).1
    (SessionManager.new true none (mountedEnv [])).2 (releaseWhileOn 1000)
    [releaseWhileOn 2000, releaseWhileOn 3000]
    (by decide!) (by decide!) (by decide!) (by decide!) (Or.inr (by decide!))).2.2.2

/-! ### The open-file count -/

theorem close_count (f : SDFile) (env : Env) :
    (f.close env).2.2.sd.open_files ≤ env.sd.open_files := by
  unfold SDFile.close
  split
  · exact le_refl _
  · split
    split
    · exact le_refl _
    · split
      dsimp only
      rw [unregisterFile_count]
      omega

theorem open_count_le (f : SDFile) (env : Env) (path : Bytes) (append : Bool)
    (h : env.sd.open_files ≤ MAX_FILES) :
    (f.open env path append).2.2.sd.open_files ≤ MAX_FILES := by
  rcases hc : (if f.is_open then f.close env else (true, f, env)) with ⟨c, f1, env1⟩
  have h1 : env1.sd.open_files ≤ MAX_FILES := by
    by_cases ho : f.is_open = true
    · rw [if_pos ho] at hc
      have := close_count f env
      rw [hc] at this
      exact le_trans this h
    · rw [if_neg ho] at hc
      simp only [Prod.mk.injEq] at hc
      rw [← hc.2.2]
      exact h
  rw [open_eq f env path append c f1 env1 hc]
  split
  · exact h1
  · split
    · exact h1
    · rename_i hlt
      dsimp only
      have key : ∀ (c : Prop) [Decidable c],
          (if c then env1.sd.open_files + 1 else env1.sd.open_files) ≤ MAX_FILES := by
        intro c _
        split <;> omega
      exact key _

theorem fileOp_count_le (op : FileOp) (f : SDFile) (env : Env)
    (h : env.sd.open_files ≤ MAX_FILES) : (op.apply f env).2.sd.open_files ≤ MAX_FILES := by
  cases op with
  | «open» path append => exact open_count_le f env path append h
  | write formatted =>
    show (f.write env formatted).2.2.sd.open_files ≤ MAX_FILES
    rw [(write_fileRW f env formatted).2.1]
    exact h
  | sync =>
    show (f.sync env).2.2.sd.open_files ≤ MAX_FILES
    rw [(sync_fileRW f env).2.1]
    exact h
  | close => exact le_trans (close_count f env) h

theorem applyAt_count_le (op : FileOp) : ∀ (i : Nat) (files : List SDFile) (env : Env),
    env.sd.open_files ≤ MAX_FILES → (applyAt op i files env).2.sd.open_files ≤ MAX_FILES := by
  intro i files
  induction files generalizing i with
  | nil => intro env h; cases i <;> exact h
  | cons f rest ih =>
    intro env h
    cases i with
    | zero => exact fileOp_count_le op f env h
    | succ i => exact ih i env h

theorem shutdown_count (env : Env) : (SDCard.shutdown env).sd.open_files = 0 := by
  unfold SDCard.shutdown
  by_cases h : env.sd.open_files > 0
  · simp only [h, if_true]
    split <;> rfl
  · have h0 : env.sd.open_files = 0 := by omega
    simp only [h, if_false]
    split <;> exact h0

theorem mount_count (env : Env) : (SDCard.mount env).2.sd.open_files = env.sd.open_files := by
  unfold SDCard.mount SDCard.init
  cases env.sd.initialized <;> cases hm : env.sd.mounted <;> simp [hm]

theorem cardOp_count_le (op : CardOp) (files : List SDFile) (env : Env)
    (h : env.sd.open_files ≤ MAX_FILES) : (op.apply files env).2.sd.open_files ≤ MAX_FILES := by
  cases op with
  | registerFile =>
    show env.sd.registerFile.2.open_files ≤ MAX_FILES
    obtain ⟨r1, r2, r3, _⟩ := registerFile_spec env.sd
    cases hr : env.sd.registerFile.1 with
    | true => rw [r2 hr]; have := r1.mp hr; omega
    | false => rw [r3 hr]; exact h
  | unregisterFile =>
    show env.sd.unregisterFile.open_files ≤ MAX_FILES
    rw [unregisterFile_count]
    omega
  | shutdown =>
    show (SDCard.shutdown env).sd.open_files ≤ MAX_FILES
    rw [shutdown_count]
    exact Nat.zero_le _
  | mount =>
    show (SDCard.mount env).2.sd.open_files ≤ MAX_FILES
    rw [mount_count]
    exact h
  | file i op => exact applyAt_count_le op i files env h

theorem runCardOps_count_le : ∀ (ops : List CardOp) (files : List SDFile) (env : Env),
    env.sd.open_files ≤ MAX_FILES → (runCardOps ops files env).2.sd.open_files ≤ MAX_FILES := by
  intro ops
  induction ops with
  | nil => intro files env h; exact h
  | cons op ops ih =>
    intro files env h
    exact ih _ _ (cardOp_count_le op files env h)

/-- C21: from a count within the ceiling (0 in particular), after every sequence of
`registerFile`, `unregisterFile`, `shutdown`, `mount` and `open`, `write`, `sync`,
`close` calls on the files of the volume, `open_files <= MAX_FILES` = 8.  In the state
reached, `registerFile` returns false exactly when the count is 8, and then it leaves
the singleton unchanged, otherwise the count grows by one; `unregisterFile` takes one
off a positive count and leaves a count of 0 at 0. -/
theorem C21_open_files_within_ceiling (ops : List CardOp) (files : List SDFile) (env : Env)
    (h : env.sd.open_files ≤ MAX_FILES) :
    (runCardOps ops files env).2.sd.open_files ≤ 8 ∧
    ((runCardOps ops files env).2.sd.registerFile.1 = false ↔
      (runCardOps ops files env).2.sd.open_files = 8) ∧
    ((runCardOps ops files env).2.sd.registerFile.1 = false →
      (runCardOps ops files env).2.sd.registerFile.2 = (runCardOps ops files env).2.sd) ∧
    ((runCardOps ops files env).2.sd.registerFile.1 = true →
      (runCardOps ops files env).2.sd.registerFile.2.open_files =
        (runCardOps ops files env).2.sd.open_files + 1) ∧
    ((runCardOps ops files env).2.sd.open_files = 0 →
      (runCardOps ops files env).2.sd.unregisterFile = (runCardOps ops files env).2.sd) ∧
    ((runCardOps ops files env).2.sd.open_files > 0 →
      (runCardOps ops files env).2.sd.unregisterFile.open_files + 1 =
        (runCardOps ops files env).2.sd.open_files) := by
  have hle := runCardOps_count_le ops files env h
  obtain ⟨r1, r2, r3, _⟩ := registerFile_spec (runCardOps ops files env).2.sd
  simp only [MAX_FILES] at hle r1
  refine ⟨hle, ?_, r3, r2, ?_, ?_⟩
  · constructor
    · intro hf
      have : ¬ (runCardOps ops files env).2.sd.open_files < 8 := by
        intro hlt
        rw [r1.mpr hlt] at hf
        exact absurd hf (by simp)
      omega
    · intro h8
      cases hr : (runCardOps ops files env).2.sd.registerFile.1 with
      | false => rfl
      | true => have := r1.mp hr; omega
  · intro h0
    unfold SDCard.unregisterFile
    rw [if_neg (by omega)]
  · intro hpos
    rw [unregisterFile_count]
    omega

/-- C21 at work: after a mount, an open and nine calls of `registerFile` the count is
within the ceiling. -/
theorem C21_open_files_witness :
    (runCardOps (CardOp.mount :: CardOp.file 0 (FileOp.open "a".toList false) ::
      List.replicate 9 CardOp.registerFile) [SDFile.new] {}).2.sd.open_files ≤ 8 :=
  (C21_open_files_within_ceiling (CardOp.mount :: CardOp.file 0 (FileOp.open "a".toList false) ::
      List.replicate 9 CardOp.registerFile) [SDFile.new] {} (by decide)).1

/-- With working writes `close` closes an open file and unregisters it. -/
theorem close_ok (f : SDFile) (env : Env) (ho : f.is_open = true) (hw : writesSucceed env.fs) :
    (f.close env).2.1.is_open = false ∧ (f.close env).2.2.sd = env.sd.unregisterFile := by
  obtain ⟨f1, fs1, hfl, _⟩ := flushBuffer_of_writesSucceed f env.fs hw
  unfold SDFile.close
  simp only [ho, Bool.not_true, Bool.false_eq_true, if_false]
  rw [hfl]
  exact ⟨rfl, rfl⟩

/-- One call on a file when the writes succeed: the count follows `isOpen()`. -/
theorem fileOp_exact (op : FileOp) (f : SDFile) (env : Env) (hw : writesSucceed env.fs)
    (hpos : f.is_open = true → 0 < env.sd.open_files) :
    (op.apply f env).2.sd.open_files + (if f.is_open = true then 1 else 0) =
      env.sd.open_files + (if (op.apply f env).1.is_open = true then 1 else 0) ∧
    writesSucceed (op.apply f env).2.fs := by
  cases op with
  | «open» path append =>
    show (f.open env path append).2.2.sd.open_files + (if f.is_open = true then 1 else 0) =
      env.sd.open_files + (if (f.open env path append).2.1.is_open = true then 1 else 0) ∧
      writesSucceed (f.open env path append).2.2.fs
    refine ⟨?_, writesSucceed_of_fileOps hw (open_general f env path append).1⟩
    by_cases ho : f.is_open = true
    · rcases hc : f.close env with ⟨c, f1, env1⟩
      obtain ⟨k1, k2⟩ := close_ok f env ho hw
      rw [hc] at k1 k2
      simp only at k1 k2
      have e1 : f.open env path append = f1.open env1 path append := by
        rw [open_eq f env path append c f1 env1 (by rw [if_pos ho]; exact hc),
          open_eq f1 env1 path append true f1 env1 (by simp [k1])]
      obtain ⟨o1, o2⟩ := open_closed f1 env1 path append k1
      rw [e1, o1, o2, k2, unregisterFile_count, if_pos ho]
      have := hpos ho
      omega
    · have hcl : f.is_open = false := by simpa using ho
      obtain ⟨o1, o2⟩ := open_closed f env path append hcl
      rw [o1, o2, if_neg ho]
      omega
  | write formatted =>
    show (f.write env formatted).2.2.sd.open_files + (if f.is_open = true then 1 else 0) =
      env.sd.open_files + (if (f.write env formatted).2.1.is_open = true then 1 else 0) ∧
      writesSucceed (f.write env formatted).2.2.fs
    obtain ⟨w1, w2, w3⟩ := write_fileRW f env formatted
    rw [w2, w3]
    exact ⟨rfl, writesSucceed_of_fileRW hw w1.2.2⟩
  | sync =>
    show (f.sync env).2.2.sd.open_files + (if f.is_open = true then 1 else 0) =
      env.sd.open_files + (if (f.sync env).2.1.is_open = true then 1 else 0) ∧
      writesSucceed (f.sync env).2.2.fs
    obtain ⟨w1, w2, w3⟩ := sync_fileRW f env
    rw [w2, w3]
    exact ⟨rfl, writesSucceed_of_fileRW hw w1.2.2⟩
  | close =>
    show (f.close env).2.2.sd.open_files + (if f.is_open = true then 1 else 0) =
      env.sd.open_files + (if (f.close env).2.1.is_open = true then 1 else 0) ∧
      writesSucceed (f.close env).2.2.fs
    refine ⟨?_, writesSucceed_of_fileRW hw (close_fileRW f env).2.2⟩
    by_cases ho : f.is_open = true
    · obtain ⟨k1, k2⟩ := close_ok f env ho hw
      rw [k1, k2, unregisterFile_count, if_pos ho]
      have := hpos ho
      simp only [Bool.false_eq_true, if_false]
      omega
    · have hcl : f.is_open = false := by simpa using ho
      rw [close_not_open f env hcl]

theorem applyAt_exact (op : FileOp) : ∀ (i : Nat) (files : List SDFile) (env : Env),
    writesSucceed env.fs → openCount files ≤ env.sd.open_files →
    (applyAt op i files env).2.sd.open_files + openCount files =
      env.sd.open_files + openCount (applyAt op i files env).1 ∧
    writesSucceed (applyAt op i files env).2.fs := by
  intro i files
  induction files generalizing i with
  | nil => intro env hw _; cases i <;> exact ⟨rfl, hw⟩
  | cons f rest ih =>
    intro env hw hle
    rw [openCount_cons] at hle
    cases i with
    | zero =>
      obtain ⟨e1, e2⟩ := fileOp_exact op f env hw (by
        intro ho
        rw [if_pos ho] at hle
        omega)
      refine ⟨?_, e2⟩
      show (op.apply f env).2.sd.open_files + openCount (f :: rest) =
        env.sd.open_files + openCount ((op.apply f env).1 :: rest)
      rw [openCount_cons, openCount_cons]
      omega
    | succ i =>
      obtain ⟨e1, e2⟩ := ih i env hw (by omega)
      refine ⟨?_, e2⟩
      show (applyAt op i rest env).2.sd.open_files + openCount (f :: rest) =
        env.sd.open_files + openCount (f :: (applyAt op i rest env).1)
      rw [openCount_cons, openCount_cons]
      omega

theorem runCardOps_exact : ∀ (ops : List CardOp) (files : List SDFile) (env : Env),
    (∀ op ∈ ops, op.isFileOp = true) → writesSucceed env.fs →
    env.sd.open_files = openCount files →
    (runCardOps ops files env).2.sd.open_files = openCount (runCardOps ops files env).1 := by
  intro ops
  induction ops with
  | nil => intro files env _ _ h; exact h
  | cons op ops ih =>
    intro files env hops hw h
    have hop := hops op (List.mem_cons_self _ _)
    cases op with
    | file i fop =>
      obtain ⟨e1, e2⟩ := applyAt_exact fop i files env hw (by omega)
      exact ih _ _ (fun o ho => hops o (List.mem_cons_of_mem _ ho)) e2 (by
        show (applyAt fop i files env).2.sd.open_files = openCount (applyAt fop i files env).1
        omega)
    | registerFile => simp [CardOp.isFileOp] at hop
    | unregisterFile => simp [CardOp.isFileOp] at hop
    | shutdown => simp [CardOp.isFileOp] at hop
    | mount => simp [CardOp.isFileOp] at hop

/-- C22, what holds: when no `f_write` fails, after every sequence of `open`, `write`,
`sync` and `close` calls on any set of `SDFile` objects sharing the volume (with `open`
on files already open, and any outcome of `f_open`, `f_sync` and `f_close`), the volume's
open-file count is the number of objects whose `isOpen()` is true. -/
theorem C22_count_exact_when_writes_succeed (ops : List CardOp) (files : List SDFile)
    (env : Env) (hops : ∀ op ∈ ops, op.isFileOp = true) (hw : writesSucceed env.fs)
    (h0 : env.sd.open_files = openCount files) :
    (runCardOps ops files env).2.sd.open_files =
      ((runCardOps ops files env).1.filter SDFile.isOpen).length := by
  rw [runCardOps_exact ops files env hops hw h0]
  rfl

set_option maxRecDepth 100000 in
/-- C22 at work: two files, the second `f_open` fails; one file is open and counted. -/
theorem C22_count_exact_witness :
    (runCardOps [CardOp.file 0 (FileOp.open "a".toList false),
        CardOp.file 1 (FileOp.open "b".toList false), CardOp.file 0 FileOp.close,
        CardOp.file 1 (FileOp.open "c".toList true)]
      [SDFile.new, SDFile.new]
      { sd := { initialized := true, mounted := true }, fs := { opFail := [false, true] } }
      ).2.sd.open_files = 1 :=
  (C22_count_exact_when_writes_succeed _ [SDFile.new, SDFile.new]
    { sd := { initialized := true, mounted := true }, fs := { opFail := [false, true] } }
    (by decide) (by decide) (by decide!)).trans (by decide!)

set_option maxRecDepth 100000 in
/-- C22 fails as stated: a file is opened, one byte is written to it, and `open` is
called on it again while the flush of that byte fails.  The implicit `close` returns
before closing and unregistering, `open` goes on and registers the object a second
time: the count is 2 with one object open; when the second `f_open` fails as well the
count is 1 with no object open. -/
theorem C22_double_registration :
    (runCardOps reopenDirty [SDFile.new] firstWriteFails).2.sd.open_files = 2 ∧
    (runCardOps reopenDirty [SDFile.new] firstWriteFails).1.map SDFile.isOpen = [true] ∧
    (runCardOps reopenDirty [SDFile.new] writeAndReopenFail).2.sd.open_files = 1 ∧
    (runCardOps reopenDirty [SDFile.new] writeAndReopenFail).1.map SDFile.isOpen = [false] := by
  decide!

/-! ### Names that the scan counts -/

theorem strtol_eq (name : Bytes) :
    strtol name =
      if (afterSign name).takeWhile isdigit = [] then (0, name)
      else if hasMinus name = true then
        (if (digitsValue ((afterSign name).takeWhile isdigit) : Int) > -INT_MIN then INT_MIN
          else -(digitsValue ((afterSign name).takeWhile isdigit) : Int),
          (afterSign name).dropWhile isdigit)
      else
        (if (digitsValue ((afterSign name).takeWhile isdigit) : Int) > INT_MAX then INT_MAX
          else (digitsValue ((afterSign name).takeWhile isdigit) : Int),
          (afterSign name).dropWhile isdigit) := by
  unfold strtol afterSign hasMinus
  dsimp only

theorem numeric_takeWhile (s : Bytes) :
    isNumericName s = true ↔ (s.takeWhile isdigit ≠ [] ∧ s.dropWhile isdigit = []) := by
  unfold isNumericName
  simp only [Bool.and_eq_true, Bool.not_eq_true', List.isEmpty_eq_false]
  rw [List.dropWhile_eq_nil_iff]
  constructor
  · rintro ⟨hne, hall⟩
    have hall2 : ∀ x ∈ s, isdigit x = true := by simpa using hall
    refine ⟨?_, hall2⟩
    rw [List.takeWhile_eq_self_iff.mpr hall2]
    exact hne
  · rintro ⟨hne, hall⟩
    refine ⟨?_, by simpa using hall⟩
    intro hs
    rw [hs] at hne
    exact hne rfl

/-- Which names are counted, in terms of the characters of the name. -/
theorem countedValue_isSome (e : FILINFO) (hne : e.fname ≠ []) :
    (countedValue e).isSome = true ↔
      (e.fattrib &&& AM_DIR ≠ 0 ∧ isNumericName (afterSign e.fname) = true ∧
        (hasMinus e.fname = true → digitsValue (afterSign e.fname) = 0)) := by
  unfold countedValue
  rw [numeric_takeWhile, strtol_eq]
  by_cases hd : e.fattrib &&& AM_DIR ≠ 0
  · by_cases hds : (afterSign e.fname).takeWhile isdigit = []
    · simp [hd, hds, hne]
    · by_cases hrest : (afterSign e.fname).dropWhile isdigit = []
      · have hall : ∀ x ∈ afterSign e.fname, isdigit x = true :=
          List.dropWhile_eq_nil_iff.mp hrest
        have htake : (afterSign e.fname).takeWhile isdigit = afterSign e.fname :=
          List.takeWhile_eq_self_iff.mpr hall
        rw [htake] at hds ⊢
        by_cases hm : hasMinus e.fname = true
        · simp only [hm, if_true, if_neg hds, hrest]
          have hval : ((if (digitsValue (afterSign e.fname) : Int) > -INT_MIN then INT_MIN
              else -(digitsValue (afterSign e.fname) : Int)) ≥ 0) ↔
              digitsValue (afterSign e.fname) = 0 := by
            simp only [INT_MIN]
            split <;> omega
          simp only [hd, hval, ne_eq, not_false_eq_true, true_and, not_true_eq_false,
            and_true, forall_const]
          by_cases h0 : digitsValue (afterSign e.fname) = 0
          · simp [h0, hds]
          · simp [h0]
        · have hval : ((if (digitsValue (afterSign e.fname) : Int) > INT_MAX then INT_MAX
              else (digitsValue (afterSign e.fname) : Int)) ≥ 0) := by
            simp only [INT_MAX]
            split <;> omega
          simp [hm, hds, hrest, hd, hval]
      · by_cases hm : hasMinus e.fname = true
        · simp [hm, hds, hrest, hd]
        · simp [hm, hds, hrest, hd]
  · simp [hd]

theorem countedValue_none_of_not_numeric (e : FILINFO) (hne : e.fname ≠ [])
    (h : isNumericName (afterSign e.fname) = false) : countedValue e = none := by
  cases hc : countedValue e with
  | none => rfl
  | some v =>
    have := (countedValue_isSome e hne).mp (by rw [hc]; rfl)
    rw [this.2.1] at h
    exact absurd h (by simp)

theorem readEntries_remove (e : FILINFO) (hne : e.fname ≠ []) (hnone : countedValue e = none)
    (post : List FILINFO) : ∀ (pre : List FILINFO) (highest : Int),
    (readEntries (pre ++ e :: post) []).foldl scanEntry highest =
      (readEntries (pre ++ post) []).foldl scanEntry highest := by
  intro pre
  induction pre with
  | nil =>
    intro highest
    have hstep : readEntries (e :: post) [] = e :: readEntries post [] := by
      rw [readEntries]
      simp [hne]
    rw [List.nil_append, List.nil_append, hstep, List.foldl_cons, scanEntry_eq, hnone]
  | cons a pre ih =>
    intro highest
    rw [List.cons_append, List.cons_append]
    unfold readEntries
    split
    · rfl
    · simp only [List.foldl_cons, List.tail_nil]
      exact ih _

theorem f_opendir_root_eq (fs : FatFs) (root : List FILINFO) :
    (f_opendir { fs with root := root } []).1 = (f_opendir fs []).1 ∧
    ((f_opendir fs []).1 = FRESULT.FR_OK → (f_opendir { fs with root := root } []).2.1 = root) ∧
    (f_opendir { fs with root := root } []).2.2.rdFail = fs.rdFail := by
  unfold f_opendir
  dsimp only
  simp only [if_true]
  cases fs.odFail.head? with
  | none => exact ⟨rfl, fun _ => rfl, rfl⟩
  | some b => cases b <;> simp

/-- An entry that is not counted can be taken out of the root directory without any
change to what `findHighestNumberedFolder` returns (all `f_readdir` calls working). -/
theorem findHighest_remove (env : Env) (pre post : List FILINFO) (e : FILINFO)
    (hr : env.fs.rdFail = []) (hne : e.fname ≠ []) (hnone : countedValue e = none) :
    (SDCard.findHighestNumberedFolder (withRoot env (pre ++ e :: post)) []).1 =
      (SDCard.findHighestNumberedFolder (withRoot env (pre ++ post)) []).1 := by
  cases hm : env.sd.mounted with
  | false =>
    rw [findHighest_unmounted _ [] (by exact hm), findHighest_unmounted _ [] (by exact hm)]
  | true =>
    rw [findHighest_mounted _ [] (by exact hm), findHighest_mounted _ [] (by exact hm)]
    obtain ⟨a1, a2, a3⟩ := f_opendir_root_eq env.fs (pre ++ e :: post)
    obtain ⟨b1, b2, b3⟩ := f_opendir_root_eq env.fs (pre ++ post)
    show (if (f_opendir { env.fs with root := pre ++ e :: post } []).1 ≠ FRESULT.FR_OK then -1
      else (readEntries (f_opendir { env.fs with root := pre ++ e :: post } []).2.1
        (f_opendir { env.fs with root := pre ++ e :: post } []).2.2.rdFail).foldl scanEntry (-1)) =
      (if (f_opendir { env.fs with root := pre ++ post } []).1 ≠ FRESULT.FR_OK then -1
      else (readEntries (f_opendir { env.fs with root := pre ++ post } []).2.1
        (f_opendir { env.fs with root := pre ++ post } []).2.2.rdFail).foldl scanEntry (-1))
    rw [a1, a3, b1, b3, hr]
    by_cases hok : (f_opendir env.fs []).1 = FRESULT.FR_OK
    · rw [a2 hok, b2 hok, if_neg (by simp [hok]), if_neg (by simp [hok])]
      exact readEntries_remove e hne hnone post pre (-1)
    · rw [if_pos hok, if_pos hok]

/-- C23 as amended: `findHighestNumberedFolder` counts an entry with a non-empty name
exactly when it is a directory and its name is made of optional leading white space,
one optional sign and then decimal digits only, the digits being zeros after a minus.
An entry whose name has a non-digit character after that white space and sign, a
trailing one in particular, is never counted: the loop body leaves `highest` as it is,
and taking the entry out of the root directory does not change the result. -/
theorem C23_counted_names_amended (e : FILINFO) :
    (e.fname ≠ [] →
      ((countedValue e).isSome = true ↔
        (e.fattrib &&& AM_DIR ≠ 0 ∧ isNumericName (afterSign e.fname) = true ∧
          (hasMinus e.fname = true → digitsValue (afterSign e.fname) = 0)))) ∧
    (e.fname ≠ [] → isNumericName (afterSign e.fname) = false →
      (∀ highest, scanEntry highest e = highest) ∧
      ∀ (env : Env) (pre post : List FILINFO), env.fs.rdFail = [] →
        (SDCard.findHighestNumberedFolder (withRoot env (pre ++ e :: post)) []).1 =
          (SDCard.findHighestNumberedFolder (withRoot env (pre ++ post)) []).1) ∧
    (isNumericName e.fname = true → afterSign e.fname = e.fname ∧ hasMinus e.fname = false) := by
  refine ⟨countedValue_isSome e, ?_, ?_⟩
  · intro hne hnum
    have hnone := countedValue_none_of_not_numeric e hne hnum
    refine ⟨?_, fun env pre post hr => findHighest_remove env pre post e hr hne hnone⟩
    intro highest
    rw [scanEntry_eq, hnone]
  · intro hnum
    unfold isNumericName at hnum
    simp only [Bool.and_eq_true, Bool.not_eq_true', List.isEmpty_eq_false, List.all_eq_true] at hnum
    obtain ⟨hne, hall⟩ := hnum
    cases hname : e.fname with
    | nil => exact absurd hname hne
    | cons c t =>
      rw [hname] at hall
      obtain ⟨hs, hm, hp⟩ := isdigit_not_space_sign c (hall c (List.mem_cons_self _ _))
      unfold afterSign hasMinus
      simp [List.dropWhile, hs, hm, hp]

/-- C23 fails as stated: the directories "+7", " 7" and "-0" are counted, as 7, 7 and 0,
while their names are not made of digits only; without them the result is -1. -/
theorem C23_signed_names_counterexample :
    (SDCard.findHighestNumberedFolder (mountedEnv [dirEntry "+7"]) []).1 = 7 ∧
    (SDCard.findHighestNumberedFolder (mountedEnv [dirEntry " 7"]) []).1 = 7 ∧
    (SDCard.findHighestNumberedFolder (mountedEnv [dirEntry "-0"]) []).1 = 0 ∧
    (SDCard.findHighestNumberedFolder (mountedEnv []) []).1 = -1 ∧
    isNumericName "+7".toList = false ∧ isNumericName " 7".toList = false ∧
    isNumericName "-0".toList = false := by
  decide

/-! ### Shutdown requests and the logging state -/

/-- `update()` as its two blocks: the button block, then the toggle block on a state that
differs from the button block's in the press counter and the stored button level only. -/
theorem update_parts (sm : SessionManager) (env : Env) (inp : Inputs) :
    ∃ (sm1 : SessionManager) (env1 : Env) (sm3 : SessionManager),
      SessionManager.buttonPart
        { sm with toggle_state := !inp.toggle_gpio, button_state := inp.button_gpio } env
        (inp.now % 2 ^ 32) = (sm1, env1) ∧
      sm.update env inp = sm3.togglePart env1 ∧
      sm3.toggle_state = (!inp.toggle_gpio) ∧
      sm3.last_toggle_state = sm.last_toggle_state ∧
      sm3.logging_active = sm.logging_active ∧
      sm3.session_files = sm1.session_files ∧
      sm3.current_folder_num = sm1.current_folder_num ∧
      sm3.debug_file = sm1.debug_file ∧
      sm3.shutdown_requested = sm1.shutdown_requested := by
  rcases hb : SessionManager.buttonPart
    { sm with toggle_state := !inp.toggle_gpio, button_state := inp.button_gpio } env
    (inp.now % 2 ^ 32) with ⟨sm1, env1⟩
  obtain ⟨b1, b2, _, _, b5, _⟩ := buttonPart_control hb
  simp only at b1 b2 b5
  refine ⟨sm1, env1,
    (if subU32 (inp.now % 2 ^ 32) sm1.last_button_press_time > DOUBLE_PRESS_TIMEOUT_MS then
      { sm1 with last_button_state := sm1.button_state, button_press_count := 0 }
    else { sm1 with last_button_state := sm1.button_state }), rfl, ?_, ?_, ?_, ?_, ?_, ?_, ?_, ?_⟩
  · unfold SessionManager.update
    dsimp only
    rw [hb]
  · split <;> exact b1
  · split <;> exact b2
  · split <;> exact b5
  · split <;> rfl
  · split <;> rfl
  · split <;> rfl
  · split <;> rfl

/-- C24 as amended: in every `update()` tick in which `isShutdownRequested()` changes from
false to true, the recorder was not logging when the tick began and the tick saw a
button falling edge; at the end of the tick `isLogging()` is false unless the tick also
reads the toggle as on after off, and with the toggle level unchanged the session
files are as they were. -/
theorem C24_shutdown_from_idle_amended (sm : SessionManager) (env : Env) (inp : Inputs)
    (h0 : sm.isShutdownRequested = false)
    (h1 : (sm.update env inp).1.isShutdownRequested = true) :
    sm.isLogging = false ∧ sm.fallingEdge inp = true ∧
    (¬ (inp.toggle_gpio = false ∧ sm.last_toggle_state = false) →
      (sm.update env inp).1.isLogging = false) ∧
    ((!inp.toggle_gpio) = sm.last_toggle_state →
      (sm.update env inp).1.session_files = sm.session_files) := by
  unfold SessionManager.isShutdownRequested at h0 h1
  unfold SessionManager.isLogging
  obtain ⟨_, _, _, _, _, c6⟩ := update_control sm env inp
  have hidle : sm.idlePress inp = true := by
    cases hi : sm.idlePress inp with
    | true => rfl
    | false =>
      rw [(c6 hi).2.2, h0] at h1
      exact absurd h1 (by simp)
  have hi : sm.fallingEdge inp = true ∧ sm.logging_active = false := by
    simpa [SessionManager.idlePress] using hidle
  obtain ⟨sm1, env1, sm3, hb, hu, k1, k2, k3, k4, _, _, _⟩ := update_parts sm env inp
  have hq := buttonPart_quiet
    { sm with toggle_state := !inp.toggle_gpio, button_state := inp.button_gpio } env
    (inp.now % 2 ^ 32) (Or.inl hi.2)
  rw [hb] at hq
  rcases ht : sm3.togglePart env1 with ⟨sm4, env4⟩
  obtain ⟨_, _, _, _, _, _, _, t8, t9⟩ := togglePart_control ht
  rw [hu, ht]
  refine ⟨hi.2, hi.1, ?_, ?_⟩
  · intro hnot
    show sm4.logging_active = false
    by_cases hsame : sm3.toggle_state = sm3.last_toggle_state
    · rw [(t9 hsame).1, k3]
      exact hi.2
    · rw [k1, k2] at hsame
      cases hg : inp.toggle_gpio with
      | true =>
        rw [hg] at hsame
        have hl : sm.last_toggle_state = true := by
          cases hl : sm.last_toggle_state with
          | true => rfl
          | false => rw [hl] at hsame; exact absurd rfl hsame
        exact t8 (by rw [k1, hg]; rfl) (by rw [k2]; exact hl)
      | false =>
        rw [hg] at hsame
        have hl : sm.last_toggle_state = false := by
          cases hl : sm.last_toggle_state with
          | false => rfl
          | true => rw [hl] at hsame; exact absurd rfl hsame
        exact absurd ⟨hg, hl⟩ hnot
  · intro hsame
    show sm4.session_files = sm.session_files
    rw [(t9 (by rw [k1, k2]; exact hsame)).1, k4]
    exact hq.2.1

set_option maxRecDepth 100000 in
/-- C24 as amended, at a double press with the toggle off all along: the second press
requests the shutdown and the recorder is not logging at the end of the tick. -/
theorem C24_shutdown_from_idle_witness :
    ((runUpdates (SessionManager.new true none (mountedEnv [])).1
        (SessionManager.new true none (mountedEnv [])).2 [pressAt 1000, releaseAt 1100]).1.update
      (runUpdates (SessionManager.new true none (mountedEnv [])).1
        (SessionManager.new true none (mountedEnv [])).2 [pressAt 1000, releaseAt 1100]).2
      (pressAt 1200)).1.isLogging = false :=
  (C24_shutdown_from_idle_amended
    (runUpdates (SessionManager.new true none (mountedEnv [])).1
      (SessionManager.new true none (mountedEnv [])).2 [pressAt 1000, releaseAt 1100]).1
    (runUpdates (SessionManager.new true none (mountedEnv [])).1
      (SessionManager.new true none (mountedEnv [])).2 [pressAt 1000, releaseAt 1100]).2
    (pressAt 1200) (by decide!) (by decide!)).2.2.1 (by decide!)

set_option maxRecDepth 100000 in
/-- C24 fails as stated: the recorder is idle with the toggle off, the button is pressed,
released, and pressed again 200 ms later in the tick in which the toggle is read as on.
That tick requests the shutdown and then starts session 0: at its end `isLogging()` is
true and the three session files are open. -/
theorem C24_shutdown_while_logging_counterexample :
    (runUpdates (SessionManager.new true none (mountedEnv [])).1
      (SessionManager.new true none (mountedEnv [])).2
      [pressAt 1000, releaseAt 1100]).1.isShutdownRequested = false ∧
    (runUpdates (SessionManager.new true none (mountedEnv [])).1
      (SessionManager.new true none (mountedEnv [])).2
      pressPressWithToggle).1.isShutdownRequested = true ∧
    (runUpdates (SessionManager.new true none (mountedEnv [])).1
      (SessionManager.new true none (mountedEnv [])).2
      pressPressWithToggle).1.isLogging = true ∧
    (runUpdates (SessionManager.new true none (mountedEnv [])).1
      (SessionManager.new true none (mountedEnv [])).2
      pressPressWithToggle).1.session_files.map SDFile.isOpen = [true, true, true] := by
  decide!

/-! ### The two resets of the press counter -/

/-- `createNewSession` does not look at the press counter. -/
theorem createNewSession_count (sm : SessionManager) (env : Env) (c : Int) :
    SessionManager.createNewSession { sm with button_press_count := c } env =
      ((sm.createNewSession env).1,
        { (sm.createNewSession env).2.1 with button_press_count := c },
        (sm.createNewSession env).2.2) := by
  unfold SessionManager.createNewSession
  dsimp only
  split
  · rfl
  · split <;> rfl

theorem buttonPart_idle_late (sm : SessionManager) (env : Env) (t : Nat)
    (h1 : (!sm.button_state && sm.last_button_state) = true) (h2 : sm.logging_active = false)
    (h3 : ¬ subU32 t sm.last_button_press_time < DOUBLE_PRESS_TIMEOUT_MS) :
    sm.buttonPart env t =
      ({ sm with button_press_count := 1, last_button_press_time := t }, env) := by
  unfold SessionManager.buttonPart
  rw [if_pos h1, if_neg (by rw [h2]; simp), if_neg h3]

/-- The button block after the elapsed-time reset, and the elapsed-time reset after the
button block, give the same state. -/
theorem buttonPart_reset (sm : SessionManager) (env : Env) (t : Nat) :
    ({ (SessionManager.buttonPart
          (if subU32 t sm.last_button_press_time > DOUBLE_PRESS_TIMEOUT_MS then
            { sm with button_press_count := 0 } else sm) env t).1 with
        last_button_state := (SessionManager.buttonPart
          (if subU32 t sm.last_button_press_time > DOUBLE_PRESS_TIMEOUT_MS then
            { sm with button_press_count := 0 } else sm) env t).1.button_state },
      (SessionManager.buttonPart
          (if subU32 t sm.last_button_press_time > DOUBLE_PRESS_TIMEOUT_MS then
            { sm with button_press_count := 0 } else sm) env t).2) =
    ((if subU32 t (sm.buttonPart env t).1.last_button_press_time > DOUBLE_PRESS_TIMEOUT_MS then
        { (sm.buttonPart env t).1 with
          last_button_state := (sm.buttonPart env t).1.button_state, button_press_count := 0 }
      else { (sm.buttonPart env t).1 with
          last_button_state := (sm.buttonPart env t).1.button_state }),
      (sm.buttonPart env t).2) := by
  by_cases hedge : (!sm.button_state && sm.last_button_state) = true
  · by_cases hlog : sm.logging_active = true
    · by_cases hreset : subU32 t sm.last_button_press_time > DOUBLE_PRESS_TIMEOUT_MS
      · rw [if_pos hreset, buttonPart_logging sm env t hedge hlog,
          buttonPart_logging { sm with button_press_count := 0 } env t hedge hlog]
        dsimp only
        rcases hcr : SessionManager.createNewSession
          { sm with debug_file := (debugWrite sm.debug_file env MSG_BUTTON).1,
                    session_files := (syncAllFiles sm.session_files
                      (debugWrite sm.debug_file env MSG_BUTTON).2).1 }
          (syncAllFiles sm.session_files (debugWrite sm.debug_file env MSG_BUTTON).2).2
          with ⟨ok, smc, envc⟩
        obtain ⟨⟨_, _, _, _, c5, _⟩, _⟩ := createNewSession_control hcr
        simp only at c5
        have hcount := createNewSession_count
          { sm with debug_file := (debugWrite sm.debug_file env MSG_BUTTON).1,
                    session_files := (syncAllFiles sm.session_files
                      (debugWrite sm.debug_file env MSG_BUTTON).2).1 }
          (syncAllFiles sm.session_files (debugWrite sm.debug_file env MSG_BUTTON).2).2 0
        rw [hcr] at hcount
        dsimp only at hcount
        rw [hcount]
        dsimp only
        rw [if_pos (by rw [c5]; exact hreset)]
      · rw [if_neg hreset, buttonPart_logging sm env t hedge hlog]
        rcases hcr : SessionManager.createNewSession
          { sm with debug_file := (debugWrite sm.debug_file env MSG_BUTTON).1,
                    session_files := (syncAllFiles sm.session_files
                      (debugWrite sm.debug_file env MSG_BUTTON).2).1 }
          (syncAllFiles sm.session_files (debugWrite sm.debug_file env MSG_BUTTON).2).2
          with ⟨ok, smc, envc⟩
        obtain ⟨⟨_, _, _, _, c5, _⟩, _⟩ := createNewSession_control hcr
        simp only at c5
        dsimp only
        rw [if_neg (by rw [c5]; exact hreset)]
    · have hlog : sm.logging_active = false := by simpa using hlog
      by_cases hreset : subU32 t sm.last_button_press_time > DOUBLE_PRESS_TIMEOUT_MS
      · have hnlt : ¬ subU32 t sm.last_button_press_time < DOUBLE_PRESS_TIMEOUT_MS := by omega
        rw [if_pos hreset, buttonPart_idle_late sm env t hedge hlog hnlt,
          buttonPart_idle_late { sm with button_press_count := 0 } env t hedge hlog hnlt]
        dsimp only
        rw [subU32_self, if_neg (by simp [DOUBLE_PRESS_TIMEOUT_MS])]
      · rw [if_neg hreset]
        rcases hb : sm.buttonPart env t with ⟨sm1, env1⟩
        obtain ⟨_, _, _, _, _, b6, _⟩ := buttonPart_control hb
        obtain ⟨p1, _, _⟩ := b6 ⟨hedge, hlog⟩
        dsimp only
        rw [p1, subU32_self, if_neg (by simp [DOUBLE_PRESS_TIMEOUT_MS])]
  · have hne : (!sm.button_state && sm.last_button_state) = false := by simpa using hedge
    by_cases hreset : subU32 t sm.last_button_press_time > DOUBLE_PRESS_TIMEOUT_MS
    · rw [if_pos hreset, buttonPart_noedge sm env t hne,
        buttonPart_noedge { sm with button_press_count := 0 } env t hne]
      dsimp only
      rw [if_pos hreset]
    · rw [if_neg hreset, buttonPart_noedge sm env t hne]
      dsimp only
      rw [if_neg hreset]

/-- C25: the variant of `update()` that performs the elapsed-time reset of the press
counter before it processes the button edge ends every tick in the same state as
`update()`, for every starting state, medium and input: the same press counter,
last-press time, `shutdown_requested`, `logging_active`, and all the rest. -/
theorem C25_reset_order_immaterial (sm : SessionManager) (env : Env) (inp : Inputs) :
    sm.updateResetFirst env inp = sm.update env inp ∧
    (sm.updateResetFirst env inp).1.button_press_count =
      (sm.update env inp).1.button_press_count ∧
    (sm.updateResetFirst env inp).1.last_button_press_time =
      (sm.update env inp).1.last_button_press_time ∧
    (sm.updateResetFirst env inp).1.isShutdownRequested =
      (sm.update env inp).1.isShutdownRequested ∧
    (sm.updateResetFirst env inp).1.isLogging = (sm.update env inp).1.isLogging := by
  have key : sm.updateResetFirst env inp = sm.update env inp := by
    have h := buttonPart_reset
      { sm with toggle_state := !inp.toggle_gpio, button_state := inp.button_gpio } env
      (inp.now % 2 ^ 32)
    unfold SessionManager.updateResetFirst SessionManager.update
    dsimp only at h ⊢
    rw [Prod.mk.injEq] at h
    rw [h.1, h.2]
  rw [key]
  exact ⟨rfl, rfl, rfl, rfl, rfl⟩

/-! ### Range of the folder index -/

theorem strtol_le_max (name : Bytes) : (strtol name).1 ≤ INT_MAX := by
  rw [strtol_eq]
  simp only [INT_MAX, INT_MIN]
  split
  · show (0 : Int) ≤ 2 ^ 31 - 1
    decide
  · split
    · dsimp only
      split <;> omega
    · dsimp only
      split <;> omega

theorem countedValue_le_max (e : FILINFO) (v : Int) (h : countedValue e = some v) :
    v ≤ INT_MAX := by
  unfold countedValue at h
  split at h
  · simp only [Option.some.injEq] at h
    rw [← h]
    exact strtol_le_max e.fname
  · simp at h

/-- `findHighestNumberedFolder` never returns more than `INT_MAX`. -/
theorem findHighest_le_max (env : Env) (pfx : Bytes) :
    (SDCard.findHighestNumberedFolder env pfx).1 ≤ INT_MAX := by
  cases hm : env.sd.mounted with
  | false =>
    rw [findHighest_unmounted env pfx hm]
    show (-1 : Int) ≤ INT_MAX
    decide
  | true =>
    rw [findHighest_mounted env pfx hm]
    split
    · decide
    · obtain ⟨_, _, h3⟩ := foldl_scanEntry_max
        (readEntries (f_opendir env.fs pfx).2.1 (f_opendir env.fs pfx).2.2.rdFail) (-1)
      rcases h3 with h3 | ⟨e, _, hv⟩
      · rw [h3]; decide
      · exact countedValue_le_max e _ hv

/-- C26 as amended: with `int` as 32-bit two's complement and the parse clamped to
2^31 - 1, `findHighestNumberedFolder` returns a value in [-1, 2^31 - 1].  Whenever that
value is below 2^31 - 1 the index chosen by `createNewSession` is the value plus one:
non-negative and strictly greater.  When the value is 2^31 - 1 (a folder named
"2147483647" or a longer digit string) the sum wraps and the index is -2^31. -/
theorem C26_index_range_amended (sm : SessionManager) (env : Env) :
    -1 ≤ (SDCard.findHighestNumberedFolder env []).1 ∧
    (SDCard.findHighestNumberedFolder env []).1 ≤ 2 ^ 31 - 1 ∧
    ((SDCard.findHighestNumberedFolder env []).1 < 2 ^ 31 - 1 →
      (sm.createNewSession env).2.1.getCurrentSession =
        (SDCard.findHighestNumberedFolder env []).1 + 1 ∧
      0 ≤ (sm.createNewSession env).2.1.getCurrentSession ∧
      (SDCard.findHighestNumberedFolder env []).1 <
        (sm.createNewSession env).2.1.getCurrentSession) ∧
    ((SDCard.findHighestNumberedFolder env []).1 = 2 ^ 31 - 1 →
      (sm.createNewSession env).2.1.getCurrentSession = -(2 ^ 31)) := by
  have hge := findHighest_ge env []
  have hle := findHighest_le_max env []
  have hidx := createNewSession_index sm env
  simp only [INT_MAX] at hle
  unfold SessionManager.getCurrentSession
  refine ⟨hge, hle, ?_, ?_⟩
  · intro hlt
    rw [hidx, wrap32_of_range (by omega) (by omega)]
    omega
  · intro heq
    rw [hidx, heq]
    decide

set_option maxRecDepth 100000 in
/-- C26 fails as stated: for the folder names "2147483647" and "99999999999" the parse
gives 2^31 - 1, and the index chosen by `createNewSession` is -2147483648: negative and
not greater than the value returned by `findHighestNumberedFolder`. -/
theorem C26_index_wraps_counterexample :
    (SDCard.findHighestNumberedFolder (mountedEnv [dirEntry "99999999999"]) []).1
      = 2147483647 ∧
    (SessionManager.createNewSession {} (mountedEnv [dirEntry "99999999999"])).2.1.getCurrentSession
      = -2147483648 ∧
    (SDCard.findHighestNumberedFolder (mountedEnv [dirEntry "7", dirEntry "2147483647"]) []).1
      = 2147483647 ∧
    (SessionManager.createNewSession {}
      (mountedEnv [dirEntry "7", dirEntry "2147483647"])).2.1.getCurrentSession < 0 ∧
    fmtInt (SessionManager.createNewSession {}
      (mountedEnv [dirEntry "7", dirEntry "2147483647"])).2.1.getCurrentSession
      = "-2147483648".toList := by
  decide!

/-! ### Logging only with the toggle on -/

theorem new_logging_toggle (toggle_gpio : Bool) (debug : Option SDFile) (env : Env) :
    (SessionManager.new toggle_gpio debug env).1.logging_active = false ∨
    (SessionManager.new toggle_gpio debug env).1.last_toggle_state = true := by
  cases toggle_gpio with
  | false =>
    right
    rw [(new_control false debug env).2.2.2.2.2]
    rfl
  | true =>
    left
    unfold SessionManager.new
    simp

theorem update_logging_toggle (sm : SessionManager) (env : Env) (inp : Inputs)
    (h : sm.logging_active = false ∨ sm.last_toggle_state = true) :
    (sm.update env inp).1.logging_active = false ∨
    (sm.update env inp).1.last_toggle_state = true := by
  obtain ⟨sm1, env1, sm3, _, hu, k1, k2, k3, _⟩ := update_parts sm env inp
  rcases ht : sm3.togglePart env1 with ⟨sm4, env4⟩
  obtain ⟨_, _, _, _, _, _, t7, t8, t9⟩ := togglePart_control ht
  rw [hu, ht]
  show sm4.logging_active = false ∨ sm4.last_toggle_state = true
  cases hts : sm3.toggle_state with
  | true => right; rw [t7, hts]
  | false =>
    cases hls : sm3.last_toggle_state with
    | true => left; exact t8 hts hls
    | false =>
      left
      rw [(t9 (by rw [hts, hls])).1, k3]
      rcases h with h | h
      · exact h
      · rw [k2, h] at hls
        exact absurd hls (by simp)

theorem runUpdates_logging_toggle : ∀ (inps : List Inputs) (sm : SessionManager) (env : Env),
    (sm.logging_active = false ∨ sm.last_toggle_state = true) →
    ((runUpdates sm env inps).1.logging_active = false ∨
      (runUpdates sm env inps).1.last_toggle_state = true) := by
  intro inps
  induction inps with
  | nil => intro sm env h; exact h
  | cons inp rest ih =>
    intro sm env h
    rw [runUpdates_cons]
    exact ih _ _ (update_logging_toggle sm env inp h)

/-- C27: after the construction and after every sequence of `update()` ticks, on any
medium, the recorder is not logging or the last sampled toggle level is on
(`last_toggle_state`, which after a tick is the level that the tick sampled). -/
theorem C27_logging_implies_toggle_on (toggle_gpio : Bool) (debug : Option SDFile) (env : Env)
    (inps : List Inputs) :
    ((runUpdates (SessionManager.new toggle_gpio debug env).1
        (SessionManager.new toggle_gpio debug env).2 inps).1.isLogging = false ∨
      (runUpdates (SessionManager.new toggle_gpio debug env).1
        (SessionManager.new toggle_gpio debug env).2 inps).1.last_toggle_state = true) ∧
    (SessionManager.new toggle_gpio debug env).1.last_toggle_state = (!toggle_gpio) ∧
    ∀ (sm : SessionManager) (env1 : Env) (inp : Inputs),
      (sm.update env1 inp).1.last_toggle_state = (!inp.toggle_gpio) :=
  ⟨runUpdates_logging_toggle inps _ _ (new_logging_toggle toggle_gpio debug env),
    (new_control toggle_gpio debug env).2.2.2.2.2,
    fun sm env1 inp => (update_control sm env1 inp).2.2.2.1⟩

/-! ### The double-press window -/

set_option maxRecDepth 100000 in
/-- C28: the double-press window is half-open.  With `elapsed` the `uint32_t` difference
`current_time - last_button_press_time` at a tick: a button falling edge detected while
not logging with `elapsed` = 500 sets the press counter to 1 and leaves
`shutdown_requested` as it was; with `elapsed` = 499 it increments the counter, and
requests the shutdown when the counter reaches 2.  In a tick without such a press the
counter is reset to 0 when `elapsed` > 500 and kept when `elapsed` <= 500.  From
start-up, presses at 1000 ms and 1500 ms request no shutdown, presses at 1000 ms and
1499 ms do. -/
theorem C28_window_half_open (sm : SessionManager) (env : Env) (inp : Inputs) :
    (sm.idlePress inp = true →
      subU32 (inp.now % 2 ^ 32) sm.last_button_press_time = 500 →
      (sm.update env inp).1.button_press_count = 1 ∧
      (sm.update env inp).1.isShutdownRequested = sm.isShutdownRequested ∧
      (sm.update env inp).1.last_button_press_time = inp.now % 2 ^ 32) ∧
    (sm.idlePress inp = true →
      subU32 (inp.now % 2 ^ 32) sm.last_button_press_time = 499 →
      (sm.update env inp).1.button_press_count = wrap32 (sm.button_press_count + 1) ∧
      (sm.update env inp).1.isShutdownRequested =
        (sm.isShutdownRequested || decide (wrap32 (sm.button_press_count + 1) ≥ 2)) ∧
      (sm.update env inp).1.last_button_press_time = inp.now % 2 ^ 32) ∧
    (sm.idlePress inp = false →
      (subU32 (inp.now % 2 ^ 32) sm.last_button_press_time > 500 →
        (sm.update env inp).1.button_press_count = 0) ∧
      (subU32 (inp.now % 2 ^ 32) sm.last_button_press_time ≤ 500 →
        (sm.update env inp).1.button_press_count = sm.button_press_count)) ∧
    (runUpdates (SessionManager.new true none (mountedEnv [])).1
      (SessionManager.new true none (mountedEnv [])).2
      [pressAt 1000, releaseAt 1100, pressAt 1500]).1.isShutdownRequested = false ∧
    (runUpdates (SessionManager.new true none (mountedEnv [])).1
      (SessionManager.new true none (mountedEnv [])).2
      [pressAt 1000, releaseAt 1100, pressAt 1500]).1.button_press_count = 1 ∧
    (runUpdates (SessionManager.new true none (mountedEnv [])).1
      (SessionManager.new true none (mountedEnv [])).2
      [pressAt 1000, releaseAt 1100, pressAt 1499]).1.isShutdownRequested = true ∧
    (runUpdates (SessionManager.new true none (mountedEnv [])).1
      (SessionManager.new true none (mountedEnv [])).2
      [pressAt 1000, releaseAt 1100, releaseAt 1500]).1.button_press_count = 1 ∧
    (runUpdates (SessionManager.new true none (mountedEnv [])).1
      (SessionManager.new true none (mountedEnv [])).2
      [pressAt 1000, releaseAt 1100, releaseAt 1501]).1.button_press_count = 0 := by
  obtain ⟨_, _, _, _, c5, c6⟩ := update_control sm env inp
  unfold SessionManager.isShutdownRequested
  refine ⟨?_, ?_, ?_, by decide!, by decide!, by decide!, by decide!, by decide!⟩
  · intro hidle hel
    obtain ⟨p1, p2, p3⟩ := c5 hidle
    rw [hel] at p2 p3
    refine ⟨?_, ?_, p1⟩
    · rw [p2]
      simp [DOUBLE_PRESS_TIMEOUT_MS]
    · rw [p3]
      simp [DOUBLE_PRESS_TIMEOUT_MS]
  · intro hidle hel
    obtain ⟨p1, p2, p3⟩ := c5 hidle
    rw [hel] at p2 p3
    refine ⟨?_, ?_, p1⟩
    · rw [p2]
      simp [DOUBLE_PRESS_TIMEOUT_MS]
    · rw [p3]
      simp [DOUBLE_PRESS_TIMEOUT_MS]
  · intro hidle
    obtain ⟨_, p2, _⟩ := c6 hidle
    simp only [DOUBLE_PRESS_TIMEOUT_MS] at p2
    constructor
    · intro hgt
      rw [p2, if_pos hgt]
    · intro hle
      rw [p2, if_neg (by omega)]

/-! ### GPS time to Unix time -/

theorem days_from_civil_anchors :
    days_from_civil 1970 1 1 = 0 ∧ days_from_civil 1970 12 31 = 364 ∧
    days_from_civil 1972 2 29 = 789 ∧ days_from_civil 2000 3 1 = 11017 ∧
    days_from_civil 2024 2 29 = 19782 ∧ days_from_civil 2100 3 1 = 47541 := by
  decide

theorem toU32_of_range {x : Int} (h1 : 0 ≤ x) (h2 : x < 2 ^ 32) : (toU32 x : Int) = x := by
  unfold toU32
  omega

theorem days_table (month : Nat) (hm : 1 ≤ month) (hm2 : month ≤ 12) :
    (days.getD (month - 1) 0 : Int) =
      if month ≤ 2 then (153 * ((month : Int) + 9) + 2) / 5 - 306
      else (153 * ((month : Int) - 3) + 2) / 5 + 59 := by
  interval_cases month <;> decide

theorem toU32_eq {x : Int} (h1 : 0 ≤ x) (h2 : x < 2 ^ 32) : toU32 x = x.toNat := by
  unfold toU32
  omega

/-- The reference day number written with the quotients that the source uses. -/
theorem days_from_civil_eq (year month day : Nat) (hy : 1970 ≤ year) (hy2 : year ≤ 2105)
    (hm : 1 ≤ month) (hm2 : month ≤ 12) :
    days_from_civil year month day =
      ((year : Int) - 1970) * 365 + ((year : Int) - 1969) / 4 - ((year : Int) - 1901) / 100
        + ((year : Int) - 1601) / 400 + (days.getD (month - 1) 0 : Nat) + ((day : Int) - 1)
        + (if month > 2 ∧ ((year % 4 = 0 ∧ year % 100 ≠ 0) ∨ year % 400 = 0) then 1 else 0) := by
  have htab := days_table month hm hm2
  generalize hdm : days.getD (month - 1) 0 = dm at htab
  have hyr : (year ≤ 1999 ∧ ((year : Int) - 1901) / 100 = 0 ∧ ((year : Int) - 1601) / 400 = 0 ∧
        ((year : Int) - 1) / 400 = 4 ∧ (year : Int) / 400 = 4 ∧
        ((year : Int) - 1 - 4 * 400) / 100 = 3 ∧ ((year : Int) - 4 * 400) / 100 = 3) ∨
      year = 2000 ∨
      (2001 ≤ year ∧ year ≤ 2099 ∧ ((year : Int) - 1901) / 100 = 1 ∧
        ((year : Int) - 1601) / 400 = 1 ∧ ((year : Int) - 1) / 400 = 5 ∧
        (year : Int) / 400 = 5 ∧
        ((year : Int) - 1 - 5 * 400) / 100 = 0 ∧ ((year : Int) - 5 * 400) / 100 = 0) ∨
      year = 2100 ∨
      (2101 ≤ year ∧ ((year : Int) - 1901) / 100 = 2 ∧ ((year : Int) - 1601) / 400 = 1 ∧
        ((year : Int) - 1) / 400 = 5 ∧ (year : Int) / 400 = 5 ∧
        ((year : Int) - 1 - 5 * 400) / 100 = 1 ∧ ((year : Int) - 5 * 400) / 100 = 1) := by
    omega
  have hA : ((year : Int) - 1 - 4 * 400) / 4 = ((year : Int) - 1969) / 4 + 92 := by omega
  have hB : ((year : Int) - 1 - 5 * 400) / 4 = ((year : Int) - 1969) / 4 - 8 := by omega
  have hC : ((year : Int) - 4 * 400) / 4 =
      ((year : Int) - 1969) / 4 + 92 + (if year % 4 = 0 then 1 else 0) := by
    split <;> omega
  have hD : ((year : Int) - 5 * 400) / 4 =
      ((year : Int) - 1969) / 4 - 8 + (if year % 4 = 0 then 1 else 0) := by
    split <;> omega
  unfold days_from_civil
  dsimp only
  by_cases hle : month ≤ 2
  · rw [if_pos hle] at htab
    rw [if_pos (by omega : (month : Int) ≤ 2), if_neg (by omega : ¬ (month : Int) > 2),
      if_neg (by omega)]
    rcases hyr with ⟨h, q1, q2, q3, q4, g3, g4⟩ | h | ⟨h, h2, q1, q2, q3, q4, g3, g4⟩ | h |
      ⟨h, q1, q2, q3, q4, g3, g4⟩
    · rw [q3, g3, hA, q1, q2]; omega
    · subst h; omega
    · rw [q3, g3, hB, q1, q2]; omega
    · subst h; omega
    · rw [q3, g3, hB, q1, q2]; omega
  · rw [if_neg hle] at htab
    rw [if_neg (by omega : ¬ (month : Int) ≤ 2), if_pos (by omega : (month : Int) > 2)]
    rcases hyr with ⟨h, q1, q2, q3, q4, g3, g4⟩ | h | ⟨h, h2, q1, q2, q3, q4, g3, g4⟩ | h |
      ⟨h, q1, q2, q3, q4, g3, g4⟩
    · rw [q4, g4, hC, q1, q2]
      by_cases h4 : year % 4 = 0
      · rw [if_pos h4, if_pos ⟨by omega, Or.inl ⟨h4, by omega⟩⟩]; omega
      · rw [if_neg h4, if_neg (by omega)]; omega
    · subst h; omega
    · rw [q4, g4, hD, q1, q2]
      by_cases h4 : year % 4 = 0
      · rw [if_pos h4, if_pos ⟨by omega, Or.inl ⟨h4, by omega⟩⟩]; omega
      · rw [if_neg h4, if_neg (by omega)]; omega
    · subst h; omega
    · rw [q4, g4, hD, q1, q2]
      by_cases h4 : year % 4 = 0
      · rw [if_pos h4, if_pos ⟨by omega, Or.inl ⟨h4, by omega⟩⟩]; omega
      · rw [if_neg h4, if_neg (by omega)]; omega

theorem gps_to_unix_time_eq (year month day hour min sec : Nat) (hy : 1970 ≤ year)
    (hy2 : year ≤ 2105) (hm : 1 ≤ month) (hm2 : month ≤ 12) (hd : 1 ≤ day)
    (hd2 : day ≤ 1000000) :
    gps_to_unix_time year month day hour min sec =
      some (((days_from_civil year month day).toNat * 86400 + hour * 3600 + min * 60 + sec)
        % 2 ^ 32) ∧ 0 ≤ days_from_civil year month day := by
  have hdfc := days_from_civil_eq year month day hy hy2 hm hm2
  have htab := days_table month hm hm2
  generalize hdm : days.getD (month - 1) 0 = dm at htab hdfc
  have hdm0 : (0 : Int) ≤ dm ∧ (dm : Int) ≤ 334 := by
    constructor
    · omega
    · split at htab <;> omega
  clear htab
  have e1 : (toU32 (((year : Int) - 1970) * 365) : Int) = ((year : Int) - 1970) * 365 :=
    toU32_of_range (by omega) (by omega)
  generalize ht1 : toU32 (((year : Int) - 1970) * 365) = t1 at e1
  have e2 : (toU32 ((t1 : Int) + Int.tdiv ((year : Int) - 1969) 4) : Int) =
      (t1 : Int) + ((year : Int) - 1969) / 4 := by
    rw [Int.tdiv_eq_ediv (by omega) (by omega)]
    exact toU32_of_range (by omega) (by omega)
  generalize ht2 : toU32 ((t1 : Int) + Int.tdiv ((year : Int) - 1969) 4) = t2 at e2
  have e3 : (toU32 ((t2 : Int) - Int.tdiv ((year : Int) - 1901) 100) : Int) =
      (t2 : Int) - ((year : Int) - 1901) / 100 := by
    rw [Int.tdiv_eq_ediv (by omega) (by omega)]
    exact toU32_of_range (by omega) (by omega)
  generalize ht3 : toU32 ((t2 : Int) - Int.tdiv ((year : Int) - 1901) 100) = t3 at e3
  have e4 : (toU32 ((t3 : Int) + Int.tdiv ((year : Int) - 1601) 400) : Int) =
      (t3 : Int) + ((year : Int) - 1601) / 400 := by
    rw [Int.tdiv_eq_ediv (by omega) (by omega)]
    exact toU32_of_range (by omega) (by omega)
  generalize ht4 : toU32 ((t3 : Int) + Int.tdiv ((year : Int) - 1601) 400) = t4 at e4
  have hb4 : (t4 : Int) ≤ 60000 := by omega
  have e5 : (toU32 ((t4 : Int) + (dm : Nat)) : Int) = (t4 : Int) + dm :=
    toU32_of_range (by omega) (by omega)
  generalize ht5 : toU32 ((t4 : Int) + (dm : Nat)) = t5 at e5
  have e6 : (toU32 ((t5 : Int) + ((day : Int) - 1)) : Int) = (t5 : Int) + ((day : Int) - 1) :=
    toU32_of_range (by omega) (by omega)
  generalize ht6 : toU32 ((t5 : Int) + ((day : Int) - 1)) = t6 at e6
  have e7 : (toU32 ((t6 : Int) + 1) : Int) = (t6 : Int) + 1 :=
    toU32_of_range (by omega) (by omega)
  generalize ht7 : toU32 ((t6 : Int) + 1) = t7 at e7
  have hkey : gps_to_unix_time year month day hour min sec =
      some (((if month > 2 ∧ ((year % 4 = 0 ∧ year % 100 ≠ 0) ∨ year % 400 = 0) then t7
        else t6) * 86400 + hour * 3600 + min * 60 + sec) % 2 ^ 32) := by
    unfold gps_to_unix_time
    dsimp only
    rw [if_neg (by omega), hdm, ht1, ht2, ht3, ht4, ht5, ht6, ht7]
  have hval : days_from_civil year month day =
      ((if month > 2 ∧ ((year % 4 = 0 ∧ year % 100 ≠ 0) ∨ year % 400 = 0) then t7
        else t6 : Nat) : Int) := by
    rw [hdfc]
    split <;> omega
  rw [hkey, hval]
  exact ⟨by rw [Int.toNat_ofNat], Int.ofNat_nonneg _⟩

/-- C29: for every date with 1970 <= year <= 2105, 1 <= month <= 12 and day >= 1 (the valid
days of the month in particular) and every time of day, when the number of seconds
from 1970-01-01T00:00:00Z, 86400 * days_from_civil(year, month, day) + 3600 * hour +
60 * min + sec, is below 2^32, `gps_to_unix_time` reads inside its table and returns
that number. -/
theorem C29_gps_to_unix_time (year month day hour min sec : Nat) (hy : 1970 ≤ year)
    (hy2 : year ≤ 2105) (hm : 1 ≤ month) (hm2 : month ≤ 12) (hd : 1 ≤ day)
    (hfit : 86400 * days_from_civil year month day + 3600 * hour + 60 * min + sec < 2 ^ 32) :
    gps_to_unix_time year month day hour min sec =
      some (86400 * days_from_civil year month day + 3600 * hour + 60 * min + sec).toNat := by
  have hdfc := days_from_civil_eq year month day hy hy2 hm hm2
  have hd2 : day ≤ 1000000 := by
    have h1 : (0 : Int) ≤ ((year : Int) - 1970) * 365 + ((year : Int) - 1969) / 4
        - ((year : Int) - 1901) / 100 + ((year : Int) - 1601) / 400 := by omega
    have h2 : (0 : Int) ≤ (if month > 2 ∧ ((year % 4 = 0 ∧ year % 100 ≠ 0) ∨ year % 400 = 0)
        then 1 else 0) := by split <;> decide
    omega
  obtain ⟨heq, hpos⟩ := gps_to_unix_time_eq year month day hour min sec hy hy2 hm hm2 hd hd2
  rw [heq]
  congr 1
  have hcast : (((days_from_civil year month day).toNat : Nat) : Int) =
      days_from_civil year month day := Int.toNat_of_nonneg hpos
  generalize days_from_civil year month day = D at *
  generalize D.toNat = n at *
  subst hcast
  have hlt : n * 86400 + hour * 3600 + min * 60 + sec < 2 ^ 32 := by omega
  rw [Nat.mod_eq_of_lt hlt]
  omega

/-- C29 at work: 2024-02-29 12:34:56 UTC is second 1709210096. -/
theorem C29_gps_to_unix_time_witness :
    gps_to_unix_time 2024 2 29 12 34 56 = some 1709210096 :=
  (C29_gps_to_unix_time 2024 2 29 12 34 56 (by decide) (by decide) (by decide) (by decide)
    (by decide) (by decide)).trans (by decide)

/-! ### The month handed to `gps_to_unix_time` -/

/-- C30 fails: three RMC sentences pass `verify_nmea_checksum` and have a non-empty date
field.  For the date field "000000" `parse_rmc` calls `gps_to_unix_time` with month 0,
for "311399" with month 13, and for the one-character date "1" it reads the terminator
and four characters left in `field` by the time field, which gives month 35 and day
218: each time `days[month - 1]` is read outside the table.  A sentence with the date
"230394" gives month 3. -/
theorem C30_month_outside_table :
    verify_nmea_checksum rmcZeroDate = true ∧
    (extract_nmea_field rmcZeroDate 9 emptyField 32).2.take 7 = "000000".toList ++ [NUL] ∧
    rmcCall rmcZeroDate emptyField =
      some { year := 2000, month := 0, day := 0, hour := 0, min := 0, sec := 0 } ∧
    parse_nmea_sentence rmcZeroDate emptyField 0 = none ∧
    verify_nmea_checksum rmcMonth13 = true ∧
    rmcCall rmcMonth13 emptyField =
      some { year := 2099, month := 13, day := 31, hour := 12, min := 35, sec := 19 } ∧
    parse_nmea_sentence rmcMonth13 emptyField 0 = none ∧
    verify_nmea_checksum rmcShortDate = true ∧
    (extract_nmea_field rmcShortDate 9
      (extract_nmea_field rmcShortDate 1 emptyField 32).2 32).2.take 7
      = "1".toList ++ [NUL] ++ "3519".toList ++ [NUL] ∧
    rmcCall rmcShortDate emptyField =
      some { year := 2019, month := 35, day := 218, hour := 12, min := 35, sec := 19 } ∧
    parse_nmea_sentence rmcShortDate emptyField 0 = none ∧
    verify_nmea_checksum rmcGoodDate = true ∧
    rmcCall rmcGoodDate emptyField =
      some { year := 2094, month := 3, day := 23, hour := 12, min := 35, sec := 19 } := by
  decide

/-! ### Session creation on a working medium -/

theorem head_not_fail {l : List Bool} (h : ∀ b ∈ l, b = false) : l.head? ≠ some true := by
  cases l with
  | nil => simp
  | cons b t =>
    have := h b (List.mem_cons_self _ _)
    simp [this]

theorem f_open_succeeds (fs : FatFs) (fil : FIL) (path : Bytes) (mode : Nat)
    (h : opensSucceed fs) :
    (f_open fs fil path mode).1 = FRESULT.FR_OK ∧ opensSucceed (f_open fs fil path mode).2.2 := by
  unfold f_open
  rw [if_neg (head_not_fail h)]
  refine ⟨rfl, ?_⟩
  intro b hb
  exact h b (List.mem_of_mem_tail hb)

/-- `open` on a file that is not open, on a mounted volume with room for one more file
and a working `f_open`. -/
theorem open_succeeds (f : SDFile) (env : Env) (path : Bytes) (append : Bool)
    (hclosed : f.is_open = false) (hm : env.sd.mounted = true)
    (hroom : env.sd.open_files < MAX_FILES) (ho : opensSucceed env.fs) :
    (f.open env path append).1 = true ∧ opensSucceed (f.open env path append).2.2.fs ∧
    (f.open env path append).2.2.sd.mounted = true ∧
    (f.open env path append).2.2.sd.open_files = env.sd.open_files + 1 := by
  have hc : (if f.is_open then f.close env else (true, f, env)) = (true, f, env) := by
    simp [hclosed]
  obtain ⟨s1, s2⟩ := f_open_succeeds env.fs f.fil path
    (if append then FA_WRITE ||| FA_OPEN_APPEND else FA_WRITE ||| FA_CREATE_ALWAYS) ho
  rw [open_eq f env path append true f env hc, if_neg (by rw [hm]; simp),
    if_neg (by omega)]
  dsimp only
  rw [s1]
  exact ⟨by simp, s2, hm, by simp⟩

/-- The file loop of `createNewSession` on closed files, a mounted volume with room for
them and a working `f_open`: every stream file is opened. -/
theorem openFiles_all_success (folder : Int) : ∀ (cfgs : List FileConfig) (files : List SDFile)
    (dbg : Option SDFile) (env : Env), files.length = cfgs.length →
    (∀ f ∈ files, f.is_open = false) → env.sd.mounted = true → opensSucceed env.fs →
    env.sd.open_files + cfgs.length ≤ MAX_FILES →
    (openFiles folder cfgs files dbg env true).all_success = true := by
  intro cfgs
  induction cfgs with
  | nil => intro files dbg env _ _ _ _ _; rfl
  | cons cfg cfgs ih =>
    intro files dbg env hlen hcl hm ho hroom
    cases files with
    | nil => simp at hlen
    | cons f rest =>
      have hlen1 : rest.length = cfgs.length := by simpa using hlen
      have hcl1 : ∀ g ∈ rest, g.is_open = false :=
        fun g hg => hcl g (List.mem_cons_of_mem _ hg)
      have hroom1 : env.sd.open_files + cfgs.length + 1 ≤ MAX_FILES := by
        simpa [Nat.add_assoc] using hroom
      rw [openFiles_cons]
      by_cases hen : cfg.enabled = false
      · rw [if_pos hen]
        exact ih rest dbg env hlen1 hcl1 hm ho (by omega)
      · rw [if_neg hen]
        obtain ⟨o1, o2, o3, o4⟩ := open_succeeds f env (sessionFilePath folder cfg.filename)
          false (hcl f (List.mem_cons_self _ _)) hm (by omega) ho
        rw [if_neg (by rw [o1]; simp)]
        obtain ⟨w1, w2, _⟩ := header_write_frame
          (f.open env (sessionFilePath folder cfg.filename) false).2.1
          (f.open env (sessionFilePath folder cfg.filename) false).2.2 cfg.header
        refine ih rest dbg _ hlen1 hcl1 ?_ ?_ ?_
        · rw [w2]; exact o3
        · intro b hb
          rw [w1.2.2.2.2.2.2.2.1] at hb
          exact o2 b hb
        · rw [w2, o4]; omega

theorem createFolder_ok (env : Env) (path : Bytes) (hm : env.sd.mounted = true)
    (hmk : mkdirsSucceed env.fs) : (SDCard.createFolder env path).1 = true := by
  unfold SDCard.createFolder
  simp only [hm, Bool.not_true, Bool.false_eq_true, if_false]
  unfold f_mkdir
  rw [if_neg (head_not_fail hmk)]
  split <;> simp

theorem createFolder_opFail (env : Env) (path : Bytes) :
    (SDCard.createFolder env path).2.fs.opFail = env.fs.opFail := by
  unfold SDCard.createFolder
  cases hm : env.sd.mounted with
  | false => simp
  | true =>
    simp only [Bool.not_true, Bool.false_eq_true, if_false]
    unfold f_mkdir
    split
    · rfl
    · split <;> rfl

theorem f_opendir_opFail (fs : FatFs) (path : Bytes) :
    (f_opendir fs path).2.2.opFail = fs.opFail := by
  unfold f_opendir
  dsimp only
  split <;> rfl

theorem findHighest_opFail (env : Env) (pfx : Bytes) :
    (SDCard.findHighestNumberedFolder env pfx).2.fs.opFail = env.fs.opFail := by
  have o := f_opendir_opFail env.fs pfx
  unfold SDCard.findHighestNumberedFolder
  split
  · rfl
  · split
    rename_i hod
    rw [hod] at o
    simp only at o
    split
    · exact o
    · split
      exact o

/-- On a mounted volume whose `f_write`, `f_mkdir` and `f_open` calls work and whose
open-file ceiling leaves room for the stream files, `createNewSession` reports success. -/
theorem createNewSession_succeeds (sm : SessionManager) (env : Env)
    (harr : sm.session_files.length = FILE_COUNT) (hm : env.sd.mounted = true)
    (hw : writesSucceed env.fs) (hmk : mkdirsSucceed env.fs) (ho : opensSucceed env.fs)
    (hroom : env.sd.open_files + FILE_COUNT ≤ MAX_FILES + openCount sm.session_files) :
    (sm.createNewSession env).1 = true := by
  obtain ⟨files1, env1, highest, env2, created, env3, h1, h2, h3, _, hcase⟩ :=
    createNewSession_cases sm env
  obtain ⟨hio, hlen⟩ := closeAllFiles_fileRW sm.session_files env
  obtain ⟨hclosed, hcount⟩ := closeAllFiles_closed sm.session_files env hw
  rw [h1] at hio hlen hclosed hcount
  simp only at hio hlen hclosed hcount
  obtain ⟨a1, _, _, a4, _⟩ := findHighest_frame env1 []
  have a5 := findHighest_opFail env1 []
  rw [h2] at a1 a4 a5
  simp only at a1 a4 a5
  obtain ⟨b1, _, _, _⟩ := createFolder_frame env2 (fmtInt (wrap32 (highest + 1)))
  have b5 := createFolder_opFail env2 (fmtInt (wrap32 (highest + 1)))
  have hm2 : env2.sd.mounted = true := by rw [a1, hio.1, hm]
  have hmk2 : mkdirsSucceed env2.fs := by
    intro b hb
    rw [a4, hio.2.2.2.2.2.2.1] at hb
    exact hmk b hb
  have hcr := createFolder_ok env2 (fmtInt (wrap32 (highest + 1))) hm2 hmk2
  rw [h3] at b1 b5 hcr
  simp only at b1 b5 hcr
  have hall := openFiles_all_success (wrap32 (highest + 1)) file_configs files1 sm.debug_file
    env3 (by rw [hlen, harr]; rfl) (forall₂_closed hclosed) (by rw [b1]; exact hm2)
    (by
      intro b hb
      rw [b5, a5, hio.2.2.2.2.2.2.2.1] at hb
      exact ho b hb)
    (by
      rw [b1, a1, hcount]
      have hlenc : file_configs.length = FILE_COUNT := rfl
      have hoc : openCount sm.session_files ≤ sm.session_files.length := by
        unfold openCount
        exact List.length_filter_le _ _
      simp only [FILE_COUNT, MAX_FILES] at *
      omega)
  rcases hcase with ⟨hf, _⟩ | ⟨_, hf, _⟩ | ⟨_, _, hok, _⟩
  · rw [hcr] at hf
    exact absurd hf (by simp)
  · rw [hall] at hf
    exact absurd hf (by simp)
  · exact hok

/-- After a successful `createNewSession` the stream files are freshly opened in the
folder of the new index, and the root directory has an entry of that name. -/
theorem createNewSession_result (sm : SessionManager) (env : Env)
    (harr : sm.session_files.length = FILE_COUNT)
    (hok : (sm.createNewSession env).1 = true) :
    List.Forall₂ (FreshlyOpened (sm.createNewSession env).2.1.current_folder_num) file_configs
      (sm.createNewSession env).2.1.session_files ∧
    ∃ e ∈ (sm.createNewSession env).2.2.fs.root,
      e.fname = fmtInt (sm.createNewSession env).2.1.current_folder_num := by
  constructor
  · obtain ⟨files1, env1, highest, env2, created, env3, h1, _, _, hidx, hcase⟩ :=
      createNewSession_cases sm env
    have hlen1 : files1.length = file_configs.length := by
      have := (closeAllFiles_fileRW sm.session_files env).2
      rw [h1] at this
      rw [this, harr]
      rfl
    rcases hcase with ⟨_, hf, _⟩ | ⟨_, _, hf, _⟩ | ⟨_, hall, _, hfiles, _⟩
    · rw [hf] at hok
      exact absurd hok (by simp)
    · rw [hf] at hok
      exact absurd hok (by simp)
    · rw [hfiles, hidx]
      exact openFiles_success _ file_configs files1 sm.debug_file env3 hlen1 file_configs_ok hall
  · obtain ⟨env1, env2, env3, created, _, _, _, h3, hcr, hops⟩ := createNewSession_tail sm env
    obtain ⟨_, _, _, c4⟩ := createFolder_frame env2
      (fmtInt (sm.createNewSession env).2.1.current_folder_num)
    rw [h3] at c4
    simp only at c4
    obtain ⟨e, he, hn⟩ := c4 (hcr hok)
    exact ⟨e, by rw [hops.1]; exact he, hn⟩

theorem openCount_synced {files files1 : List SDFile}
    (h : List.Forall₂ SyncedFrom files files1) : openCount files1 = openCount files := by
  induction h with
  | nil => rfl
  | @cons a a1 l l1 hab _ ih =>
    rw [openCount_cons, openCount_cons, ih]
    cases ha : a.is_open with
    | true => rw [(hab.1 ha).1]
    | false => rw [hab.2 ha, ha]

/-- C10 as amended: in a LOGGING state with folder index k < 2^31 - 1, where k is what
`findHighestNumberedFolder` returns (folder k is the highest numeric folder), on a
mounted volume whose `f_write`, `f_sync`, `f_mkdir` and `f_open` calls succeed and whose
open-file ceiling leaves room for the stream files, an `update()` that detects a button
falling edge with the toggle level unchanged ends with a new session of folder index
k + 1: `createNewSession` reports success, the root directory has an entry "k + 1", the
three stream files are freshly opened under that folder with their headers, and
`isLogging()` is still true.  Before `createNewSession` runs, hence before any `f_mkdir`
or `f_open` of the tick, every open file of the previous session has its buffered bytes
with its handle and the handle synced up to the last byte. -/
theorem C10_split_amended (sm : SessionManager) (env : Env) (inp : Inputs)
    (hlog : sm.isLogging = true) (hedge : sm.fallingEdge inp = true)
    (htoggle : (!inp.toggle_gpio) = sm.last_toggle_state)
    (hhigh : (SDCard.findHighestNumberedFolder env []).1 = sm.getCurrentSession)
    (hk : sm.getCurrentSession < INT_MAX)
    (harr : sm.session_files.length = FILE_COUNT) (hm : env.sd.mounted = true)
    (hwrites : writesSucceed env.fs) (hsyncs : syncsSucceed env.fs)
    (hmk : mkdirsSucceed env.fs) (hop : opensSucceed env.fs)
    (hroom : env.sd.open_files + FILE_COUNT ≤ MAX_FILES + openCount sm.session_files) :
    (sm.update env inp).1.getCurrentSession = sm.getCurrentSession + 1 ∧
    (sm.update env inp).1.isLogging = true ∧
    List.Forall₂ (FreshlyOpened (sm.getCurrentSession + 1)) file_configs
      (sm.update env inp).1.session_files ∧
    (∃ e ∈ (sm.update env inp).2.fs.root, e.fname = fmtInt (sm.getCurrentSession + 1)) ∧
    ∃ (smS : SessionManager) (envS : Env) (evs1 evs2 : List Event),
      List.Forall₂ SyncedFrom sm.session_files smS.session_files ∧
      envS.fs.log = env.fs.log ++ evs1 ∧ (∀ e ∈ evs1, e.isCreate = false) ∧
      (smS.createNewSession envS).1 = true ∧
      (sm.update env inp).2 = (smS.createNewSession envS).2.2 ∧
      (sm.update env inp).1.session_files = (smS.createNewSession envS).2.1.session_files ∧
      (sm.update env inp).2.fs.log = envS.fs.log ++ evs2 := by
  obtain ⟨u1, u2, u3, u4⟩ := update_split sm env inp hlog hedge htoggle
  obtain ⟨hio1, hsd1⟩ := debugWrite_fileRW sm.debug_file env MSG_BUTTON
  obtain ⟨hio2, hsd2, hlen2⟩ := syncAllFiles_fileRW sm.session_files
    (debugWrite sm.debug_file env MSG_BUTTON).2
  have hio := envFileRW_trans hio1 hio2
  obtain ⟨evs1, hl1, hc1⟩ := fileRW_log hio.2.2
  obtain ⟨evs2, hl2⟩ := createNewSession_log
    { sm with toggle_state := !inp.toggle_gpio, button_state := inp.button_gpio,
              debug_file := (debugWrite sm.debug_file env MSG_BUTTON).1,
              session_files := (syncAllFiles sm.session_files
                (debugWrite sm.debug_file env MSG_BUTTON).2).1 }
    (syncAllFiles sm.session_files (debugWrite sm.debug_file env MSG_BUTTON).2).2
  have hsynced := syncAllFiles_synced sm.session_files
    (debugWrite sm.debug_file env MSG_BUTTON).2
    (writesSucceed_of_fileRW hwrites hio1.2.2) (syncsSucceed_of_fileRW hsyncs hio1.2.2)
  have hidx : (sm.update env inp).1.current_folder_num = sm.current_folder_num + 1 := by
    unfold SessionManager.getCurrentSession at hhigh hk
    rw [u3, createNewSession_index, findHighest_value_congr [] hio, hhigh]
    have hge := findHighest_ge env []
    rw [hhigh] at hge
    simp only [INT_MAX] at hk
    exact wrap32_of_range (by omega) (by omega)
  have hok := createNewSession_succeeds
    { sm with toggle_state := !inp.toggle_gpio, button_state := inp.button_gpio,
              debug_file := (debugWrite sm.debug_file env MSG_BUTTON).1,
              session_files := (syncAllFiles sm.session_files
                (debugWrite sm.debug_file env MSG_BUTTON).2).1 }
    (syncAllFiles sm.session_files (debugWrite sm.debug_file env MSG_BUTTON).2).2
    (hlen2.trans harr) (hio.1.trans hm) (writesSucceed_of_fileRW hwrites hio.2.2)
    (by
      intro b hb
      rw [hio.2.2.2.2.2.2.1] at hb
      exact hmk b hb)
    (by
      intro b hb
      rw [hio.2.2.2.2.2.2.2.1] at hb
      exact hop b hb)
    (by
      show (syncAllFiles sm.session_files
          (debugWrite sm.debug_file env MSG_BUTTON).2).2.sd.open_files + FILE_COUNT ≤
        MAX_FILES + openCount (syncAllFiles sm.session_files
          (debugWrite sm.debug_file env MSG_BUTTON).2).1
      rw [hsd2, hsd1, openCount_synced hsynced]
      exact hroom)
  obtain ⟨r1, r2⟩ := createNewSession_result
    { sm with toggle_state := !inp.toggle_gpio, button_state := inp.button_gpio,
              debug_file := (debugWrite sm.debug_file env MSG_BUTTON).1,
              session_files := (syncAllFiles sm.session_files
                (debugWrite sm.debug_file env MSG_BUTTON).2).1 }
    (syncAllFiles sm.session_files (debugWrite sm.debug_file env MSG_BUTTON).2).2
    (hlen2.trans harr) hok
  rw [← u2, ← u3, hidx] at r1
  rw [← u1, ← u3, hidx] at r2
  unfold SessionManager.getCurrentSession
  refine ⟨hidx, u4, r1, r2, _, _, evs1, evs2, hsynced, hl1, hc1, hok, u1, u2, ?_⟩
  rw [u1]
  exact hl2

set_option maxRecDepth 100000 in
/-- C10 as amended, from session 0 on an empty working volume: the button press leads
to session 1, with the folder "1" in the root directory. -/
theorem C10_split_amended_witness :
    ((SessionManager.new false none (mountedEnv [])).1.update
      (SessionManager.new false none (mountedEnv [])).2 (pressWhileOn 1000)).1.getCurrentSession
      = (SessionManager.new false none (mountedEnv [])).1.getCurrentSession + 1 ∧
    ((SessionManager.new false none (mountedEnv [])).1.update
      (SessionManager.new false none (mountedEnv [])).2 (pressWhileOn 1000)).1.isLogging = true ∧
    ∃ e ∈ ((SessionManager.new false none (mountedEnv [])).1.update
        (SessionManager.new false none (mountedEnv [])).2 (pressWhileOn 1000)).2.fs.root,
      e.fname = fmtInt ((SessionManager.new false none (mountedEnv [])).1.getCurrentSession + 1) :=
  have h := C10_split_amended (SessionManager.new false none (mountedEnv [])).1
    (SessionManager.new false none (mountedEnv [])).2 (pressWhileOn 1000)
    (by decide!) (by decide!) (by decide!) (by decide!) (by decide!) (by decide!) (by decide!)
    (by decide!) (by decide!) (by decide!) (by decide!) (by decide!)
  ⟨h.1, h.2.1, h.2.2.2.1⟩

/-! ### Session controller on concrete media -/

set_option maxRecDepth 100000 in
/-- C2 at its failing input: the controller is constructed with the toggle on (session 0
starts), then `update()` sees a button press and the `f_mkdir` of the new session fails.
Afterwards `isLogging()` is true although no stream file is open. -/
theorem C2_isLogging_without_session :
    (SessionManager.new false none secondMkdirFails).1.isLogging = true ∧
    ((SessionManager.new false none secondMkdirFails).1.update
      (SessionManager.new false none secondMkdirFails).2 (pressWhileOn 1000)).1.isLogging = true ∧
    ((SessionManager.new false none secondMkdirFails).1.update
      (SessionManager.new false none secondMkdirFails).2
      (pressWhileOn 1000)).1.session_files.map SDFile.isOpen = [false, false, false] := by
  decide!

set_option maxRecDepth 100000 in
/-- C3 fails as stated: the third `f_open` fails, so `createNewSession` reports failure,
but the flush of the first file's header fails in `sync` and in `close`, and that file
is still open afterwards, counted once by the volume. -/
theorem C3_rollback_counterexample :
    (SessionManager.createNewSession {} thirdOpenFails).1 = false ∧
    (SessionManager.createNewSession {} thirdOpenFails).2.1.session_files.map SDFile.isOpen
      = [true, false, false] ∧
    (SessionManager.createNewSession {} thirdOpenFails).2.2.sd.open_files = 1 := by
  decide!

set_option maxRecDepth 100000 in
/-- C10 fails as stated: logging in session k = 2147483647, whose folder is the highest
on the volume, a button press does not lead to a session with index k + 1. -/
theorem C10_split_counterexample :
    (SessionManager.new false none (mountedEnv [dirEntry "2147483646"])).1.isLogging = true ∧
    (SessionManager.new false none (mountedEnv [dirEntry "2147483646"])).1.getCurrentSession
      = 2147483647 ∧
    (SDCard.findHighestNumberedFolder
      (SessionManager.new false none (mountedEnv [dirEntry "2147483646"])).2 []).1 = 2147483647 ∧
    ((SessionManager.new false none (mountedEnv [dirEntry "2147483646"])).1.update
      (SessionManager.new false none (mountedEnv [dirEntry "2147483646"])).2
      (pressWhileOn 1000)).1.getCurrentSession ≠ 2147483647 + 1 := by
  decide!

set_option maxRecDepth 100000 in
/-- C12 fails as stated: after the toggle was switched on and session 0 started, a later
`update()` with the toggle still on and the button pressed creates session 1. -/
theorem C12_later_creation_counterexample :
    (SessionManager.new true none (mountedEnv [])).1.isLogging = false ∧
    (runUpdates (SessionManager.new true none (mountedEnv [])).1
      (SessionManager.new true none (mountedEnv [])).2 [releaseWhileOn 1000]).1.getCurrentSession
      = 0 ∧
    (runUpdates (SessionManager.new true none (mountedEnv [])).1
      (SessionManager.new true none (mountedEnv [])).2
      [releaseWhileOn 1000, pressWhileOn 2000]).1.getCurrentSession = 1 ∧
    (runUpdates (SessionManager.new true none (mountedEnv [])).1
      (SessionManager.new true none (mountedEnv [])).2
      [releaseWhileOn 1000, pressWhileOn 2000]).2.fs.root = [dirEntry "0", dirEntry "1"] := by
  decide!

end Recorder
